import Mathlib

/-!
Shoe shop front-end: cart slice and resilient API client.

A shallow embedding of `src/frontend/src/store/cartSlice.js`, `authSlice.js`,
`productsSlice.js`, of `src/frontend/src/services/api.js`, of the handlers and validators of
`screens/LoginScreen.js` and `screens/CheckoutScreen.js`, of `utils/environment.js`, and of the
local cart of `src/exempleFrontOnly` (`store/cartSlice.js`, `context/CartContext.js`).

* Reducers written with Immer drafts become pure functions on the slice state.
* Asynchronous thunks become functions of the store state and of the server they talk to;
  every call to the server is logged so that "what the thunk asked for" can be stated.
* JavaScript numbers that hold quantities are `Int`; identifiers are `Nat`.
* A value that JavaScript tests for truthiness (`if (action.payload)`, `a || b`) is an `Option`,
  `none` standing for the falsy values (`undefined`, `null`, `''`).
-/

set_option autoImplicit false

/-! ## Errors seen by the client -/

namespace Api

/-- The request description handed to axios (`config`): only the fields the interceptors touch. -/
structure Config where
  method : Option String
  url : Option String
  /-- The header `config.headers.Authorization`. -/
  authorization : Option String
  /-- The field `config.retryCount`; `none` is `undefined`. -/
  retryCount : Option Nat
deriving DecidableEq, Repr

/-- An HTTP response as far as the client inspects it: `status` and `data?.error`. -/
structure Response where
  status : Nat
  dataError : Option String
deriving DecidableEq, Repr

/-- An axios error: `error.config`, `error.code`, `error.response`, `error.message`. -/
structure AxiosError where
  config : Option Config
  code : Option String
  response : Option Response
  message : String
deriving DecidableEq, Repr

/-- What a promise of the client can be rejected with: an axios error, or a plain
`new Error(message)` (created by the interceptor or thrown by the storage). -/
inductive Failure where
  | axios (e : AxiosError)
  | error (message : String)
deriving DecidableEq, Repr

/-- JavaScript truthiness of an optional string: `undefined`, `null` and `''` are falsy. -/
def truthy (s : Option String) : Option String :=
  s.filter (fun v => v ≠ "")

end Api

/-! ## The cart slice (`store/cartSlice.js`) -/

namespace Cart

/-- A cart line item as the server returns it. -/
structure CartItem where
  id : Nat
  productId : Nat
  size : Nat
  quantity : Int
deriving DecidableEq, Repr

/-- The cart slice state: `{ items, loading, error }`. -/
structure CartState where
  items : List CartItem
  loading : Bool
  error : Option String
deriving DecidableEq, Repr

/-- `initialState` of the slice. -/
def initialState : CartState := { items := [], loading := false, error := none }

/-- `Array.prototype.findIndex`; `none` is JavaScript's `-1`. -/
def findIndex {α : Type} (p : α → Bool) : List α → Option Nat
  | [] => none
  | x :: xs => if p x then some 0 else (findIndex p xs).map (· + 1)

/-- `Array.prototype.find`. -/
def find {α : Type} (p : α → Bool) : List α → Option α
  | [] => none
  | x :: xs => if p x then some x else find p xs

/-- `extractError`: `error?.response?.data?.error || error?.message || 'Unknown error'`. -/
def extractError : Api.Failure → String
  | .axios e =>
    match Api.truthy (e.response.bind (·.dataError)) with
    | some m => m
    | none => if e.message ≠ "" then e.message else "Unknown error"
  | .error message => if message ≠ "" then message else "Unknown error"

/-- `addToCartAsync.fulfilled`: `state.items.unshift(action.payload); state.error = null`. -/
def addToCartAsync_fulfilled (state : CartState) (payload : CartItem) : CartState :=
  { state with items := payload :: state.items, error := none }

/-- The shared body of the three quantity reducers for a truthy payload:
`index = findIndex(item => item.id === payload.id); if (index !== -1) items[index] = payload`. -/
def replaceById (items : List CartItem) (payload : CartItem) : List CartItem :=
  match findIndex (fun item => item.id == payload.id) items with
  | some index => items.set index payload
  | none => items

/-- `updateQuantityAsync.fulfilled`; `argId` is `action.meta.arg.id`. -/
def updateQuantityAsync_fulfilled (state : CartState) (payload : Option CartItem) (argId : Nat) :
    CartState :=
  let items :=
    match payload with
    | some p => replaceById state.items p
    | none => state.items.filter (fun item => item.id != argId)
  { state with items := items, error := none }

/-- `increaseQuantityAsync.fulfilled`; the reducer does not read `action.meta.arg`
(`cartItemId`), which is kept as a parameter to name the targeted line. -/
def increaseQuantityAsync_fulfilled (state : CartState) (payload : Option CartItem)
    (_cartItemId : Nat) : CartState :=
  let items :=
    match payload with
    | some p => replaceById state.items p
    | none => state.items
  { state with items := items, error := none }

/-- `decreaseQuantityAsync.fulfilled`; the reducer does not read `action.meta.arg`. -/
def decreaseQuantityAsync_fulfilled (state : CartState) (payload : Option CartItem)
    (_cartItemId : Nat) : CartState :=
  let items :=
    match payload with
    | some p => replaceById state.items p
    | none => state.items
  { state with items := items, error := none }

/-- The action a thunk ends with: `fulfilled` with the returned payload, or `rejected` with the
value passed to `rejectWithValue`. -/
inductive ThunkAction (α : Type) where
  | fulfilled (payload : α)
  | rejected (value : String)
deriving DecidableEq, Repr

/-- One run of a quantity thunk: the `cartAPI.updateQuantity(id, quantity)` calls it made, in
order, and the action it dispatched at the end. -/
structure ThunkRun where
  requests : List (Nat × Int)
  action : ThunkAction (Option CartItem)
deriving DecidableEq, Repr

/-- The server behind `cartAPI.updateQuantity`: the response data (`none` for "no content"), or
the failure the call is rejected with. -/
abbrev UpdateQuantityServer := Nat → Int → Except Api.Failure (Option CartItem)

/-- The `try { response = await cartAPI.updateQuantity(id, q); return response.data }
catch (error) { return rejectWithValue(extractError(error)) }` block of the quantity thunks. -/
def callUpdateQuantity (server : UpdateQuantityServer) (id : Nat) (quantity : Int) : ThunkRun :=
  match server id quantity with
  | .ok data => { requests := [(id, quantity)], action := .fulfilled data }
  | .error e => { requests := [(id, quantity)], action := .rejected (extractError e) }

/-- `updateQuantityAsync({ id, quantity })`. -/
def updateQuantityAsync (server : UpdateQuantityServer) (id : Nat) (quantity : Int) : ThunkRun :=
  callUpdateQuantity server id quantity

/-- `increaseQuantityAsync(cartItemId)`. -/
def increaseQuantityAsync (server : UpdateQuantityServer) (state : CartState) (cartItemId : Nat) :
    ThunkRun :=
  match find (fun item => item.id == cartItemId) state.items with
  | some cartItem =>
    let newQuantity := cartItem.quantity + 1
    callUpdateQuantity server cartItemId newQuantity
  | none => { requests := [], action := .rejected "Cart item not found" }

/-- `decreaseQuantityAsync(cartItemId)`. -/
def decreaseQuantityAsync (server : UpdateQuantityServer) (state : CartState) (cartItemId : Nat) :
    ThunkRun :=
  match find (fun item => item.id == cartItemId) state.items with
  | some cartItem =>
    let newQuantity := max 1 (cartItem.quantity - 1)
    callUpdateQuantity server cartItemId newQuantity
  | none => { requests := [], action := .rejected "Cart item not found" }

/-- The reducer case for `decreaseQuantityAsync.rejected` (and its siblings):
`state.error = action.payload || action.error.message`; thunks of this slice always reject
through `rejectWithValue`, so the value is the payload. -/
def quantity_rejected (state : CartState) (value : String) : CartState :=
  { state with error := some value }

/-- Dispatching `decreaseQuantityAsync(cartItemId)` against `server`: run the thunk on the current
state, then reduce the action it ends with. -/
def dispatchDecrease (server : UpdateQuantityServer) (state : CartState) (cartItemId : Nat) :
    CartState :=
  match (decreaseQuantityAsync server state cartItemId).action with
  | .fulfilled payload => decreaseQuantityAsync_fulfilled state payload cartItemId
  | .rejected value => quantity_rejected state value

/-- Folding a sequence of `addToCartAsync.fulfilled` actions over a state, first action first. -/
def addAll (state : CartState) (payloads : List CartItem) : CartState :=
  payloads.foldl addToCartAsync_fulfilled state

/-- The line items of a cart for one `(productId, size)`. -/
def linesFor (productId size : Nat) (items : List CartItem) : List CartItem :=
  items.filter (fun item => item.productId == productId && item.size == size)

/-- The sum of the quantities of a list of line items. -/
def totalQuantity (items : List CartItem) : Int :=
  (items.map (·.quantity)).sum

/-- Modelled from the spec: the remote server behind `PUT /cart/:id/quantity`, which is not part
of the front-end sources. Over the lines `stored` it removes a line and returns no content when
the requested quantity is 0, and otherwise returns the line with the requested quantity; an
unknown id is answered with a failure. -/
def quantityServer (stored : List CartItem) : UpdateQuantityServer := fun id quantity =>
  match find (fun item => item.id == id) stored with
  | none => .error (.error "Request failed with status code 404")
  | some item => if quantity = 0 then .ok none else .ok (some { item with quantity := quantity })

/-- A cart with a single line of quantity 1, used to evaluate the reducers. -/
def singleLineCart : CartState :=
  { items := [{ id := 1, productId := 7, size := 42, quantity := 1 }], loading := false,
    error := none }

/-- Two server payloads for the same product and size. -/
def samePairPayloads : List CartItem :=
  [{ id := 1, productId := 7, size := 42, quantity := 1 },
   { id := 2, productId := 7, size := 42, quantity := 2 }]

end Cart

/-! ## The resilient API client (`services/api.js`) -/

namespace Api

/-- `MAX_RETRIES`. -/
def MAX_RETRIES : Nat := 3

/-- `RETRY_DELAY`, in milliseconds. -/
def RETRY_DELAY : ℚ := 1000

/-- The integer nearest to `x`, the even one of the two when `x` lies half way between them. -/
def roundHalfEven (x : ℚ) : ℤ :=
  let f := ⌊x⌋
  if x - f < 1 / 2 then f
  else if 1 / 2 < x - f then f + 1
  else if f % 2 = 0 then f
  else f + 1

/-- The result of a JavaScript arithmetic operation whose exact value is `x`: the number (an
IEEE-754 binary64 value) nearest to `x`, ties going to the even significand.  A number has 53
significant bits, so between `2 ^ e` and `2 ^ (e + 1)` the numbers are the multiples of
`2 ^ (e - 52)`; below `2 ^ (-1022)` they are the multiples of `2 ^ (-1074)`.  Finite results
only: an `x` of `2 ^ 1024` or more in absolute value, which JavaScript turns into `Infinity`,
is outside the model (the delays computed here stay below `5001`). -/
def roundDouble (x : ℚ) : ℚ :=
  let e := max (Int.log 2 |x|) (-1022)
  let ulp : ℚ := 2 ^ (e - 52)
  roundHalfEven (x / ulp) * ulp

/-- `getRetryDelay(retryCount)`; `random` is the number `Math.random()` returns, in `[0, 1)`.
Each of `Math.pow`, `*` and `+` yields the number nearest to its exact result. -/
def getRetryDelay (retryCount : Nat) (random : ℚ) : ℚ :=
  let exponentialDelay := roundDouble (RETRY_DELAY * roundDouble (2 ^ retryCount))
  let jitter := roundDouble (random * 1000)
  roundDouble (exponentialDelay + jitter)

/-- Whether `sub` starts the character list `s`. -/
def startsWith : List Char → List Char → Bool
  | _, [] => true
  | [], _ :: _ => false
  | c :: s, d :: sub => c == d && startsWith s sub

/-- Whether `sub` occurs in the character list `s`. -/
def includesChars : List Char → List Char → Bool
  | [], sub => startsWith [] sub
  | c :: s, sub => startsWith (c :: s) sub || includesChars s sub

/-- `String.prototype.includes`. -/
def includes (s sub : String) : Bool :=
  includesChars s.toList sub.toList

/-- `excludeFromRetry`. -/
def excludeFromRetry : List String := ["/auth/login", "/auth/signup", "/auth/profile"]

/-- `shouldExclude = excludeFromRetry.some(endpoint => config.url?.includes(endpoint))`. -/
def shouldExclude (config : Config) : Bool :=
  excludeFromRetry.any fun endpoint =>
    match config.url with
    | some url => includes url endpoint
    | none => false

/-- The failure is an HTTP 401: `error.response?.status === 401`. -/
def is401 (error : AxiosError) : Bool :=
  match error.response with
  | some r => r.status == 401
  | none => false

/-- `isNetworkError`: the error code is one of the three network-class codes. -/
def isNetworkError (error : AxiosError) : Bool :=
  error.code == some "ECONNABORTED" ||
  error.code == some "ERR_NETWORK" ||
  error.code == some "ECONNREFUSED"

/-- `isServerError = error.response?.status >= 500`. -/
def isServerError (error : AxiosError) : Bool :=
  match error.response with
  | some r => decide (r.status ≥ 500)
  | none => false

/-- `config.retryCount < MAX_RETRIES`; the comparison with `undefined` is false. -/
def belowMaxRetries (config : Config) : Bool :=
  match config.retryCount with
  | some n => decide (n < MAX_RETRIES)
  | none => false

/-- The durable key-value storage (`AsyncStorage`). `getItemThrows` and `removeItemThrows`, when
set, are the message of the error the operation is rejected with. -/
structure Storage where
  data : String → Option String
  getItemThrows : Option String
  removeItemThrows : Option String
  /-- The message of the error `setItem` is rejected with, when it fails. -/
  setItemThrows : Option String := none

/-- `AsyncStorage.getItem(key)`. -/
def Storage.getItem (s : Storage) (key : String) : Except String (Option String) :=
  match s.getItemThrows with
  | some message => .error message
  | none => .ok (s.data key)

/-- `AsyncStorage.removeItem(key)`; a failed removal leaves the storage as it was. -/
def Storage.removeItem (s : Storage) (key : String) : Except String Storage :=
  match s.removeItemThrows with
  | some message => .error message
  | none => .ok { s with data := fun k => if k = key then none else s.data k }

/-- The credential the request interceptor would attach: the stored `token` when it is truthy. -/
def Storage.credential (s : Storage) : Option String :=
  truthy (s.data "token")

/-- How a continuation parked in `failedQueue` is settled by `processQueue`. -/
inductive QueueOutcome where
  /-- The `prom.reject(error)` branch: the queued call is rejected with `error`. -/
  | rejected (f : Failure)
  /-- The `prom.resolve(token)` branch: the queued call sets its Authorization header and is
  re-issued through `api(config)`. -/
  | reissued (config : Config)
deriving DecidableEq, Repr

/-- The process-wide state of the client together with a log of what it did.
`isRefreshing` and `failedQueue` are the module variables; a queue entry is the `config` of
the call whose `{ resolve, reject }` pair was pushed. -/
structure World where
  isRefreshing : Bool
  failedQueue : List Config
  storage : Storage
  /-- The requests sent to the network through `api`, oldest first. -/
  sent : List Config
  /-- The delays passed to `setTimeout` by the retry branch, oldest first. -/
  delays : List ℚ
  /-- The number of connectivity probes made. -/
  probes : Nat
  /-- The number of `AsyncStorage.removeItem('token')` calls made by the interceptor. -/
  removeCalls : Nat
  /-- The queued calls settled by `processQueue`, oldest first. -/
  queueSettled : List (Config × QueueOutcome)

/-- The outcome of one network attempt: a response that axios resolves with, or the fields of the
error it rejects with. -/
inductive NetOutcome where
  | ok (r : Response)
  | fail (code : Option String) (response : Option Response) (message : String)
deriving DecidableEq, Repr

/-- The environment of a call: the network, the connectivity probe and the random source, each
indexed by the number of requests sent before. -/
structure Env where
  net : Nat → NetOutcome
  probe : Nat → NetOutcome
  random : Nat → ℚ

/-- How a call of `api(config)` ends. -/
inductive Outcome where
  | resolved (r : Response)
  | rejected (f : Failure)
  /-- The call sits in `failedQueue` until a later `processQueue` settles it. -/
  | queued
deriving DecidableEq, Repr

/-- `isNetworkConnected`, given the outcome of its `axios.get(base + '/products')`:
`response.status === 200`, and `false` when the request throws. -/
def isNetworkConnected : NetOutcome → Bool
  | .ok r => r.status == 200
  | .fail _ _ _ => false

/-- `processQueue(error, token)`: every queued continuation is rejected with `error` when it is
truthy and resolved with `token` otherwise (it then sets `Bearer ${token}` and re-issues);
`isRefreshing` becomes false and `failedQueue` empty. -/
def processQueue (w : World) (error : Option Failure) (token : Option String) : World :=
  let settle (config : Config) : Config × QueueOutcome :=
    match error with
    | some e => (config, .rejected e)
    | none => (config, .reissued { config with authorization := some ("Bearer " ++ token.getD "null") })
  { w with
    queueSettled := w.queueSettled ++ w.failedQueue.map settle
    isRefreshing := false
    failedQueue := [] }

/-- The request interceptor: attach the stored token when it is truthy and initialise
`retryCount` (`config.retryCount || 0`). A storage error rejects the request. -/
def requestInterceptor (storage : Storage) (config : Config) : Except Failure Config :=
  match storage.getItem "token" with
  | .error message => .error (.error message)
  | .ok token =>
    let config :=
      match truthy token with
      | some t => { config with authorization := some ("Bearer " ++ t) }
      | none => config
    .ok { config with retryCount := some (config.retryCount.getD 0) }

/-- The synchronous start of the response error handler for a failure that arrives while another
handler is suspended: a 401 on a non-excluded endpoint met with `isRefreshing` set pushes its
continuation on `failedQueue`; the other branches do not touch the shared state. -/
def arrive (w : World) (error : AxiosError) : World :=
  match error.config with
  | none => w
  | some config =>
    if is401 error && !shouldExclude config && w.isRefreshing then
      { w with failedQueue := w.failedQueue ++ [config] }
    else w

/-- The response error handler (`async (error) => ...`).

* `reissue` is `api`, called by the retry branch.
* `probe` and `random` are the results of the connectivity probe and of `Math.random()`, used
  by the retry branch.
* `arrivals1` and `arrivals2` are the failures whose handlers start while this one is suspended
  in `await AsyncStorage.getItem` and in `await AsyncStorage.removeItem`. -/
def onRejected (reissue : World → Config → Option (World × Outcome)) (probe : NetOutcome)
    (random : ℚ) (arrivals1 arrivals2 : List AxiosError) (w : World) (error : AxiosError) :
    Option (World × Outcome) :=
  match error.config with
  | none => some (w, .rejected (.axios error))
  | some config =>
    if is401 error && !shouldExclude config then
      if w.isRefreshing then
        some ({ w with failedQueue := w.failedQueue ++ [config] }, .queued)
      else
        let w := { w with isRefreshing := true }
        let w := arrivals1.foldl arrive w
        match w.storage.getItem "token" with
        | .error message =>
          some (processQueue w (some (.error message)) none, .rejected (.error message))
        | .ok token =>
          match truthy token with
          | some _ =>
            let w := { w with removeCalls := w.removeCalls + 1 }
            match w.storage.removeItem "token" with
            | .error message =>
              let w := arrivals2.foldl arrive w
              some (processQueue w (some (.error message)) none, .rejected (.error message))
            | .ok storage =>
              let w := arrivals2.foldl arrive { w with storage := storage }
              some (processQueue w (some (.error "Token refresh failed. Please login again.")) none,
                .rejected (.axios error))
          | none =>
            some (processQueue w (some (.error "Token refresh failed. Please login again.")) none,
              .rejected (.axios error))
    else
      let shouldRetry := (isNetworkError error || isServerError error) && !shouldExclude config
      if shouldRetry && belowMaxRetries config then
        let config := { config with retryCount := config.retryCount.map (· + 1) }
        let delay := getRetryDelay (config.retryCount.getD 0 - 1) random
        let w := { w with delays := w.delays ++ [delay], probes := w.probes + 1 }
        if isNetworkConnected probe then reissue w config
        else some (w, .rejected (.error "Network unavailable. Please check your connection."))
      else
        some (w, .rejected (.axios error))

/-- One call `api(config)`: the request interceptor, the network attempt, and on failure the
response error handler, which may call `api` again. `fuel` bounds the number of attempts;
`none` means the bound was hit. In this sequential run no other failure arrives while the
handler is suspended. -/
def api (env : Env) : Nat → World → Config → Option (World × Outcome)
  | 0, _, _ => none
  | fuel + 1, w, config =>
    match requestInterceptor w.storage config with
    | .error f => some (w, .rejected f)
    | .ok config =>
      let k := w.sent.length
      let w := { w with sent := w.sent ++ [config] }
      match env.net k with
      | .ok r => some (w, .resolved r)
      | .fail code response message =>
        onRejected (api env fuel) (env.probe k) (env.random k) [] [] w
          { config := some config, code := code, response := response, message := message }

/-- The configs pushed on `failedQueue` by a list of failures whose handlers start while
`isRefreshing` is set: those of the 401 failures on non-excluded endpoints, in order. -/
def enqueued (arrivals : List AxiosError) : List Config :=
  arrivals.filterMap fun error =>
    match error.config with
    | some config => if is401 error && !shouldExclude config then some config else none
    | none => none

/-- A network outcome that the handler classifies as network-class or server error: a failure
with one of the three network codes or a status of 500 or more, and not a 401 response. -/
def retryable : NetOutcome → Bool
  | .ok _ => false
  | .fail code response message =>
    let error : AxiosError :=
      { config := none, code := code, response := response, message := message }
    (isNetworkError error || isServerError error) && !is401 error

/-- A request for the cart, as `cartAPI.getCart` hands it to axios. -/
def cartConfig : Config :=
  { method := some "get", url := some "/cart", authorization := none, retryCount := none }

/-- A request for the orders. -/
def ordersConfig : Config :=
  { method := some "get", url := some "/orders", authorization := none, retryCount := none }

/-- The login request, as `authAPI.login` hands it to axios. -/
def loginConfig : Config :=
  { method := some "post", url := some "/auth/login", authorization := none, retryCount := none }

/-- A working storage that holds `token` under the key `token` and nothing else. -/
def storageWith (token : Option String) : Storage :=
  { data := fun k => if k = "token" then token else none
    getItemThrows := none
    removeItemThrows := none }

/-- The client at rest over a given storage: no invalidation in progress, nothing logged. -/
def idleWorld (storage : Storage) : World :=
  { isRefreshing := false, failedQueue := [], storage := storage, sent := [], delays := [],
    probes := 0, removeCalls := 0, queueSettled := [] }

/-- An environment in which every attempt times out while the connectivity probe answers 200. -/
def timeoutEnv : Env :=
  { net := fun _ => .fail (some "ECONNABORTED") none "timeout of 10000ms exceeded"
    probe := fun _ => .ok { status := 200, dataError := none }
    random := fun _ => 1 / 2 }

/-- An environment in which every attempt is answered with a 503 while the probe answers 200. -/
def unavailableEnv : Env :=
  { net := fun _ =>
      .fail (some "ERR_BAD_RESPONSE") (some { status := 503, dataError := none })
        "Request failed with status code 503"
    probe := fun _ => .ok { status := 200, dataError := none }
    random := fun _ => 1 / 2 }

/-- The login request as it leaves the request interceptor when the token `abc` is stored. -/
def sentLoginConfig : Config :=
  { loginConfig with authorization := some "Bearer abc", retryCount := some 0 }

/-- A storage that holds the token `abc` and whose reads fail. -/
def unreadableStorage : Storage :=
  { storageWith (some "abc") with getItemThrows := some "Storage unavailable" }

/-- A 401 response to the request `config`. -/
def unauthorized (config : Config) : AxiosError :=
  { config := some config, code := some "ERR_BAD_REQUEST",
    response := some { status := 401, dataError := none },
    message := "Request failed with status code 401" }

end Api

/-! ## Token management (`services/api.js`) -/

namespace Api

/-- `AsyncStorage.setItem(key, value)`; a failed write leaves the storage as it was. -/
def Storage.setItem (s : Storage) (key value : String) : Except String Storage :=
  match s.setItemThrows with
  | some message => .error message
  | none => .ok { s with data := fun k => if k = key then some value else s.data k }

/-- `setAuthToken(token)`: `await AsyncStorage.setItem('token', token)`. -/
def setAuthToken (s : Storage) (token : String) : Except String Storage :=
  s.setItem "token" token

/-- `clearAuthToken()`: `await AsyncStorage.removeItem('token')`. -/
def clearAuthToken (s : Storage) : Except String Storage :=
  s.removeItem "token"

/-- `getAuthToken()`: `return await AsyncStorage.getItem('token')`. -/
def getAuthToken (s : Storage) : Except String (Option String) :=
  s.getItem "token"

end Api

/-! ## Rejected thunk actions -/

namespace Store

/-- A rejected thunk action as the cart and products reducers read it: `action.payload` (the
value given to `rejectWithValue`) and `action.error.message`. -/
structure Rejected where
  payload : Option String
  errorMessage : Option String
deriving DecidableEq, Repr

/-- The value `action.payload || action.error.message`. -/
def Rejected.value (r : Rejected) : Option String :=
  match Api.truthy r.payload with
  | some p => some p
  | none => r.errorMessage

/-- The rejected action dispatched after `rejectWithValue(value)`: the payload is `value` and
`action.error.message` is the toolkit's `'Rejected'`. -/
def rejectedWithValue (value : String) : Rejected :=
  { payload := some value, errorMessage := some "Rejected" }

end Store

/-! ## The auth slice (`store/authSlice.js`) -/

namespace Auth

/-- The `user` object inside the data of an auth response; `id` is falsy when absent or 0. -/
structure UserInfo where
  id : Option Nat
  username : Option String
deriving DecidableEq, Repr

/-- The data of a successful auth response: `{ token, user }`. -/
structure AuthData where
  token : Option String
  user : Option UserInfo
deriving DecidableEq, Repr

/-- The body of a response as an auth thunk passes it on: a plain text, or an object known
through its `error` field. -/
inductive Body where
  | text (s : String)
  | object (error : Option String)
deriving DecidableEq, Repr

/-- JavaScript truthiness of an optional body: absent and the empty text are falsy. -/
def truthyBody : Option Body → Option Body
  | some (.text s) => if s ≠ "" then some (.text s) else none
  | some (.object e) => some (.object e)
  | none => none

/-- An error caught by an auth thunk: the failure the API client rejected with, and
`error.response?.data`. -/
structure AuthFailure where
  failure : Api.Failure
  data : Option Body
deriving DecidableEq, Repr

/-- The auth slice state: `{ user, isAuthenticated, loading, error }`. -/
structure AuthState where
  user : Option AuthData
  isAuthenticated : Bool
  loading : Bool
  error : Option Body
deriving DecidableEq, Repr

/-- `initialState` of the auth slice. -/
def initialState : AuthState :=
  { user := none, isAuthenticated := false, loading := false, error := none }

/-- The actions the auth reducer can receive; the payload of a rejected action is
`action.payload`, `none` when the thunk threw instead of calling `rejectWithValue`. -/
inductive Action where
  | restoreAuth_pending
  | restoreAuth_fulfilled (payload : AuthData)
  | restoreAuth_rejected (payload : Option Body)
  | loginUser_pending
  | loginUser_fulfilled (payload : AuthData)
  | loginUser_rejected (payload : Option Body)
  | signupUser_pending
  | signupUser_fulfilled (payload : AuthData)
  | signupUser_rejected (payload : Option Body)
  | logout
  | clearError
deriving DecidableEq, Repr

/-- The reducer of the auth slice (`reducers` and `extraReducers`); an action without a case
leaves the state as it is. The `clearAuthToken()` call started by `logout` acts on the storage,
not on the slice state. -/
def authReducer (state : AuthState) : Action → AuthState
  | .restoreAuth_pending => state
  | .restoreAuth_fulfilled payload =>
    { state with isAuthenticated := true, user := some payload, loading := false }
  | .restoreAuth_rejected _ =>
    { state with isAuthenticated := false, user := none, loading := false }
  | .loginUser_pending => { state with loading := true, error := none }
  | .loginUser_fulfilled payload =>
    { state with loading := false, isAuthenticated := true, user := some payload }
  | .loginUser_rejected payload => { state with loading := false, error := payload }
  | .signupUser_pending => { state with loading := true, error := none }
  | .signupUser_fulfilled payload =>
    { state with loading := false, isAuthenticated := true, user := some payload }
  | .signupUser_rejected payload => { state with loading := false, error := payload }
  | .logout => { state with user := none, isAuthenticated := false, error := none }
  | .clearError => { state with error := none }

/-- The value `getState().auth.user?.user?.id` when it is truthy. -/
def userId (auth : AuthState) : Option Nat :=
  match auth.user with
  | none => none
  | some data =>
    match data.user with
    | none => none
    | some info =>
      match info.id with
      | some n => if n ≠ 0 then some n else none
      | none => none

/-- One run of an auth thunk: the storage it leaves, the number of requests it made to the
server, and the action it ends with. -/
structure Run where
  storage : Api.Storage
  requests : Nat
  action : Action

/-- The `catch` block of `restoreAuth`: `await clearAuthToken(); return
rejectWithValue('Invalid token')`. When the removal itself throws, the thunk throws and the
rejected action has no payload. -/
def restoreAuthCatch (storage : Api.Storage) (requests : Nat) : Run :=
  match Api.clearAuthToken storage with
  | .ok cleared =>
    { storage := cleared, requests := requests,
      action := .restoreAuth_rejected (some (.text "Invalid token")) }
  | .error _ => { storage := storage, requests := requests, action := .restoreAuth_rejected none }

/-- `restoreAuth()`; `getProfile` is the outcome of `authAPI.getProfile()`. -/
def restoreAuth (storage : Api.Storage) (getProfile : Except AuthFailure AuthData) : Run :=
  match Api.getAuthToken storage with
  | .error _ => restoreAuthCatch storage 0
  | .ok token =>
    match Api.truthy token with
    | some _ =>
      match getProfile with
      | .ok data => { storage := storage, requests := 1, action := .restoreAuth_fulfilled data }
      | .error _ => restoreAuthCatch storage 1
    | none =>
      { storage := storage, requests := 0,
        action := .restoreAuth_rejected (some (.text "No token found")) }

/-- The value `error.response?.data || fallback` of the `catch` blocks of login and signup. -/
def rejectValue (data : Option Body) (fallback : String) : Body :=
  match truthyBody data with
  | some body => body
  | none => .text fallback

/-- `loginUser({ username, password })`; `login` is the outcome of `authAPI.login`. -/
def loginUser (storage : Api.Storage) (login : Except AuthFailure AuthData) : Run :=
  match login with
  | .ok data =>
    match Api.truthy data.token with
    | some token =>
      match Api.setAuthToken storage token with
      | .ok stored => { storage := stored, requests := 1, action := .loginUser_fulfilled data }
      | .error _ =>
        { storage := storage, requests := 1,
          action := .loginUser_rejected (some (rejectValue none "Login failed")) }
    | none => { storage := storage, requests := 1, action := .loginUser_fulfilled data }
  | .error e =>
    { storage := storage, requests := 1,
      action := .loginUser_rejected (some (rejectValue e.data "Login failed")) }

/-- `signupUser(userData)`; `signup` is the outcome of `authAPI.signup`. -/
def signupUser (storage : Api.Storage) (signup : Except AuthFailure AuthData) : Run :=
  match signup with
  | .ok data =>
    match Api.truthy data.token with
    | some token =>
      match Api.setAuthToken storage token with
      | .ok stored => { storage := stored, requests := 1, action := .signupUser_fulfilled data }
      | .error _ =>
        { storage := storage, requests := 1,
          action := .signupUser_rejected (some (rejectValue none "Signup failed")) }
    | none => { storage := storage, requests := 1, action := .signupUser_fulfilled data }
  | .error e =>
    { storage := storage, requests := 1,
      action := .signupUser_rejected (some (rejectValue e.data "Signup failed")) }

end Auth

/-! ## The cart slice as a reducer, and its remaining thunks -/

namespace Cart

/-- The actions the cart reducer can receive: the three lifecycle actions of each thunk, the
slice's own `clearCart`, and the auth slice's `logout`. -/
inductive Action where
  | fetchCart_pending
  | fetchCart_fulfilled (payload : List CartItem)
  | fetchCart_rejected (r : Store.Rejected)
  | addToCartAsync_pending
  | addToCartAsync_fulfilled (payload : CartItem)
  | addToCartAsync_rejected (r : Store.Rejected)
  | removeFromCartAsync_pending
  | removeFromCartAsync_fulfilled (payload : Nat)
  | removeFromCartAsync_rejected (r : Store.Rejected)
  | updateQuantityAsync_pending
  | updateQuantityAsync_fulfilled (payload : Option CartItem) (argId : Nat)
  | updateQuantityAsync_rejected (r : Store.Rejected)
  | increaseQuantityAsync_pending
  | increaseQuantityAsync_fulfilled (payload : Option CartItem) (cartItemId : Nat)
  | increaseQuantityAsync_rejected (r : Store.Rejected)
  | decreaseQuantityAsync_pending
  | decreaseQuantityAsync_fulfilled (payload : Option CartItem) (cartItemId : Nat)
  | decreaseQuantityAsync_rejected (r : Store.Rejected)
  | clearCart
  | logout
deriving DecidableEq, Repr

/-- The reducer cases that only record the rejection:
`state.error = action.payload || action.error.message`. -/
def setError (state : CartState) (r : Store.Rejected) : CartState :=
  { state with error := r.value }

/-- The reducer of the cart slice (`reducers` and `extraReducers`); an action without a case
leaves the state as it is. -/
def cartReducer (state : CartState) : Action → CartState
  | .fetchCart_pending => { state with loading := true }
  | .fetchCart_fulfilled payload => { state with loading := false, items := payload }
  | .fetchCart_rejected r => { state with loading := false, error := r.value }
  | .addToCartAsync_pending => state
  | .addToCartAsync_fulfilled payload => addToCartAsync_fulfilled state payload
  | .addToCartAsync_rejected r => setError state r
  | .removeFromCartAsync_pending => state
  | .removeFromCartAsync_fulfilled payload =>
    { state with items := state.items.filter (fun item => item.id != payload) }
  | .removeFromCartAsync_rejected r => setError state r
  | .updateQuantityAsync_pending => state
  | .updateQuantityAsync_fulfilled payload argId => updateQuantityAsync_fulfilled state payload argId
  | .updateQuantityAsync_rejected r => setError state r
  | .increaseQuantityAsync_pending => state
  | .increaseQuantityAsync_fulfilled payload cartItemId =>
    increaseQuantityAsync_fulfilled state payload cartItemId
  | .increaseQuantityAsync_rejected r => setError state r
  | .decreaseQuantityAsync_pending => state
  | .decreaseQuantityAsync_fulfilled payload cartItemId =>
    decreaseQuantityAsync_fulfilled state payload cartItemId
  | .decreaseQuantityAsync_rejected r => setError state r
  | .clearCart => { state with items := [], loading := false, error := none }
  | .logout => { state with items := [], loading := false, error := none }

/-- One run of a cart thunk that sends requests of type `ρ` and returns data of type `α`: the
requests it made to the server, in order, and the action it ends with. -/
structure Run (ρ α : Type) where
  requests : List ρ
  action : ThunkAction α

/-- `fetchCart()`; `getCart` is the outcome of `cartAPI.getCart()`. Without a user id in the
auth state the thunk returns `[]` before the `try` block. -/
def fetchCart (getCart : Except Api.Failure (List CartItem)) (auth : Auth.AuthState) :
    Run Unit (List CartItem) :=
  match Auth.userId auth with
  | none => { requests := [], action := .fulfilled [] }
  | some _ =>
    match getCart with
    | .ok data => { requests := [()], action := .fulfilled data }
    | .error e => { requests := [()], action := .rejected (extractError e) }

/-- `addToCartAsync({ productId, size, quantity })`; `addToCart` is `cartAPI.addToCart`. -/
def addToCartAsync (addToCart : Nat → Nat → Int → Except Api.Failure CartItem)
    (auth : Auth.AuthState) (productId size : Nat) (quantity : Int) :
    Run (Nat × Nat × Int) CartItem :=
  match Auth.userId auth with
  | none =>
    { requests := [], action := .rejected "You must be logged in to add items to the cart" }
  | some _ =>
    match addToCart productId size quantity with
    | .ok data => { requests := [(productId, size, quantity)], action := .fulfilled data }
    | .error e =>
      { requests := [(productId, size, quantity)], action := .rejected (extractError e) }

/-- `removeFromCartAsync(id)`; `removeFromCart` is `cartAPI.removeFromCart`. -/
def removeFromCartAsync (removeFromCart : Nat → Except Api.Failure Unit) (id : Nat) :
    Run Nat Nat :=
  match removeFromCart id with
  | .ok _ => { requests := [id], action := .fulfilled id }
  | .error e => { requests := [id], action := .rejected (extractError e) }

/-- Dispatching `fetchCart()`: the pending action is reduced, the thunk runs, and the action it
ends with is reduced. -/
def dispatchFetchCart (getCart : Except Api.Failure (List CartItem)) (auth : Auth.AuthState)
    (state : CartState) : CartState :=
  let pending := cartReducer state .fetchCart_pending
  match (fetchCart getCart auth).action with
  | .fulfilled payload => cartReducer pending (.fetchCart_fulfilled payload)
  | .rejected value => cartReducer pending (.fetchCart_rejected (Store.rejectedWithValue value))

end Cart

/-! ## The products slice (`store/productsSlice.js`) -/

namespace Products

/-- A product as the server lists it. -/
structure Product where
  id : Nat
  name : String
  price : Nat
deriving DecidableEq, Repr

/-- The products slice state: `{ items, loading, error }`. -/
structure ProductsState where
  items : List Product
  loading : Bool
  error : Option String
deriving DecidableEq, Repr

/-- `initialState` of the products slice. -/
def initialState : ProductsState := { items := [], loading := false, error := none }

/-- The lifecycle actions of `fetchProducts`. -/
inductive Action where
  | fetchProducts_pending
  | fetchProducts_fulfilled (payload : List Product)
  | fetchProducts_rejected (r : Store.Rejected)
deriving DecidableEq, Repr

/-- The reducer of the products slice. -/
def productsReducer (state : ProductsState) : Action → ProductsState
  | .fetchProducts_pending => { state with loading := true, error := none }
  | .fetchProducts_fulfilled payload => { state with loading := false, items := payload }
  | .fetchProducts_rejected r => { state with loading := false, error := r.value }

/-- The `message` of a caught error (`err?.message`). -/
def errorMessage : Api.Failure → String
  | .axios e => e.message
  | .error message => message

/-- `fetchProducts()`; `getAll` is the outcome of `productAPI.getAll()`. The thunk ends fulfilled
with the response data, or rejected with `err?.message || 'Fetch failed'`. -/
def fetchProducts (getAll : Except Api.Failure (List Product)) : Cart.ThunkAction (List Product) :=
  match getAll with
  | .ok data => .fulfilled data
  | .error err =>
    .rejected (if errorMessage err ≠ "" then errorMessage err else "Fetch failed")

end Products

/-! ## Sample values -/

namespace Auth

/-- An auth state holding the given error while a request is in flight. -/
def failedWhileLoading : AuthState :=
  { user := none, isAuthenticated := false, loading := true,
    error := some (.text "Login failed") }

/-- The data of a successful login of user 5. -/
def aliceData : AuthData :=
  { token := some "abc", user := some { id := some 5, username := some "alice" } }

/-- The error of a profile request that timed out: network-class, without a response. -/
def profileTimeoutError : Api.AxiosError :=
  { config := some { method := some "get", url := some "/auth/profile",
                     authorization := some "Bearer abc", retryCount := some 0 },
    code := some "ECONNABORTED", response := none, message := "timeout of 10000ms exceeded" }

/-- A profile request that timed out. -/
def profileTimeout : AuthFailure :=
  { failure := .axios profileTimeoutError, data := none }

/-- The error of a profile request answered with a 503. -/
def profileUnavailableError : Api.AxiosError :=
  { config := some { method := some "get", url := some "/auth/profile",
                     authorization := some "Bearer abc", retryCount := some 0 },
    code := some "ERR_BAD_RESPONSE",
    response := some { status := 503, dataError := some "Service unavailable" },
    message := "Request failed with status code 503" }

/-- A profile request answered with a 503. -/
def profileUnavailable : AuthFailure :=
  { failure := .axios profileUnavailableError,
    data := some (.object (some "Service unavailable")) }

/-- A login answered with a 401 whose body is an object carrying the server's message. -/
def badCredentials : AuthFailure :=
  { failure := .axios
      { config := some { method := some "post", url := some "/auth/login",
                         authorization := none, retryCount := some 0 },
        code := some "ERR_BAD_REQUEST",
        response := some { status := 401, dataError := some "Invalid credentials" },
        message := "Request failed with status code 401" }
    data := some (.object (some "Invalid credentials")) }

end Auth

namespace Cart

/-- A cart state holding an error while a request is in flight. -/
def failedWhileLoading : CartState :=
  { items := [], loading := true, error := some "Network Error" }

end Cart

namespace Products

/-- The error of a product listing answered with a 500 that carries a server message. -/
def databaseDownError : Api.AxiosError :=
  { config := some { method := some "get", url := some "/products", authorization := none,
                     retryCount := some 3 },
    code := some "ERR_BAD_RESPONSE",
    response := some { status := 500, dataError := some "Database down" },
    message := "Request failed with status code 500" }

/-- A failed product listing whose response carries a server message. -/
def databaseDown : Api.Failure := .axios databaseDownError

end Products

namespace Api

/-- A request for the cart that is being re-issued after a first attempt sent the token `abc`. -/
def reissuedCartConfig : Config :=
  { method := some "get", url := some "/cart", authorization := some "Bearer abc",
    retryCount := some 1 }

end Api

/-! ## Dispatching the auth thunks -/

namespace Auth

/-- Dispatching `loginUser(...)`: the pending action is reduced, the thunk runs against the
storage, and the action it ends with is reduced. -/
def dispatchLogin (storage : Api.Storage) (login : Except AuthFailure AuthData)
    (state : AuthState) : Api.Storage × AuthState :=
  let pending := authReducer state .loginUser_pending
  let run := loginUser storage login
  (run.storage, authReducer pending run.action)

/-- Dispatching `signupUser(...)`. -/
def dispatchSignup (storage : Api.Storage) (signup : Except AuthFailure AuthData)
    (state : AuthState) : Api.Storage × AuthState :=
  let pending := authReducer state .signupUser_pending
  let run := signupUser storage signup
  (run.storage, authReducer pending run.action)

/-- The state reached from the initial state by a sequence of actions, first action first. -/
def reach (actions : List Action) : AuthState :=
  actions.foldl authReducer initialState

end Auth

/-! ## The local cart (`exempleFrontOnly`: `store/cartSlice.js` and `context/CartContext.js`) -/

namespace LocalCart

/-- A product of the local catalogue; `id` may be missing on the object. -/
structure Product where
  id : Option Nat
  name : String
deriving DecidableEq, Repr

/-- A line of the local cart: `{ product, size, quantity }`; `product` may be missing. -/
structure Item where
  product : Option Product
  size : Nat
  quantity : Int
deriving DecidableEq, Repr

/-- The value `i.product?.id`; `none` is `undefined`. -/
def Item.productId (i : Item) : Option Nat :=
  i.product.bind (fun p => p.id)

/-- The payload of `addToCart`: `{ product, quantity = 1, size = 42 }`. -/
structure AddPayload where
  product : Product
  quantity : Option Int
  size : Option Nat
deriving DecidableEq, Repr

/-- The quantity an `addToCart` payload adds, with its default. -/
def AddPayload.added (p : AddPayload) : Int := p.quantity.getD 1

/-- The size of an `addToCart` payload, with its default. -/
def AddPayload.sizeOrDefault (p : AddPayload) : Nat := p.size.getD 42

/-- Applying `f` to the element at position `index`. -/
def modifyAt {α : Type} (f : α → α) : Nat → List α → List α
  | _, [] => []
  | 0, x :: xs => f x :: xs
  | n + 1, x :: xs => x :: modifyAt f n xs

/-- The `addToCart` reducer of the Redux slice: the first line with the same product id and
size has its quantity raised, otherwise a new line is put in front. -/
def addToCart (items : List Item) (payload : AddPayload) : List Item :=
  let quantity := payload.added
  let size := payload.sizeOrDefault
  match Cart.findIndex (fun i => i.productId == payload.product.id && i.size == size) items with
  | some existingIndex =>
    modifyAt (fun i => { i with quantity := i.quantity + quantity }) existingIndex items
  | none => { product := some payload.product, size := size, quantity := quantity } :: items

/-- The `increaseQuantity` reducer of the Redux slice: the first line with the product id, if
any, gains 1. -/
def increaseQuantity (items : List Item) (productId : Option Nat) : List Item :=
  match Cart.findIndex (fun i => i.productId == productId) items with
  | some index => modifyAt (fun i => { i with quantity := i.quantity + 1 }) index items
  | none => items

/-- The `decreaseQuantity` reducer of the Redux slice: every line with the product id loses 1,
then the lines whose quantity is not positive are dropped. -/
def decreaseQuantity (items : List Item) (productId : Option Nat) : List Item :=
  (items.map fun i =>
    if i.productId = productId then { i with quantity := i.quantity - 1 } else i).filter
    fun i => decide (i.quantity > 0)

/-- `addToCart` of `CartContext`: when a line with the same product id and size exists, every
such line has its quantity raised; otherwise a new line is put in front. -/
def contextAddToCart (curr : List Item) (product : Product) (quantity : Option Int)
    (size : Option Nat) : List Item :=
  let quantity := quantity.getD 1
  let size := size.getD 42
  match Cart.find (fun i => i.productId == product.id && i.size == size) curr with
  | some _ =>
    curr.map fun i =>
      if i.productId = product.id ∧ i.size = size then
        { i with quantity := i.quantity + quantity }
      else i
  | none => { product := some product, size := size, quantity := quantity } :: curr

/-- `increaseQuantity` of `CartContext`: every line with the product id gains 1. -/
def contextIncreaseQuantity (curr : List Item) (productId : Option Nat) : List Item :=
  curr.map fun i =>
    if i.productId = productId then { i with quantity := i.quantity + 1 } else i

/-- `decreaseQuantity` of `CartContext`. -/
def contextDecreaseQuantity (curr : List Item) (productId : Option Nat) : List Item :=
  (curr.map fun i =>
    if i.productId = productId then { i with quantity := i.quantity - 1 } else i).filter
    fun i => decide (i.quantity > 0)

/-- Applying `f` to the first element that satisfies `p`: what a `findIndex` followed by an
assignment at that index does. -/
def bumpFirst {α : Type} (p : α → Bool) (f : α → α) : List α → List α
  | [] => []
  | x :: xs => if p x then f x :: xs else x :: bumpFirst p f xs

/-- The uniqueness key of a line when additions are merged: `(product.id, size)`. -/
def Item.key (i : Item) : Option Nat × Nat := (i.productId, i.size)

/-- The key an `addToCart` payload is merged under. -/
def AddPayload.key (p : AddPayload) : Option Nat × Nat := (p.product.id, p.sizeOrDefault)

/-- The sum of the quantities of the lines with the key `k`. -/
def quantityFor (k : Option Nat × Nat) (items : List Item) : Int :=
  ((items.filter fun i => i.key = k).map fun i => i.quantity).sum

/-- The sum of the quantities that the payloads with the key `k` add. -/
def addedFor (k : Option Nat × Nat) (payloads : List AddPayload) : Int :=
  ((payloads.filter fun p => p.key = k).map fun p => p.added).sum

/-- Folding a sequence of `addToCart` actions over a cart, first action first. -/
def addAll (items : List Item) (payloads : List AddPayload) : List Item :=
  payloads.foldl addToCart items

/-- A local cart with two lines. -/
def sampleItems : List Item :=
  [{ product := some { id := some 1, name := "Runner" }, size := 42, quantity := 1 },
   { product := some { id := some 2, name := "Trail" }, size := 40, quantity := 3 }]

/-- Two additions: one for the first sample line, one for a new product. -/
def samplePayloads : List AddPayload :=
  [{ product := { id := some 1, name := "Runner" }, quantity := some 2, size := some 42 },
   { product := { id := some 3, name := "Court" }, quantity := none, size := none }]

end LocalCart

/-! ## Strings as the screens and utilities read them -/

namespace Text

/-- JavaScript's white space and line terminators: what `trim()` strips and `\s` matches. -/
def isSpace (c : Char) : Bool :=
  let n := c.toNat
  n == 0x09 || n == 0x0A || n == 0x0B || n == 0x0C || n == 0x0D || n == 0x20 || n == 0xA0 ||
  n == 0x1680 || (0x2000 ≤ n && n ≤ 0x200A) || n == 0x2028 || n == 0x2029 || n == 0x202F ||
  n == 0x205F || n == 0x3000 || n == 0xFEFF

/-- The regular expression class `\d`: the ASCII digits. -/
def isDigit (c : Char) : Bool :=
  48 ≤ c.toNat && c.toNat ≤ 57

/-- `!s.trim()`: the trimmed string is empty. -/
def isBlank (s : String) : Bool :=
  s.toList.all isSpace

/-- `s.trim()`, as a list of characters. -/
def trim (s : String) : List Char :=
  ((s.toList.dropWhile isSpace).reverse.dropWhile isSpace).reverse

/-- The `length` of a JavaScript string: its number of UTF-16 code units. -/
def jsLength (cs : List Char) : Nat :=
  (cs.map fun c => if c.toNat < 0x10000 then 1 else 2).sum

/-- `parseInt` of a string of ASCII digits. -/
def parseDigits (cs : List Char) : Nat :=
  cs.foldl (fun n c => 10 * n + (c.toNat - 48)) 0

/-- `s.split(separator)` for a one-character separator, on lists of characters. -/
def splitOn (separator : Char) : List Char → List (List Char)
  | [] => [[]]
  | c :: cs =>
    if c = separator then [] :: splitOn separator cs
    else
      match splitOn separator cs with
      | [] => [[c]]
      | part :: parts => (c :: part) :: parts

end Text

/-! ## The admin environment check (`utils/environment.js`) -/

namespace Environment

/-- `LOCAL_HOSTNAMES`. -/
def LOCAL_HOSTNAMES : List String := ["localhost", "127.0.0.1", "[::1]"]

/-- `PRIVATE_PREFIXES`. -/
def PRIVATE_PREFIXES : List String := ["127.", "192.168.", "10."]

/-- `isPrivate172Range(host)`. The builtin `Number` is a parameter: `number s` is the value of
`Number(s)` when that is a finite number, and `none` when it is `NaN` or infinite, for which
both comparisons cannot hold together. -/
def isPrivate172Range (number : String → Option ℚ) (host : String) : Bool :=
  if !Api.startsWith host.toList "172.".toList then false
  else
    let parts := Text.splitOn '.' host.toList
    if parts.length < 2 then false
    else
      match number (String.mk (parts.getD 1 [])) with
      | some secondOctet => decide (secondOctet ≥ 16) && decide (secondOctet ≤ 31)
      | none => false

/-- `isLocalHost(host)`; `none` is a `null` or `undefined` host. -/
def isLocalHost (number : String → Option ℚ) (host : Option String) : Bool :=
  match Api.truthy host with
  | none => false
  | some host =>
    if LOCAL_HOSTNAMES.contains host then true
    else if host = "::1" ∨ host = "0:0:0:0:0:0:0:1" then true
    else if PRIVATE_PREFIXES.any (fun p => Api.startsWith host.toList p.toList) then true
    else isPrivate172Range number host

end Environment

/-! ## The login screen (`screens/LoginScreen.js`) -/

namespace Screens

/-- What a handler of the login screen does: it shows an alert or dispatches a thunk. -/
inductive LoginEffect where
  | alert (title message : String)
  | dispatchLoginUser (username password : String)
  | dispatchSignupUser (username password email firstName lastName : String)
deriving DecidableEq, Repr

/-- `handleLogin`, on the `username` and `password` of the component state. -/
def handleLogin (username password : String) : LoginEffect :=
  if username = "" ∨ password = "" then
    .alert "Error" "Please enter both username and password"
  else .dispatchLoginUser username password

/-- `handleSignup`, on the five fields of the component state. -/
def handleSignup (username password email firstName lastName : String) : LoginEffect :=
  if username = "" ∨ password = "" ∨ email = "" ∨ firstName = "" ∨ lastName = "" then
    .alert "Error" "Please fill in all fields"
  else if Text.jsLength password.toList < 6 then
    .alert "Error" "Password must be at least 6 characters"
  else .dispatchSignupUser username password email firstName lastName

/-! ## The checkout screen (`screens/CheckoutScreen.js`) -/

/-- The `formData` of the checkout screen. -/
structure FormData where
  firstName : String
  lastName : String
  email : String
  phone : String
  address : String
  city : String
  state : String
  zipCode : String
deriving DecidableEq, Repr

/-- The `cardData` of the checkout screen. -/
structure CardData where
  cardNumber : String
  cardholderName : String
  expiryDate : String
  cvv : String
deriving DecidableEq, Repr

/-- The class `[^\s@]` of the email pattern. -/
def isEmailChar (c : Char) : Bool :=
  !Text.isSpace c && c != '@'

/-- A non-empty run of characters of one class: `[...]+` between two anchors. -/
def isRun (p : Char → Bool) (cs : List Char) : Bool :=
  !cs.isEmpty && cs.all p

/-- `validateEmail`: the pattern `^[^\s@]+@[^\s@]+\.[^\s@]+$`, that is, some `@` at a position
`i` and some `.` at a later position `j` cut the string into three runs of the class. -/
def validateEmail (email : String) : Bool :=
  let cs := email.toList
  (List.range cs.length).any fun i =>
    (List.range cs.length).any fun j =>
      decide (i < j) && cs[i]? == some '@' && cs[j]? == some '.' &&
      isRun isEmailChar (cs.take i) &&
      isRun isEmailChar ((cs.take j).drop (i + 1)) &&
      isRun isEmailChar (cs.drop (j + 1))

/-- The class `[\d\-\(\)\s]` of the phone pattern. -/
def isPhoneChar (c : Char) : Bool :=
  Text.isDigit c || c == '-' || c.toNat == 40 || c.toNat == 41 || Text.isSpace c

/-- `validatePhone`: the pattern `^[\d\-\(\)\s]+$` and at least 10 digits. -/
def validatePhone (phone : String) : Bool :=
  let digitsOnly := phone.toList.filter Text.isDigit
  isRun isPhoneChar phone.toList && decide (Text.jsLength digitsOnly ≥ 10)

/-- `validateZipCode`: the pattern `^[0-9]{5}(-[0-9]{4})?$`. -/
def validateZipCode (zip : String) : Bool :=
  let cs := zip.toList
  (cs.length == 5 && cs.all Text.isDigit) ||
  (cs.length == 10 && (cs.take 5).all Text.isDigit && cs[5]? == some '-' &&
    (cs.drop 6).all Text.isDigit)

/-- The `newErrors` object built by `validateForm`, as the list of its entries. -/
def formErrors (formData : FormData) : List (String × String) :=
  (if Text.isBlank formData.firstName then [("firstName", "First name is required")] else []) ++
  (if Text.isBlank formData.lastName then [("lastName", "Last name is required")] else []) ++
  (if Text.isBlank formData.email then [("email", "Email is required")]
    else if !validateEmail formData.email then [("email", "Please enter a valid email")]
    else []) ++
  (if Text.isBlank formData.phone then [("phone", "Phone number is required")]
    else if !validatePhone formData.phone then
      [("phone", "Please enter a valid 10-digit phone number")]
    else []) ++
  (if Text.isBlank formData.address then [("address", "Address is required")] else []) ++
  (if Text.isBlank formData.city then [("city", "City is required")] else []) ++
  (if Text.isBlank formData.state then [("state", "State is required")] else []) ++
  (if Text.isBlank formData.zipCode then [("zipCode", "ZIP code is required")]
    else if !validateZipCode formData.zipCode then
      [("zipCode", "Please enter a valid ZIP code (e.g., 12345 or 12345-6789)")]
    else [])

/-- `validateForm`: `Object.keys(newErrors).length === 0`. -/
def validateForm (formData : FormData) : Bool :=
  (formErrors formData).isEmpty

/-- `validateCardNumber`: white space removed, then the pattern `^\d{13,19}$`. -/
def validateCardNumber (cardNum : String) : Bool :=
  let cleanCard := cardNum.toList.filter fun c => !Text.isSpace c
  decide (13 ≤ cleanCard.length) && decide (cleanCard.length ≤ 19) && cleanCard.all Text.isDigit

/-- The pattern `^(0[1-9]|1[0-2])\/\d{2}$` of `validateExpiryDate`. -/
def matchesExpiryPattern : List Char → Bool
  | [m1, m2, slash, y1, y2] =>
    ((m1 == '0' && decide (49 ≤ m2.toNat) && decide (m2.toNat ≤ 57)) ||
      (m1 == '1' && decide (48 ≤ m2.toNat) && decide (m2.toNat ≤ 50))) &&
    slash == '/' && Text.isDigit y1 && Text.isDigit y2
  | _ => false

/-- `validateExpiryDate(expiry)`; `fullYear` and `monthIndex` are what `getFullYear()` and
`getMonth()` return for the current date. -/
def validateExpiryDate (fullYear monthIndex : Nat) (expiry : String) : Bool :=
  if !matchesExpiryPattern expiry.toList then false
  else
    let parts := Text.splitOn '/' expiry.toList
    let month := parts.getD 0 []
    let year := parts.getD 1 []
    let currentYear := fullYear % 100
    let currentMonth := monthIndex + 1
    let expiryYear := Text.parseDigits year
    let expiryMonth := Text.parseDigits month
    decide (expiryYear > currentYear) ||
      (expiryYear == currentYear && decide (expiryMonth ≥ currentMonth))

/-- `validateCVV`: the pattern `^\d{3,4}$`. -/
def validateCVV (cvv : String) : Bool :=
  let cs := cvv.toList
  (cs.length == 3 || cs.length == 4) && cs.all Text.isDigit

/-- The `newCardErrors` object built by `validateCardForm`, as the list of its entries. -/
def cardErrors (fullYear monthIndex : Nat) (cardData : CardData) : List (String × String) :=
  (if Text.isBlank cardData.cardNumber then [("cardNumber", "Card number is required")]
    else if !validateCardNumber cardData.cardNumber then
      [("cardNumber", "Enter a valid card number (13-19 digits)")]
    else []) ++
  (if Text.isBlank cardData.cardholderName then
      [("cardholderName", "Cardholder name is required")]
    else if Text.jsLength (Text.trim cardData.cardholderName) < 3 then
      [("cardholderName", "Cardholder name must be at least 3 characters")]
    else []) ++
  (if Text.isBlank cardData.expiryDate then [("expiryDate", "Expiry date is required")]
    else if !validateExpiryDate fullYear monthIndex cardData.expiryDate then
      [("expiryDate", "Enter valid expiry date (MM/YY), not expired")]
    else []) ++
  (if Text.isBlank cardData.cvv then [("cvv", "CVV is required")]
    else if !validateCVV cardData.cvv then [("cvv", "CVV must be 3-4 digits")]
    else [])

/-- `validateCardForm`: `Object.keys(newCardErrors).length === 0`. -/
def validateCardForm (fullYear monthIndex : Nat) (cardData : CardData) : Bool :=
  (cardErrors fullYear monthIndex cardData).isEmpty

/-- The body of `orderAPI.create`. -/
structure OrderRequest where
  shippingAddress : String
  phoneNumber : String
deriving DecidableEq, Repr

/-- The data of a created order: `orderNumber`, and `totalAmount.toFixed(2)`. -/
structure OrderData where
  orderNumber : String
  totalFixed : String
deriving DecidableEq, Repr

/-- The result of `verifyPayment`, without its transaction id. -/
structure PaymentResult where
  success : Bool
  message : String
deriving DecidableEq, Repr

/-- `verifyPayment(cardInfo)`: the test-mode stub, which always succeeds. -/
def verifyPayment (_cardInfo : CardData) : PaymentResult :=
  { success := true, message := "Payment processed successfully" }

/-- The message of the `Checkout Failed` alert:
`error.response?.data?.error || error.message || 'Failed to create order'`. -/
def checkoutErrorMessage : Api.Failure → String
  | .axios e =>
    match Api.truthy (e.response.bind (fun r => r.dataError)) with
    | some m => m
    | none => if e.message ≠ "" then e.message else "Failed to create order"
  | .error message => if message ≠ "" then message else "Failed to create order"

/-- One run of `handleCheckout`: the alerts shown, the orders sent to `orderAPI.create`, and
whether `clearCart()` was dispatched. -/
structure CheckoutRun where
  alerts : List (String × String)
  orders : List OrderRequest
  clearedCart : Bool
deriving DecidableEq, Repr

/-- `handleCheckout`; `create` is `orderAPI.create`, `cartItems` the items of the cart slice. -/
def handleCheckout (fullYear monthIndex : Nat)
    (create : OrderRequest → Except Api.Failure OrderData) (formData : FormData)
    (cardData : CardData) (cartItems : List Cart.CartItem) : CheckoutRun :=
  if !validateForm formData then
    { alerts := [("Validation Error", "Please fix the errors below")], orders := [],
      clearedCart := false }
  else if !validateCardForm fullYear monthIndex cardData then
    { alerts := [("Card Validation Error", "Please fix the payment details")], orders := [],
      clearedCart := false }
  else if cartItems.length = 0 then
    { alerts := [("Empty Cart", "Please add items before checkout")], orders := [],
      clearedCart := false }
  else
    let paymentResult := verifyPayment cardData
    if !paymentResult.success then
      { alerts := [("Payment Failed", paymentResult.message)], orders := [],
        clearedCart := false }
    else
      let fullAddress :=
        formData.address ++ ", " ++ formData.city ++ ", " ++ formData.state ++ " " ++
          formData.zipCode
      let request : OrderRequest :=
        { shippingAddress := fullAddress, phoneNumber := formData.phone }
      match create request with
      | .ok data =>
        { alerts := [("Order Successful!",
            "Order #" ++ data.orderNumber ++ " has been placed!" ++
              String.singleton (Char.ofNat 10) ++ "Total: $" ++ data.totalFixed)],
          orders := [request], clearedCart := true }
      | .error e =>
        { alerts := [("Checkout Failed", checkoutErrorMessage e)], orders := [request],
          clearedCart := false }

/-- The form the checkout screen starts with. -/
def defaultFormData : FormData :=
  { firstName := "Test", lastName := "User", email := "test@example.com",
    phone := "1234567890", address := "123 Test Street", city := "Test City", state := "TC",
    zipCode := "12345" }

/-- The card the checkout screen starts with. -/
def defaultCardData : CardData :=
  { cardNumber := "4111111111111111", cardholderName := "Test User", expiryDate := "12/25",
    cvv := "123" }

/-- The text `MM/YY` for a month and a two-digit year, each written with two digits. -/
def expiryText (month year : Nat) : String :=
  String.mk [Char.ofNat (48 + month / 10), Char.ofNat (48 + month % 10), '/',
    Char.ofNat (48 + year / 10), Char.ofNat (48 + year % 10)]

end Screens

/-! ## Sample values for the retry scenario -/

namespace Api

/-- The add-to-cart request, as `cartAPI.addToCart` hands it to axios. -/
def addToCartConfig : Config :=
  { method := some "post", url := some "/cart", authorization := none, retryCount := none }

/-- The response of a successful add-to-cart. -/
def createdResponse : Response := { status := 201, dataError := none }

/-- An environment in which the first two attempts time out and the third succeeds, while the
connectivity probe answers 200. -/
def twoTimeoutsEnv : Env :=
  { net := fun k =>
      if k < 2 then .fail (some "ECONNABORTED") none "timeout of 10000ms exceeded"
      else .ok createdResponse
    probe := fun _ => .ok { status := 200, dataError := none }
    random := fun _ => 1 / 2 }

end Api

/-! ## Properties of the cart slice -/

namespace Cart

/-- Folding the add reducer prepends the payloads, last one first, and clears the error. -/
theorem addAll_items (payloads : List CartItem) (state : CartState) :
    (addAll state payloads).items = payloads.reverse ++ state.items := by
  induction payloads generalizing state with
  | nil => simp [addAll]
  | cons p ps ih =>
    have h := ih (addToCartAsync_fulfilled state p)
    simp only [addAll, List.foldl_cons] at h ⊢
    rw [h]
    simp [addToCartAsync_fulfilled]

/-- Every payload with the key passes the filter of `linesFor`. -/
theorem linesFor_of_all_key (productId size : Nat) (payloads : List CartItem)
    (h : ∀ p ∈ payloads, p.productId = productId ∧ p.size = size) :
    linesFor productId size payloads = payloads := by
  unfold linesFor
  rw [List.filter_eq_self]
  intro p hp
  obtain ⟨h1, h2⟩ := h p hp
  simp [h1, h2]

/-- The sum of quantities is additive over concatenation. -/
theorem totalQuantity_append (xs ys : List CartItem) :
    totalQuantity (xs ++ ys) = totalQuantity xs + totalQuantity ys := by
  simp [totalQuantity, List.sum_append]

/-- The sum of quantities does not depend on the order. -/
theorem totalQuantity_reverse (xs : List CartItem) :
    totalQuantity xs.reverse = totalQuantity xs := by
  unfold totalQuantity
  rw [List.map_reverse, List.sum_reverse]

/-- What `findIndex` returns: the first position at which the predicate holds. -/
theorem findIndex_some {α : Type} (p : α → Bool) (l : List α) (i : Nat)
    (h : findIndex p l = some i) :
    (∃ x, l[i]? = some x ∧ p x = true) ∧ ∀ j x, j < i → l[j]? = some x → p x = false := by
  induction l generalizing i with
  | nil => simp [findIndex] at h
  | cons a as ih =>
    by_cases hpa : p a = true
    · simp [findIndex, hpa] at h
      subst h
      exact ⟨⟨a, by simp, hpa⟩, by intro j x hj; omega⟩
    · simp only [findIndex, hpa, Bool.false_eq_true, if_false] at h
      cases hk : findIndex p as with
      | none => simp [hk] at h
      | some k =>
      simp [hk] at h
      subst h
      obtain ⟨⟨x, hx, hpx⟩, hlt⟩ := ih k hk
      refine ⟨⟨x, by simpa using hx, hpx⟩, ?_⟩
      intro j y hj hy
      cases j with
      | zero =>
        simp at hy
        subst hy
        simpa using hpa
      | succ j =>
        simp at hy
        exact hlt j y (by omega) hy

/-- When `findIndex` returns `-1` no element satisfies the predicate. -/
theorem findIndex_none {α : Type} (p : α → Bool) (l : List α) (h : findIndex p l = none) :
    ∀ x ∈ l, p x = false := by
  induction l with
  | nil => simp
  | cons a as ih =>
    by_cases hpa : p a = true
    · simp [findIndex, hpa] at h
    · simp only [findIndex, hpa, Bool.false_eq_true, if_false] at h
      have h : findIndex p as = none := by
        cases hk : findIndex p as with
        | none => rfl
        | some k => simp [hk] at h
      intro x hx
      rcases List.mem_cons.mp hx with rfl | hx
      · simpa using hpa
      · exact ih h x hx

/-- `find` returns the element at the index `findIndex` returns. -/
theorem find_eq_findIndex {α : Type} (p : α → Bool) (l : List α) :
    find p l = (findIndex p l).bind (fun i => l[i]?) := by
  induction l with
  | nil => simp [find, findIndex]
  | cons a as ih =>
    by_cases hpa : p a = true
    · simp [find, findIndex, hpa]
    · simp only [find, findIndex, hpa, Bool.false_eq_true, if_false, ih]
      cases findIndex p as <;> simp

/-- An element satisfying the predicate makes `find` succeed. -/
theorem find_isSome_of_mem {α : Type} (p : α → Bool) (l : List α) (x : α) (hx : x ∈ l)
    (hp : p x = true) : ∃ y, find p l = some y ∧ p y = true := by
  induction l with
  | nil => simp at hx
  | cons a as ih =>
    by_cases hpa : p a = true
    · exact ⟨a, by simp [find, hpa], hpa⟩
    · rcases List.mem_cons.mp hx with rfl | hx
      · exact absurd hp hpa
      · obtain ⟨y, hy, hpy⟩ := ih hx
        exact ⟨y, by simp [find, hpa, hy], hpy⟩

/-- The element `find` returns is in the list. -/
theorem find_mem {α : Type} (p : α → Bool) (l : List α) (y : α) (h : find p l = some y) :
    y ∈ l ∧ p y = true := by
  induction l with
  | nil => simp [find] at h
  | cons a as ih =>
    by_cases hpa : p a = true
    · simp [find, hpa] at h
      subst h
      exact ⟨by simp, hpa⟩
    · simp only [find, hpa, Bool.false_eq_true, if_false] at h
      exact ⟨List.mem_cons_of_mem _ (ih h).1, (ih h).2⟩

/-- The replacement made by the quantity reducers, spelled out. -/
theorem replaceById_spec (items : List CartItem) (p : CartItem) :
    match findIndex (fun item => item.id == p.id) items with
    | some i =>
      (∃ x, items[i]? = some x ∧ x.id = p.id) ∧
      (∀ j x, j < i → items[j]? = some x → x.id ≠ p.id) ∧
      replaceById items p = items.set i p ∧
      (replaceById items p)[i]? = some p ∧
      (∀ j, j ≠ i → (replaceById items p)[j]? = items[j]?) ∧
      (replaceById items p).length = items.length
    | none =>
      (∀ x ∈ items, x.id ≠ p.id) ∧ replaceById items p = items := by
  cases h : findIndex (fun item => item.id == p.id) items with
  | none =>
    refine ⟨?_, by simp [replaceById, h]⟩
    intro x hx
    simpa using findIndex_none _ _ h x hx
  | some i =>
    obtain ⟨⟨x, hx, hpx⟩, hlt⟩ := findIndex_some _ _ _ h
    have hi : i < items.length := by
      by_contra hcon
      rw [List.getElem?_eq_none (by omega)] at hx
      cases hx
    have hset : replaceById items p = items.set i p := by simp [replaceById, h]
    refine ⟨⟨x, hx, by simpa using hpx⟩, ?_, hset, ?_, ?_, ?_⟩
    · intro j y hj hy
      simpa using hlt j y hj hy
    · rw [hset]; exact List.getElem?_set_self hi
    · intro j hj
      rw [hset]; exact List.getElem?_set_ne (Ne.symm hj)
    · rw [hset]; exact List.length_set _ _ _

/-- The quantity reducers replace the first line with the payload's id, one step at a time. -/
theorem replaceById_cons (a : CartItem) (as : List CartItem) (p : CartItem) :
    replaceById (a :: as) p = if a.id = p.id then p :: as else a :: replaceById as p := by
  by_cases h : a.id = p.id
  · simp [replaceById, findIndex, h]
  · simp only [replaceById, findIndex, beq_iff_eq, h, if_false]
    cases findIndex (fun item => item.id == p.id) as <;> simp

/-- After the replacement the first line with the payload's id is the payload. -/
theorem find_replaceById (items : List CartItem) (p x : CartItem)
    (h : find (fun item => item.id == p.id) items = some x) :
    find (fun item => item.id == p.id) (replaceById items p) = some p := by
  induction items with
  | nil => simp [find] at h
  | cons a as ih =>
    rw [replaceById_cons]
    by_cases ha : a.id = p.id
    · simp [find, ha]
    · simp only [find, beq_iff_eq, ha, if_false] at h ⊢
      exact ih h

/-- C1 (counterexample): two `addToCartAsync.fulfilled` actions for the same product and size,
reduced from the empty cart, leave two lines for that pair, so there is no single line holding
the sum of the quantities. -/
theorem addToCart_single_line_counterexample :
    ¬ ∃ line, linesFor 7 42 (addAll initialState samePairPayloads).items = [line] ∧
      line.quantity = totalQuantity samePairPayloads := by
  rintro ⟨line, h, _⟩
  have h2 : (linesFor 7 42 (addAll initialState samePairPayloads).items).length = 2 := by decide
  rw [h] at h2
  simp at h2

/-- C1 (amended): every `addToCartAsync.fulfilled` action prepends its payload as a new line.
After a sequence of such actions whose payloads carry the same product and size, the items are
the payloads in reverse order followed by the previous items, the cart holds one more line for
that pair per action, and the quantities of the lines for that pair sum to the previous sum
plus the quantities added. -/
theorem addToCart_prepends_lines (state : CartState) (payloads : List CartItem)
    (productId size : Nat)
    (h : ∀ p ∈ payloads, p.productId = productId ∧ p.size = size) :
    (addAll state payloads).items = payloads.reverse ++ state.items ∧
    (linesFor productId size (addAll state payloads).items).length =
      payloads.length + (linesFor productId size state.items).length ∧
    totalQuantity (linesFor productId size (addAll state payloads).items) =
      totalQuantity payloads + totalQuantity (linesFor productId size state.items) := by
  have hrev : ∀ p ∈ payloads.reverse, p.productId = productId ∧ p.size = size := by
    intro p hp
    exact h p (List.mem_reverse.mp hp)
  have hlines : linesFor productId size (addAll state payloads).items =
      payloads.reverse ++ linesFor productId size state.items := by
    rw [addAll_items]
    unfold linesFor
    rw [List.filter_append]
    congr 1
    exact linesFor_of_all_key productId size payloads.reverse hrev
  refine ⟨addAll_items payloads state, ?_, ?_⟩
  · rw [hlines]; simp
  · rw [hlines, totalQuantity_append, totalQuantity_reverse]

/-- C1 (witness): the amended statement at the empty cart and two payloads for product 7 in
size 42. -/
theorem addToCart_prepends_lines_witness :
    (∀ p ∈ samePairPayloads, p.productId = 7 ∧ p.size = 42) ∧
    (addAll initialState samePairPayloads).items =
      samePairPayloads.reverse ++ initialState.items ∧
    (linesFor 7 42 (addAll initialState samePairPayloads).items).length =
      samePairPayloads.length + (linesFor 7 42 initialState.items).length ∧
    totalQuantity (linesFor 7 42 (addAll initialState samePairPayloads).items) =
      totalQuantity samePairPayloads + totalQuantity (linesFor 7 42 initialState.items) :=
  ⟨by decide, addToCart_prepends_lines initialState samePairPayloads 7 42 (by decide)⟩

/-- C7: for a cart item id present in the cart, `decreaseQuantityAsync` sends exactly one request,
for `max 1 (q - 1)` where `q` is the quantity of the first line with that id, so the requested
quantity is at least 1, and `increaseQuantityAsync` sends exactly one request, for `q + 1`. -/
theorem quantity_thunks_request (server : UpdateQuantityServer) (state : CartState)
    (cartItemId : Nat) (h : ∃ x ∈ state.items, x.id = cartItemId) :
    ∃ item i,
      find (fun item => item.id == cartItemId) state.items = some item ∧
      state.items[i]? = some item ∧ item.id = cartItemId ∧
      (∀ (j : Nat) (x : CartItem), j < i → state.items[j]? = some x → x.id ≠ cartItemId) ∧
      (decreaseQuantityAsync server state cartItemId).requests =
        [(cartItemId, max 1 (item.quantity - 1))] ∧
      (∀ r ∈ (decreaseQuantityAsync server state cartItemId).requests, 1 ≤ r.2) ∧
      (increaseQuantityAsync server state cartItemId).requests =
        [(cartItemId, item.quantity + 1)] := by
  obtain ⟨x, hx, hid⟩ := h
  obtain ⟨item, hfind, hitem⟩ :=
    find_isSome_of_mem (fun item => item.id == cartItemId) state.items x hx (by simpa using hid)
  have hidx := find_eq_findIndex (fun item => item.id == cartItemId) state.items
  rw [hfind] at hidx
  cases hi : findIndex (fun item => item.id == cartItemId) state.items with
  | none => simp [hi] at hidx
  | some i =>
    simp only [hi, Option.some_bind] at hidx
    obtain ⟨_, hlt⟩ := findIndex_some _ _ _ hi
    have hdec : (decreaseQuantityAsync server state cartItemId).requests =
        [(cartItemId, max 1 (item.quantity - 1))] := by
      simp only [decreaseQuantityAsync, hfind, callUpdateQuantity]
      cases server cartItemId (max 1 (item.quantity - 1)) <;> rfl
    have hinc : (increaseQuantityAsync server state cartItemId).requests =
        [(cartItemId, item.quantity + 1)] := by
      simp only [increaseQuantityAsync, hfind, callUpdateQuantity]
      cases server cartItemId (item.quantity + 1) <;> rfl
    refine ⟨item, i, hfind, hidx.symm, by simpa using hitem, ?_, hdec, ?_, hinc⟩
    · intro j y hj hy
      simpa using hlt j y hj hy
    · intro r hr
      rw [hdec] at hr
      simp only [List.mem_singleton] at hr
      subst hr
      exact le_max_left _ _

/-- C7 (witness): the single-line cart and its line 1. -/
theorem quantity_thunks_request_witness :
    (∃ x ∈ singleLineCart.items, x.id = 1) ∧
    ∃ item i,
      find (fun item => item.id == 1) singleLineCart.items = some item ∧
      singleLineCart.items[i]? = some item ∧ item.id = 1 ∧
      (∀ (j : Nat) (x : CartItem), j < i → singleLineCart.items[j]? = some x → x.id ≠ 1) ∧
      (decreaseQuantityAsync (quantityServer singleLineCart.items) singleLineCart 1).requests =
        [(1, max 1 (item.quantity - 1))] ∧
      (∀ r ∈ (decreaseQuantityAsync (quantityServer singleLineCart.items) singleLineCart 1).requests,
        1 ≤ r.2) ∧
      (increaseQuantityAsync (quantityServer singleLineCart.items) singleLineCart 1).requests =
        [(1, item.quantity + 1)] :=
  ⟨by decide,
    quantity_thunks_request (quantityServer singleLineCart.items) singleLineCart 1 (by decide)⟩

/-- C8 (counterexample): on the cart with one line of quantity 1, decreasing that line against a
server that removes a line only for quantity 0 leaves the cart as it was: the line is still
there, with quantity 1. -/
theorem decrease_from_one_counterexample :
    (dispatchDecrease (quantityServer singleLineCart.items) singleLineCart 1).items =
      singleLineCart.items ∧
    ¬ ∀ x ∈ (dispatchDecrease (quantityServer singleLineCart.items) singleLineCart 1).items,
      x.id ≠ 1 := by
  decide

/-- C8 (amended): when the first line with the given id has quantity 1, `decreaseQuantityAsync`
asks the server for quantity 1 (the floor), never 0; a server that returns the item with the
requested quantity for every non-zero quantity therefore returns content, and the reducer keeps
the line: the cart has as many lines as before and its first line with that id is the
server's item, with quantity 1. -/
theorem decrease_from_one_keeps_line (server : UpdateQuantityServer) (state : CartState)
    (cartItemId : Nat) (item : CartItem)
    (hfind : find (fun x => x.id == cartItemId) state.items = some item)
    (hq : item.quantity = 1)
    (hserver : ∀ q : Int, q ≠ 0 →
      ∃ p, server cartItemId q = .ok (some p) ∧ p.id = cartItemId ∧ p.quantity = q) :
    (decreaseQuantityAsync server state cartItemId).requests = [(cartItemId, 1)] ∧
    (dispatchDecrease server state cartItemId).items.length = state.items.length ∧
    ∃ p, server cartItemId 1 = .ok (some p) ∧
      find (fun x => x.id == cartItemId) (dispatchDecrease server state cartItemId).items =
        some p ∧
      p.quantity = 1 := by
  obtain ⟨p, hp, hpid, hpq⟩ := hserver 1 (by decide)
  have hmax : max 1 (item.quantity - 1) = 1 := by rw [hq]; decide
  have hrun : decreaseQuantityAsync server state cartItemId =
      { requests := [(cartItemId, 1)], action := .fulfilled (some p) } := by
    simp only [decreaseQuantityAsync, hfind, callUpdateQuantity, hmax, hp]
  have hitems : (dispatchDecrease server state cartItemId).items = replaceById state.items p := by
    simp only [dispatchDecrease, hrun, decreaseQuantityAsync_fulfilled]
  have hfind2 : find (fun x => x.id == p.id) state.items = some item := by rw [hpid]; exact hfind
  refine ⟨by rw [hrun], ?_, p, hp, ?_, hpq⟩
  · rw [hitems]
    have hspec := replaceById_spec state.items p
    cases hi : findIndex (fun x => x.id == p.id) state.items with
    | none =>
      rw [hi] at hspec
      rw [hspec.2]
    | some i =>
      rw [hi] at hspec
      exact hspec.2.2.2.2.2
  · rw [hitems]
    have := find_replaceById state.items p item hfind2
    rw [hpid] at this
    exact this

/-- C8 (witness): the single-line cart, its line 1 and the contract server over its lines. -/
theorem decrease_from_one_keeps_line_witness :
    find (fun x => x.id == 1) singleLineCart.items =
      some { id := 1, productId := 7, size := 42, quantity := 1 } ∧
    (decreaseQuantityAsync (quantityServer singleLineCart.items) singleLineCart 1).requests =
      [(1, 1)] ∧
    (dispatchDecrease (quantityServer singleLineCart.items) singleLineCart 1).items.length =
      singleLineCart.items.length ∧
    ∃ p, quantityServer singleLineCart.items 1 1 = .ok (some p) ∧
      find (fun x => x.id == 1)
        (dispatchDecrease (quantityServer singleLineCart.items) singleLineCart 1).items = some p ∧
      p.quantity = 1 :=
  ⟨by decide,
    decrease_from_one_keeps_line (quantityServer singleLineCart.items) singleLineCart 1
      { id := 1, productId := 7, size := 42, quantity := 1 } (by decide) (by decide)
      (by
        intro q hq
        exact ⟨{ id := 1, productId := 7, size := 42, quantity := q },
          by simp [quantityServer, singleLineCart, find, hq], rfl, rfl⟩)⟩

/-- C9 (counterexample): on the single-line cart, `increaseQuantityAsync.fulfilled` and
`decreaseQuantityAsync.fulfilled` with no payload for the line 1 leave that line in the cart. -/
theorem no_content_counterexample :
    (¬ ∀ x ∈ (increaseQuantityAsync_fulfilled singleLineCart none 1).items, x.id ≠ 1) ∧
    (¬ ∀ x ∈ (decreaseQuantityAsync_fulfilled singleLineCart none 1).items, x.id ≠ 1) ∧
    (increaseQuantityAsync_fulfilled singleLineCart none 1).items = singleLineCart.items ∧
    (decreaseQuantityAsync_fulfilled singleLineCart none 1).items = singleLineCart.items := by
  decide

/-- C9 (amended): with no payload, `updateQuantityAsync.fulfilled` removes the lines whose id is
the targeted one, while `increaseQuantityAsync.fulfilled` and `decreaseQuantityAsync.fulfilled`
leave `items` as they are; all three set `error` to null and keep `loading`. Against a server
that answers with no content only when the requested quantity is 0, `decreaseQuantityAsync`
never ends fulfilled without a payload, and neither does `increaseQuantityAsync` on a cart whose
quantities are not negative: they request `max 1 (q - 1)` and `q + 1`, never 0. -/
theorem no_content_reducers (server : UpdateQuantityServer)
    (hserver : ∀ id quantity, server id quantity = .ok none → quantity = 0) :
    (∀ state argId,
      (updateQuantityAsync_fulfilled state none argId).items =
        state.items.filter (fun item => item.id != argId) ∧
      (∀ x ∈ (updateQuantityAsync_fulfilled state none argId).items, x.id ≠ argId) ∧
      (updateQuantityAsync_fulfilled state none argId).error = none ∧
      (updateQuantityAsync_fulfilled state none argId).loading = state.loading) ∧
    (∀ state cartItemId,
      increaseQuantityAsync_fulfilled state none cartItemId = { state with error := none } ∧
      decreaseQuantityAsync_fulfilled state none cartItemId = { state with error := none }) ∧
    (∀ state cartItemId,
      (decreaseQuantityAsync server state cartItemId).action ≠ .fulfilled none) ∧
    (∀ state cartItemId, (∀ x ∈ state.items, 0 ≤ x.quantity) →
      (increaseQuantityAsync server state cartItemId).action ≠ .fulfilled none) := by
  refine ⟨?_, fun _ _ => ⟨rfl, rfl⟩, ?_, ?_⟩
  · intro state argId
    refine ⟨rfl, ?_, rfl, rfl⟩
    intro x hx
    have hx2 : x ∈ state.items.filter (fun item => item.id != argId) := hx
    simpa using (List.mem_filter.mp hx2).2
  · intro state cartItemId hcon
    cases hfind : find (fun item => item.id == cartItemId) state.items with
    | none => simp [decreaseQuantityAsync, hfind] at hcon
    | some cartItem =>
      cases hs : server cartItemId (max 1 (cartItem.quantity - 1)) with
      | error e => simp [decreaseQuantityAsync, hfind, callUpdateQuantity, hs] at hcon
      | ok data =>
        simp only [decreaseQuantityAsync, hfind, callUpdateQuantity, hs,
          ThunkAction.fulfilled.injEq] at hcon
        subst hcon
        have := hserver _ _ hs
        have hmax : (1 : Int) ≤ max 1 (cartItem.quantity - 1) := le_max_left _ _
        omega
  · intro state cartItemId hq hcon
    cases hfind : find (fun item => item.id == cartItemId) state.items with
    | none => simp [increaseQuantityAsync, hfind] at hcon
    | some cartItem =>
      have hmem := (find_mem _ _ _ hfind).1
      have hnonneg := hq cartItem hmem
      cases hs : server cartItemId (cartItem.quantity + 1) with
      | error e => simp [increaseQuantityAsync, hfind, callUpdateQuantity, hs] at hcon
      | ok data =>
        simp only [increaseQuantityAsync, hfind, callUpdateQuantity, hs,
          ThunkAction.fulfilled.injEq] at hcon
        subst hcon
        have := hserver _ _ hs
        omega

/-- The contract server answers with no content only for the quantity 0. -/
theorem quantityServer_no_content (stored : List CartItem) (id : Nat) (quantity : Int)
    (h : quantityServer stored id quantity = .ok none) : quantity = 0 := by
  unfold quantityServer at h
  cases hfind : find (fun item => item.id == id) stored with
  | none => simp [hfind] at h
  | some item =>
    by_cases hq : quantity = 0
    · exact hq
    · simp [hfind, hq] at h

/-- C9 (witness): the contract server over the single-line cart: neither the decrease nor the
increase of line 1 ends fulfilled without a payload, and `updateQuantityAsync.fulfilled` without
a payload for line 1 empties the cart. -/
theorem no_content_reducers_witness :
    (∀ id quantity, quantityServer singleLineCart.items id quantity = .ok none → quantity = 0) ∧
    (∀ state cartItemId,
      (decreaseQuantityAsync (quantityServer singleLineCart.items) state cartItemId).action ≠
        .fulfilled none) ∧
    (∀ x ∈ singleLineCart.items, 0 ≤ x.quantity) ∧
    (increaseQuantityAsync (quantityServer singleLineCart.items) singleLineCart 1).action ≠
      .fulfilled none ∧
    (updateQuantityAsync_fulfilled singleLineCart none 1).items = [] :=
  ⟨quantityServer_no_content singleLineCart.items,
    (no_content_reducers (quantityServer singleLineCart.items)
      (quantityServer_no_content singleLineCart.items)).2.2.1,
    by decide,
    (no_content_reducers (quantityServer singleLineCart.items)
      (quantityServer_no_content singleLineCart.items)).2.2.2 singleLineCart 1 (by decide),
    ((no_content_reducers (quantityServer singleLineCart.items)
      (quantityServer_no_content singleLineCart.items)).1 singleLineCart 1).1.trans
        (by decide)⟩

/-- C10: each quantity reducer, on a fulfilled action with payload `p`, replaces the first line
whose id is `p.id` by `p` and leaves every other position, the order and the length unchanged;
when no line has that id the items are unchanged; `error` becomes null and `loading` keeps its
value. -/
theorem quantity_fulfilled_frame (state : CartState) (p : CartItem) (arg : Nat) :
    ((updateQuantityAsync_fulfilled state (some p) arg).items = replaceById state.items p ∧
      (updateQuantityAsync_fulfilled state (some p) arg).error = none ∧
      (updateQuantityAsync_fulfilled state (some p) arg).loading = state.loading) ∧
    ((increaseQuantityAsync_fulfilled state (some p) arg).items = replaceById state.items p ∧
      (increaseQuantityAsync_fulfilled state (some p) arg).error = none ∧
      (increaseQuantityAsync_fulfilled state (some p) arg).loading = state.loading) ∧
    ((decreaseQuantityAsync_fulfilled state (some p) arg).items = replaceById state.items p ∧
      (decreaseQuantityAsync_fulfilled state (some p) arg).error = none ∧
      (decreaseQuantityAsync_fulfilled state (some p) arg).loading = state.loading) ∧
    ((∀ x ∈ state.items, x.id ≠ p.id) → replaceById state.items p = state.items) ∧
    ((∃ x ∈ state.items, x.id = p.id) →
      ∃ i x, state.items[i]? = some x ∧ x.id = p.id ∧
        (∀ (j : Nat) (y : CartItem), j < i → state.items[j]? = some y → y.id ≠ p.id) ∧
        replaceById state.items p = state.items.set i p ∧
        (replaceById state.items p)[i]? = some p ∧
        (∀ j, j ≠ i → (replaceById state.items p)[j]? = state.items[j]?) ∧
        (replaceById state.items p).length = state.items.length) := by
  refine ⟨⟨rfl, rfl, rfl⟩, ⟨rfl, rfl, rfl⟩, ⟨rfl, rfl, rfl⟩, ?_, ?_⟩
  · intro hnone
    have hspec := replaceById_spec state.items p
    cases hi : findIndex (fun item => item.id == p.id) state.items with
    | none => rw [hi] at hspec; exact hspec.2
    | some i =>
      rw [hi] at hspec
      obtain ⟨⟨x, hx, hxid⟩, _⟩ := hspec
      exact absurd hxid (hnone x (List.getElem?_mem hx))
  · rintro ⟨x, hx, hxid⟩
    have hspec := replaceById_spec state.items p
    cases hi : findIndex (fun item => item.id == p.id) state.items with
    | none =>
      rw [hi] at hspec
      exact absurd hxid (hspec.1 x hx)
    | some i =>
      rw [hi] at hspec
      obtain ⟨⟨y, hy, hyid⟩, hlt, hset, hat, hother, hlen⟩ := hspec
      exact ⟨i, y, hy, hyid, hlt, hset, hat, hother, hlen⟩

end Cart

/-! ## Properties of the API client -/

namespace Api

/-- The request interceptor keeps the URL, hence the exclusion test. -/
theorem requestInterceptor_shouldExclude (storage : Storage) (config sent : Config)
    (h : requestInterceptor storage config = .ok sent) :
    shouldExclude sent = shouldExclude config ∧ sent.url = config.url ∧
      sent.retryCount = some (config.retryCount.getD 0) := by
  unfold requestInterceptor at h
  cases hg : storage.getItem "token" with
  | error m => simp [hg] at h
  | ok token =>
    simp only [hg] at h
    cases ht : truthy token with
    | none =>
      simp only [ht, Except.ok.injEq] at h
      subst h
      exact ⟨rfl, rfl, rfl⟩
    | some t =>
      simp only [ht, Except.ok.injEq] at h
      subst h
      exact ⟨rfl, rfl, rfl⟩

/-- C4: a request whose URL contains `/auth/login`, `/auth/signup` or `/auth/profile` and whose
network attempt fails, with any code and any status, is rejected with that very error after the
one attempt: one request is sent, no delay is scheduled, no probe is made, and the storage, the
refresh flag and the queue are untouched. -/
theorem excluded_endpoint_no_retry (env : Env) (fuel : Nat) (w : World) (config sent : Config)
    (url : String) (code : Option String) (response : Option Response) (message : String)
    (hurl : config.url = some url)
    (hexcl : includes url "/auth/login" = true ∨ includes url "/auth/signup" = true ∨
      includes url "/auth/profile" = true)
    (hreq : requestInterceptor w.storage config = .ok sent)
    (hnet : env.net w.sent.length = .fail code response message) :
    api env (fuel + 1) w config =
      some ({ w with sent := w.sent ++ [sent] },
        .rejected (.axios
          { config := some sent, code := code, response := response, message := message })) := by
  have hex : shouldExclude config = true := by
    simp only [shouldExclude, excludeFromRetry, hurl, List.any_cons, List.any_nil, Bool.or_false,
      Bool.or_eq_true]
    rcases hexcl with h | h | h
    · exact Or.inl h
    · exact Or.inr (Or.inl h)
    · exact Or.inr (Or.inr h)
  have hex2 : shouldExclude sent = true := by
    rw [(requestInterceptor_shouldExclude _ _ _ hreq).1, hex]
  simp [api, hreq, hnet, onRejected, hex2]

/-- C4 (witness): the login request, answered with a 503, over a storage holding a token. -/
theorem excluded_endpoint_no_retry_witness :
    loginConfig.url = some "/auth/login" ∧
    includes "/auth/login" "/auth/login" = true ∧
    requestInterceptor (idleWorld (storageWith (some "abc"))).storage loginConfig =
      .ok sentLoginConfig ∧
    api unavailableEnv 1 (idleWorld (storageWith (some "abc"))) loginConfig =
      some ({ idleWorld (storageWith (some "abc")) with
              sent := (idleWorld (storageWith (some "abc"))).sent ++ [sentLoginConfig] },
        .rejected (.axios
          { config := some sentLoginConfig,
            code := some "ERR_BAD_RESPONSE",
            response := some { status := 503, dataError := none },
            message := "Request failed with status code 503" })) :=
  ⟨rfl, by decide, by rfl,
    excluded_endpoint_no_retry unavailableEnv 0 (idleWorld (storageWith (some "abc")))
      loginConfig sentLoginConfig "/auth/login" _ _ _ rfl (Or.inl (by decide)) (by rfl) rfl⟩

/-- With a readable storage the request interceptor succeeds; the config it returns carries the
initialised retry counter, and passes the interceptor unchanged when it is re-issued with a
set retry counter. -/
theorem requestInterceptor_ok (storage : Storage) (config : Config)
    (h : storage.getItemThrows = none) :
    ∃ sent, requestInterceptor storage config = .ok sent ∧
      sent.retryCount = some (config.retryCount.getD 0) ∧
      shouldExclude sent = shouldExclude config ∧
      ∀ n, requestInterceptor storage { sent with retryCount := some n } =
        .ok { sent with retryCount := some n } := by
  cases ht : truthy (storage.data "token") with
  | none =>
    refine ⟨{ config with retryCount := some (config.retryCount.getD 0) }, ?_, rfl, rfl, ?_⟩
    · simp [requestInterceptor, Storage.getItem, h, ht]
    · intro n
      simp [requestInterceptor, Storage.getItem, h, ht]
  | some t =>
    refine ⟨{ config with authorization := some ("Bearer " ++ t),
                          retryCount := some (config.retryCount.getD 0) }, ?_, rfl, rfl, ?_⟩
    · simp [requestInterceptor, Storage.getItem, h, ht]
    · intro n
      simp [requestInterceptor, Storage.getItem, h, ht]

/-- One retry: a retryable failure of a non-excluded request whose counter `n` is below the
maximum, with the probe succeeding, schedules `getRetryDelay n` and re-issues the request with
the counter `n + 1`. -/
theorem api_retry_step (env : Env) (fuel : Nat) (w : World) (config sent : Config) (n : Nat)
    (hreq : requestInterceptor w.storage config = .ok sent)
    (hcount : sent.retryCount = some n) (hn : n < 3)
    (hexcl : shouldExclude sent = false)
    (hnet : retryable (env.net w.sent.length) = true)
    (hprobe : isNetworkConnected (env.probe w.sent.length) = true) :
    api env (fuel + 1) w config =
      api env fuel
        { w with
          sent := w.sent ++ [sent]
          delays := w.delays ++ [getRetryDelay n (env.random w.sent.length)]
          probes := w.probes + 1 }
        { sent with retryCount := some (n + 1) } := by
  cases hout : env.net w.sent.length with
  | ok r => simp [hout, retryable] at hnet
  | fail code response message =>
    simp only [hout, retryable, Bool.and_eq_true, Bool.or_eq_true, Bool.not_eq_true',
      isNetworkError, isServerError, is401] at hnet
    obtain ⟨hclass, h401⟩ := hnet
    have hbelow : belowMaxRetries sent = true := by
      simp [belowMaxRetries, hcount, MAX_RETRIES, hn]
    have hclass2 : (isNetworkError
          { config := some sent, code := code, response := response, message := message } ||
        isServerError
          { config := some sent, code := code, response := response, message := message })
          = true := by
      simpa [isNetworkError, isServerError] using hclass
    have h401b : is401
        { config := some sent, code := code, response := response, message := message }
          = false := by
      simpa [is401] using h401
    simp only [api, hreq, hout, onRejected, h401b, hexcl, hclass2, hbelow, hprobe, hcount,
      Bool.false_and, Bool.not_false, Bool.and_self, if_true, Option.map_some',
      Option.getD_some, Nat.add_sub_cancel, Bool.false_eq_true, if_false]

/-- The last attempt: a failure of a request whose counter has reached the maximum is rejected
with that error. -/
theorem api_exhausted_step (env : Env) (fuel : Nat) (w : World) (config sent : Config)
    (code : Option String) (response : Option Response) (message : String)
    (hreq : requestInterceptor w.storage config = .ok sent)
    (hcount : sent.retryCount = some 3)
    (hout : env.net w.sent.length = .fail code response message)
    (hnet : retryable (env.net w.sent.length) = true) :
    api env (fuel + 1) w config =
      some ({ w with sent := w.sent ++ [sent] },
        .rejected (.axios
          { config := some sent, code := code, response := response, message := message })) := by
  simp only [hout, retryable, Bool.and_eq_true, Bool.not_eq_true', is401] at hnet
  have h401b : is401
      { config := some sent, code := code, response := response, message := message }
        = false := by
    simpa [is401] using hnet.2
  have hbelow : belowMaxRetries sent = false := by
    simp [belowMaxRetries, hcount, MAX_RETRIES]
  simp [api, hreq, hout, onRejected, h401b, hbelow]

/-- The whole run of a fresh request to a non-excluded endpoint whose every attempt fails
retryably while the probe succeeds: four requests are sent, with counters 0, 1, 2, 3, three
delays are scheduled, and the call is rejected with the error of the fourth attempt, for every
bound of at least four attempts. -/
theorem api_exhausts_retries (env : Env) (w : World) (config : Config)
    (hstore : w.storage.getItemThrows = none)
    (hexcl : shouldExclude config = false)
    (hfresh : config.retryCount.getD 0 = 0)
    (hnet : ∀ k, retryable (env.net k) = true)
    (hprobe : ∀ k, isNetworkConnected (env.probe k) = true) :
    ∃ sent code response message,
      requestInterceptor w.storage config = .ok sent ∧
      sent.retryCount = some 0 ∧
      env.net (w.sent.length + 3) = .fail code response message ∧
      ∀ fuel, 4 ≤ fuel →
        api env fuel w config =
          some ({ w with
                  sent := w.sent ++ [sent, { sent with retryCount := some 1 },
                    { sent with retryCount := some 2 }, { sent with retryCount := some 3 }]
                  delays := w.delays ++
                    [getRetryDelay 0 (env.random w.sent.length),
                     getRetryDelay 1 (env.random (w.sent.length + 1)),
                     getRetryDelay 2 (env.random (w.sent.length + 2))]
                  probes := w.probes + 3 },
            .rejected (.axios
              { config := some { sent with retryCount := some 3 }, code := code,
                response := response, message := message })) := by
  obtain ⟨sent, hreq, hcount, hex, hidem⟩ := requestInterceptor_ok w.storage config hstore
  rw [hfresh] at hcount
  rw [hexcl] at hex
  cases hout : env.net (w.sent.length + 3) with
  | ok r =>
    have := hnet (w.sent.length + 3)
    simp [hout, retryable] at this
  | fail code response message =>
    refine ⟨sent, code, response, message, hreq, hcount, rfl, ?_⟩
    intro fuel hfuel
    obtain ⟨f, rfl⟩ : ∃ f, fuel = f + 4 := ⟨fuel - 4, by omega⟩
    have e1 := api_retry_step env (f + 3) w config sent 0 hreq hcount (by decide) hex
      (hnet _) (hprobe _)
    have e2 := api_retry_step env (f + 2)
      { w with
        sent := w.sent ++ [sent]
        delays := w.delays ++ [getRetryDelay 0 (env.random w.sent.length)]
        probes := w.probes + 1 }
      { sent with retryCount := some 1 } { sent with retryCount := some 1 } 1
      (hidem 1) rfl (by decide) hex (hnet _) (hprobe _)
    have e3 := api_retry_step env (f + 1)
      { w with
        sent := w.sent ++ [sent] ++ [{ sent with retryCount := some 1 }]
        delays := w.delays ++ [getRetryDelay 0 (env.random w.sent.length)] ++
          [getRetryDelay 1 (env.random (w.sent ++ [sent]).length)]
        probes := w.probes + 1 + 1 }
      { sent with retryCount := some 2 } { sent with retryCount := some 2 } 2
      (hidem 2) rfl (by decide) hex (hnet _) (hprobe _)
    have hout4 : env.net
        (w.sent ++ [sent] ++ [{ sent with retryCount := some 1 }] ++
          [{ sent with retryCount := some 2 }]).length = .fail code response message := by
      rw [← hout]
      congr 1
      simp
    have e4 := api_exhausted_step env f
      { w with
        sent := w.sent ++ [sent] ++ [{ sent with retryCount := some 1 }] ++
          [{ sent with retryCount := some 2 }]
        delays := w.delays ++ [getRetryDelay 0 (env.random w.sent.length)] ++
          [getRetryDelay 1 (env.random (w.sent ++ [sent]).length)] ++
          [getRetryDelay 2
            (env.random (w.sent ++ [sent] ++ [{ sent with retryCount := some 1 }]).length)]
        probes := w.probes + 1 + 1 + 1 }
      { sent with retryCount := some 3 } { sent with retryCount := some 3 }
      code response message (hidem 3) rfl hout4 (hnet _)
    rw [e1, e2, e3, e4]
    simp [Nat.add_assoc]

/-- Rounding to the nearest integer does not pass an integer above. -/
theorem roundHalfEven_le (x : ℚ) (m : ℤ) (h : x ≤ m) : roundHalfEven x ≤ m := by
  have hf : ⌊x⌋ ≤ m := Int.floor_le_iff.mpr (by linarith)
  unfold roundHalfEven
  simp only
  have hlt : ¬ x - ⌊x⌋ < 1 / 2 → ⌊x⌋ + 1 ≤ m := by
    intro hn
    have h1 : (⌊x⌋ : ℚ) < m := by linarith
    have h2 : ⌊x⌋ < m := by exact_mod_cast h1
    omega
  split_ifs with h1 h2 h3
  · exact hf
  · exact hlt h1
  · exact hf
  · exact hlt h1

/-- Rounding to the nearest integer does not pass an integer below. -/
theorem le_roundHalfEven (x : ℚ) (m : ℤ) (h : (m : ℚ) ≤ x) : m ≤ roundHalfEven x := by
  have hf : m ≤ ⌊x⌋ := Int.le_floor.mpr h
  unfold roundHalfEven
  simp only
  split_ifs <;> omega

/-- Below the half-way point above an integer, rounding stays at or below the integer. -/
theorem roundHalfEven_le_of_lt_half (x : ℚ) (m : ℤ) (h : x < m + 1 / 2) :
    roundHalfEven x ≤ m := by
  have hf : ⌊x⌋ ≤ m := by
    have h1 : (⌊x⌋ : ℚ) < m + 1 := by linarith [Int.floor_le x]
    have h2 : ⌊x⌋ < m + 1 := by exact_mod_cast h1
    omega
  unfold roundHalfEven
  simp only
  rcases hf.eq_or_lt with heq | hlt
  · rw [if_pos (by rw [heq]; linarith)]
    exact hf
  · split_ifs <;> omega

/-- From an integer up to, but excluding, the half-way point above it, rounding gives the
integer. -/
theorem roundHalfEven_of_lt_half (x : ℚ) (f : ℤ) (h0 : (f : ℚ) ≤ x) (h1 : x < f + 1 / 2) :
    roundHalfEven x = f :=
  le_antisymm (roundHalfEven_le_of_lt_half x f h1) (le_roundHalfEven x f h0)

/-- Half way above an odd integer, rounding goes up, to the even neighbour. -/
theorem roundHalfEven_tie_odd (x : ℚ) (f : ℤ) (hx : x = f + 1 / 2) (hodd : f % 2 = 1) :
    roundHalfEven x = f + 1 := by
  have hfloor : ⌊x⌋ = f := by
    rw [Int.floor_eq_iff]
    constructor <;> linarith
  unfold roundHalfEven
  simp only [hfloor]
  rw [if_neg (by linarith), if_neg (by linarith), if_neg (by omega)]

/-- Zero is a number. -/
theorem roundDouble_zero : roundDouble 0 = 0 := by
  simp [roundDouble, roundHalfEven]

/-- Rounding to a number does not pass a multiple `m * 2 ^ s` of a power of two that is itself
a number at the scale of `x`. -/
theorem roundDouble_sandwich (x : ℚ) (m s : ℤ) (hs : -1074 ≤ s) (hx : |x| < 2 ^ (s + 53)) :
    (x ≤ m * 2 ^ s → roundDouble x ≤ m * 2 ^ s) ∧
    (m * 2 ^ s ≤ x → m * 2 ^ s ≤ roundDouble x) := by
  rcases eq_or_ne x 0 with rfl | hx0
  · rw [roundDouble_zero]
    exact ⟨id, id⟩
  have hlog : Int.log 2 |x| ≤ s + 52 := by
    have hx2 : |x| < ((2 : ℕ) : ℚ) ^ (s + 53) := by exact_mod_cast hx
    have := (Int.lt_zpow_iff_log_lt (by norm_num) (abs_pos.mpr hx0)).mp hx2
    omega
  have hmax : max (Int.log 2 |x|) (-1022) ≤ s + 52 := max_le hlog (by omega)
  unfold roundDouble
  simp only
  generalize max (Int.log 2 |x|) (-1022) = e at hmax
  obtain ⟨n, hn⟩ : ∃ n : ℕ, s = (e - 52) + n := ⟨(s - (e - 52)).toNat, by omega⟩
  have hulp : (0 : ℚ) < 2 ^ (e - 52) := by positivity
  have hD : (m : ℚ) * 2 ^ s = ((m * 2 ^ n : ℤ) : ℚ) * 2 ^ (e - 52) := by
    rw [hn, zpow_add₀ (by norm_num), zpow_natCast]
    push_cast
    ring
  rw [hD]
  constructor
  · intro h
    have h1 : x / 2 ^ (e - 52) ≤ ((m * 2 ^ n : ℤ) : ℚ) := by
      rw [div_le_iff₀ hulp]
      exact h
    have h2 : (roundHalfEven (x / 2 ^ (e - 52)) : ℚ) ≤ ((m * 2 ^ n : ℤ) : ℚ) := by
      exact_mod_cast roundHalfEven_le _ _ h1
    exact mul_le_mul_of_nonneg_right h2 hulp.le
  · intro h
    have h1 : ((m * 2 ^ n : ℤ) : ℚ) ≤ x / 2 ^ (e - 52) := by
      rw [le_div_iff₀ hulp]
      exact h
    have h2 : ((m * 2 ^ n : ℤ) : ℚ) ≤ (roundHalfEven (x / 2 ^ (e - 52)) : ℚ) := by
      exact_mod_cast le_roundHalfEven _ _ h1
    exact mul_le_mul_of_nonneg_right h2 hulp.le

/-- An integer below `2 ^ 53` in absolute value is a number: rounding keeps it. -/
theorem roundDouble_int (x : ℚ) (m : ℤ) (hm : x = m) (hx : |x| < 2 ^ 53) : roundDouble x = x := by
  have h := roundDouble_sandwich x m 0 (by norm_num) (lt_of_lt_of_eq hx (by norm_num))
  simp only [zpow_zero, mul_one] at h
  exact le_antisymm (hm ▸ h.1 hm.le) (hm ▸ h.2 hm.ge)

/-- Between `2 ^ e` and `2 ^ (e + 1)`, in the normal range, rounding is to the nearest multiple
of `2 ^ (e - 52)`. -/
theorem roundDouble_of_binade (x : ℚ) (e : ℤ) (hmin : -1022 ≤ e) (h1 : 2 ^ e ≤ |x|)
    (h2 : |x| < 2 ^ (e + 1)) :
    roundDouble x = roundHalfEven (x / 2 ^ (e - 52)) * 2 ^ (e - 52) := by
  have hpos : 0 < |x| := lt_of_lt_of_le (by positivity) h1
  have hlog : Int.log 2 |x| = e := by
    have h1c : ((2 : ℕ) : ℚ) ^ e ≤ |x| := by exact_mod_cast h1
    have h2c : |x| < ((2 : ℕ) : ℚ) ^ (e + 1) := by exact_mod_cast h2
    have ha := (Int.zpow_le_iff_le_log (by norm_num) hpos).mp h1c
    have hb := (Int.lt_zpow_iff_log_lt (by norm_num) hpos).mp h2c
    omega
  unfold roundDouble
  simp only [hlog, max_eq_left hmin]

/-- The largest number below 1 is `1 - 2 ^ (-53)`. -/
theorem roundDouble_largest_random : roundDouble (1 - 1 / 2 ^ 53) = 1 - 1 / 2 ^ 53 := by
  rw [roundDouble_of_binade _ (-1) (by norm_num) (by norm_num [abs_of_nonneg])
    (by norm_num [abs_of_nonneg]),
    roundHalfEven_of_lt_half _ (2 ^ 53 - 1) (by norm_num) (by norm_num)]
  norm_num

/-- The jitter of the largest random draw is the largest number below 1000. -/
theorem roundDouble_largest_jitter :
    roundDouble ((1 - 1 / 2 ^ 53) * 1000) = 1000 - 1 / 2 ^ 43 := by
  rw [roundDouble_of_binade _ 9 (by norm_num) (by norm_num [abs_of_nonneg])
    (by norm_num [abs_of_nonneg]),
    roundHalfEven_of_lt_half _ (1000 * 2 ^ 43 - 1) (by norm_num) (by norm_num)]
  norm_num

/-- For a retry count up to 2 the exponential part of the delay is exact. -/
theorem getRetryDelay_eq (n : Nat) (hn : n ≤ 2) (r : ℚ) :
    getRetryDelay n r = roundDouble (1000 * 2 ^ n + roundDouble (r * 1000)) := by
  have h1 : roundDouble ((2 : ℚ) ^ n) = 2 ^ n := by
    interval_cases n
    · exact roundDouble_int _ 1 (by norm_num) (by norm_num)
    · exact roundDouble_int _ 2 (by norm_num) (by norm_num)
    · exact roundDouble_int _ 4 (by norm_num) (by norm_num)
  have h2 : roundDouble (1000 * (2 : ℚ) ^ n) = 1000 * 2 ^ n := by
    interval_cases n
    · exact roundDouble_int _ 1000 (by norm_num) (by norm_num)
    · exact roundDouble_int _ 2000 (by norm_num) (by norm_num)
    · exact roundDouble_int _ 4000 (by norm_num) (by norm_num)
  simp only [getRetryDelay, RETRY_DELAY, h1, h2]

/-- The jitter lies between 0 and 1000; it is at most 999 when the exact product is, and at
most the largest number below 1000 when the draw is at most the largest number below 1. -/
theorem jitter_bounds (r : ℚ) (h0 : 0 ≤ r) (h1 : r < 1) :
    0 ≤ roundDouble (r * 1000) ∧ roundDouble (r * 1000) ≤ 1000 ∧
    (r * 1000 ≤ 999 → roundDouble (r * 1000) ≤ 999) ∧
    (r ≤ 1 - 1 / 2 ^ 53 → roundDouble (r * 1000) ≤ 1000 - 1 / 2 ^ 43) := by
  have habs : |r * 1000| = r * 1000 := abs_of_nonneg (by positivity)
  have hs := fun m : ℤ => roundDouble_sandwich (r * 1000) m 0 (by norm_num)
    (by rw [habs]; norm_num; linarith)
  simp only [zpow_zero, mul_one] at hs
  refine ⟨?_, ?_, ?_, ?_⟩
  · simpa using (hs 0).2 (by simpa using (by positivity : (0 : ℚ) ≤ r * 1000))
  · simpa using (hs 1000).1 (by norm_num; linarith)
  · intro h
    simpa using (hs 999).1 (by norm_num; linarith)
  · intro h
    have e : (((1000 * 2 ^ 43 - 1 : ℤ) : ℚ)) * 2 ^ (-43 : ℤ) = 1000 - 1 / 2 ^ 43 := by
      norm_num
    rcases lt_or_le (r * 1000) 512 with hsmall | hbig
    · have h43 := (roundDouble_sandwich (r * 1000) (1000 * 2 ^ 43 - 1) (-43) (by norm_num)
        (by rw [habs]; norm_num; linarith)).1
      rw [e] at h43
      apply h43
      refine hsmall.le.trans ?_
      norm_num
    · rw [roundDouble_of_binade _ 9 (by norm_num) (by rw [habs]; norm_num; linarith)
        (by rw [habs]; norm_num; linarith), ← e]
      have hle : roundHalfEven (r * 1000 / 2 ^ ((9 : ℤ) - 52)) ≤ 1000 * 2 ^ 43 - 1 := by
        apply roundHalfEven_le_of_lt_half
        have h3 : r * 1000 ≤ (1 - 1 / 2 ^ 53) * 1000 := by linarith
        have h4 : r * 1000 / 2 ^ ((9 : ℤ) - 52) ≤
            (1 - 1 / 2 ^ 53) * 1000 / 2 ^ ((9 : ℤ) - 52) :=
          div_le_div_of_nonneg_right h3 (by positivity)
        refine lt_of_le_of_lt h4 ?_
        norm_num
      have hq : (roundHalfEven (r * 1000 / 2 ^ ((9 : ℤ) - 52)) : ℚ) ≤
          ((1000 * 2 ^ 43 - 1 : ℤ) : ℚ) := by exact_mod_cast hle
      have hpow : ((9 : ℤ) - 52) = -43 := by norm_num
      rw [hpow] at hq ⊢
      exact mul_le_mul_of_nonneg_right hq (by positivity)

/-- The first retry after the largest random draw waits 2000 ms, the sum `2000 - 2 ^ (-43)`
lying half way between two numbers; so does the second retry after the draw 0. -/
theorem getRetryDelay_tie :
    getRetryDelay 0 (1 - 1 / 2 ^ 53) = 2000 ∧ getRetryDelay 1 0 = 2000 := by
  constructor
  · rw [getRetryDelay_eq 0 (by norm_num), roundDouble_largest_jitter,
      roundDouble_of_binade _ 10 (by norm_num) (by norm_num [abs_of_nonneg])
        (by norm_num [abs_of_nonneg]),
      roundHalfEven_tie_odd _ (2000 * 2 ^ 42 - 1) (by norm_num) (by norm_num)]
    norm_num
  · rw [getRetryDelay_eq 1 (by norm_num)]
    simp only [zero_mul, roundDouble_zero]
    have := roundDouble_int (1000 * 2 ^ 1 + 0) 2000 (by norm_num) (by norm_num)
    rw [this]
    norm_num

/-- The delay of a retry lies between the exponential part and one second more. -/
theorem getRetryDelay_bounds (n : Nat) (hn : n ≤ 2) (r : ℚ) (h0 : 0 ≤ r) (h1 : r < 1) :
    1000 * 2 ^ n ≤ getRetryDelay n r ∧ getRetryDelay n r ≤ 1000 * 2 ^ n + 1000 ∧
    (r * 1000 ≤ 999 → getRetryDelay n r ≤ 1000 * 2 ^ n + 999) := by
  obtain ⟨hj0, hj1, hj2, _⟩ := jitter_bounds r h0 h1
  rw [getRetryDelay_eq n hn]
  have hpow : (2 : ℚ) ^ n ≤ 4 := by
    interval_cases n <;> norm_num
  have hpow0 : (0 : ℚ) < 2 ^ n := by positivity
  have hs := fun m : ℤ => roundDouble_sandwich (1000 * 2 ^ n + roundDouble (r * 1000)) m 0
    (by norm_num) (by rw [abs_of_nonneg (by positivity)]; norm_num; linarith)
  simp only [zpow_zero, mul_one] at hs
  refine ⟨?_, ?_, ?_⟩
  · have := (hs (1000 * 2 ^ n)).2 (by push_cast; linarith)
    exact_mod_cast this
  · have := (hs (1000 * 2 ^ n + 1000)).1 (by push_cast; linarith)
    exact_mod_cast this
  · intro h
    have := (hs (1000 * 2 ^ n + 999)).1 (by push_cast; linarith [hj2 h])
    exact_mod_cast this

/-- A retry waits at most as long as the next one, whatever the two random draws, and less
when its exact jitter is at most 999. -/
theorem getRetryDelay_le_succ (n : Nat) (hn : n + 1 ≤ 2) (r1 r2 : ℚ) (h10 : 0 ≤ r1)
    (h11 : r1 < 1) (h20 : 0 ≤ r2) (h21 : r2 < 1) :
    getRetryDelay n r1 ≤ getRetryDelay (n + 1) r2 ∧
    (r1 * 1000 ≤ 999 → getRetryDelay n r1 < getRetryDelay (n + 1) r2) := by
  obtain ⟨_, ha, hb⟩ := getRetryDelay_bounds n (by omega) r1 h10 h11
  obtain ⟨hc, _, _⟩ := getRetryDelay_bounds (n + 1) hn r2 h20 h21
  have hpow : (1 : ℚ) ≤ 2 ^ n := one_le_pow₀ (by norm_num)
  rw [pow_succ] at hc
  constructor
  · linarith
  · intro h
    linarith [hb h]

/-- The three delays when every random draw is one half. -/
theorem getRetryDelay_half :
    getRetryDelay 0 (1 / 2) = 1500 ∧ getRetryDelay 1 (1 / 2) = 2500 ∧
    getRetryDelay 2 (1 / 2) = 4500 := by
  have hj : roundDouble (1 / 2 * 1000) = 500 := by
    have := roundDouble_int (1 / 2 * 1000) 500 (by norm_num) (by norm_num)
    rw [this]
    norm_num
  refine ⟨?_, ?_, ?_⟩
  · rw [getRetryDelay_eq 0 (by norm_num), hj]
    have := roundDouble_int (1000 * 2 ^ 0 + 500) 1500 (by norm_num) (by norm_num)
    rw [this]
    norm_num
  · rw [getRetryDelay_eq 1 (by norm_num), hj]
    have := roundDouble_int (1000 * 2 ^ 1 + 500) 2500 (by norm_num) (by norm_num)
    rw [this]
    norm_num
  · rw [getRetryDelay_eq 2 (by norm_num), hj]
    have := roundDouble_int (1000 * 2 ^ 2 + 500) 4500 (by norm_num) (by norm_num)
    rw [this]
    norm_num

/-- C2: a fresh request to a non-excluded endpoint whose every attempt fails with a
network-class or server error, the connectivity probe succeeding each time, is sent four times
in all (the call and three re-issues) with retry counters 0, 1, 2, 3, none above `MAX_RETRIES`;
the run ends for every bound of at least four attempts, and it ends rejected with the error of
the fourth attempt, whose config carries the counter 3. Storage, refresh flag and queue are left
as they were. -/
theorem retry_at_most_three (env : Env) (w : World) (config : Config)
    (hstore : w.storage.getItemThrows = none)
    (hexcl : shouldExclude config = false)
    (hfresh : config.retryCount.getD 0 = 0)
    (hnet : ∀ k, retryable (env.net k) = true)
    (hprobe : ∀ k, isNetworkConnected (env.probe k) = true) :
    ∃ w' error last,
      (∀ fuel, 4 ≤ fuel → api env fuel w config = some (w', .rejected (.axios error))) ∧
      w'.sent.length = w.sent.length + 4 ∧
      (w'.sent.drop w.sent.length).map (fun c => c.retryCount) =
        [some 0, some 1, some 2, some 3] ∧
      (∀ c ∈ w'.sent.drop w.sent.length, ∃ n, c.retryCount = some n ∧ n ≤ MAX_RETRIES) ∧
      w'.sent.getLast? = some last ∧ last.retryCount = some MAX_RETRIES ∧
      (∃ code response message,
        env.net (w.sent.length + 3) = .fail code response message ∧
        error = { config := some last, code := code, response := response,
                  message := message }) ∧
      w'.probes = w.probes + 3 ∧ w'.delays.length = w.delays.length + 3 ∧
      w'.storage.data = w.storage.data ∧ w'.removeCalls = w.removeCalls ∧
      w'.isRefreshing = w.isRefreshing ∧ w'.failedQueue = w.failedQueue ∧
      w'.queueSettled = w.queueSettled := by
  obtain ⟨sent, code, response, message, _, hcount, hout, hrun⟩ :=
    api_exhausts_retries env w config hstore hexcl hfresh hnet hprobe
  refine ⟨_, _, { sent with retryCount := some 3 }, hrun, ?_, ?_, ?_, ?_, rfl,
    ⟨code, response, message, hout, rfl⟩, rfl, ?_, rfl, rfl, rfl, rfl, rfl⟩
  · simp
  · simp [hcount]
  · intro c hc
    simp only [List.drop_left, List.mem_cons, List.mem_singleton, List.not_mem_nil,
      or_false] at hc
    rcases hc with rfl | rfl | rfl | rfl
    · exact ⟨0, hcount, by decide⟩
    · exact ⟨1, rfl, by decide⟩
    · exact ⟨2, rfl, by decide⟩
    · exact ⟨3, rfl, by decide⟩
  · simp
  · simp

/-- C2 (witness): the cart request over a storage holding a token, every attempt timing out. -/
theorem retry_at_most_three_witness :
    (idleWorld (storageWith (some "abc"))).storage.getItemThrows = none ∧
    shouldExclude cartConfig = false ∧
    cartConfig.retryCount.getD 0 = 0 ∧
    (∀ k, retryable (timeoutEnv.net k) = true) ∧
    (∀ k, isNetworkConnected (timeoutEnv.probe k) = true) ∧
    ∃ w' error last,
      (∀ fuel, 4 ≤ fuel →
        api timeoutEnv fuel (idleWorld (storageWith (some "abc"))) cartConfig =
          some (w', .rejected (.axios error))) ∧
      w'.sent.length = (idleWorld (storageWith (some "abc"))).sent.length + 4 ∧
      (w'.sent.drop (idleWorld (storageWith (some "abc"))).sent.length).map
          (fun c => c.retryCount) = [some 0, some 1, some 2, some 3] ∧
      (∀ c ∈ w'.sent.drop (idleWorld (storageWith (some "abc"))).sent.length,
        ∃ n, c.retryCount = some n ∧ n ≤ MAX_RETRIES) ∧
      w'.sent.getLast? = some last ∧ last.retryCount = some MAX_RETRIES ∧
      (∃ code response message,
        timeoutEnv.net ((idleWorld (storageWith (some "abc"))).sent.length + 3) =
          .fail code response message ∧
        error = { config := some last, code := code, response := response,
                  message := message }) ∧
      w'.probes = (idleWorld (storageWith (some "abc"))).probes + 3 ∧
      w'.delays.length = (idleWorld (storageWith (some "abc"))).delays.length + 3 ∧
      w'.storage.data = (idleWorld (storageWith (some "abc"))).storage.data ∧
      w'.removeCalls = (idleWorld (storageWith (some "abc"))).removeCalls ∧
      w'.isRefreshing = (idleWorld (storageWith (some "abc"))).isRefreshing ∧
      w'.failedQueue = (idleWorld (storageWith (some "abc"))).failedQueue ∧
      w'.queueSettled = (idleWorld (storageWith (some "abc"))).queueSettled :=
  ⟨rfl, by decide, rfl, fun _ => rfl, fun _ => rfl,
    retry_at_most_three timeoutEnv (idleWorld (storageWith (some "abc"))) cartConfig rfl
      (by decide) rfl (fun _ => rfl) (fun _ => rfl)⟩

/-- C3 (counterexample): the random draw `1 - 2 ^ (-53)`, the largest number below 1, gives the
jitter `1000 - 2 ^ (-43)`, in `[0, 1000)`, and the draw 0 gives the jitter 0; the first retry
with the former then waits `getRetryDelay 0 = 2000`, the sum `1000 + jitter` being rounded up,
and the second retry with the latter waits `getRetryDelay 1 = 2000`: the delay of retry 1 is
not `1000 * 2 ^ 0 + jitter` and is not less than the delay of retry 2. -/
theorem retry_delays_tie_counterexample :
    (0 : ℚ) ≤ 1 - 1 / 2 ^ 53 ∧ (1 - 1 / 2 ^ 53 : ℚ) < 1 ∧
    roundDouble (1 - 1 / 2 ^ 53) = 1 - 1 / 2 ^ 53 ∧
    roundDouble ((1 - 1 / 2 ^ 53) * 1000) = 1000 - 1 / 2 ^ 43 ∧
    (0 : ℚ) ≤ 1000 - 1 / 2 ^ 43 ∧ (1000 - 1 / 2 ^ 43 : ℚ) < 1000 ∧
    roundDouble (0 * 1000) = 0 ∧
    getRetryDelay 0 (1 - 1 / 2 ^ 53) = 2000 ∧
    getRetryDelay 1 0 = 2000 ∧
    getRetryDelay 0 (1 - 1 / 2 ^ 53) ≠ 1000 * 2 ^ 0 + roundDouble ((1 - 1 / 2 ^ 53) * 1000) ∧
    ¬ getRetryDelay 0 (1 - 1 / 2 ^ 53) < getRetryDelay 1 0 := by
  obtain ⟨h0, h1⟩ := getRetryDelay_tie
  refine ⟨by norm_num, by norm_num, roundDouble_largest_random, roundDouble_largest_jitter,
    by norm_num, by norm_num, by rw [zero_mul, roundDouble_zero], h0, h1, ?_, ?_⟩
  · rw [h0, roundDouble_largest_jitter]
    norm_num
  · rw [h0, h1]
    exact lt_irrefl _

/-- C3 (amended): the k-th retry waits `getRetryDelay (k - 1)`, the number nearest to
`1000 * 2 ^ (k - 1) + jitter`, the jitter being the number nearest to `Math.random() * 1000`; it
lies in `[0, 1000]`, and below 1000 for every draw that is a number below 1 (at most
`1 - 2 ^ (-53)`).  The delay lies between `1000 * 2 ^ (k - 1)` and one second more, so that for
all draws `r1`, `r2` in `[0, 1)` and `k` in `{1, 2}` retry `k` with draw `r1` waits at most as
long as retry `k + 1` with draw `r2`, and strictly less when `r1 * 1000` is at most 999; and in
the run of a request whose every attempt fails retryably the three delays scheduled are
`getRetryDelay 0`, `getRetryDelay 1`, `getRetryDelay 2` of the successive random draws, in
non-decreasing order. -/
theorem retry_delays_increase (env : Env) (w : World) (config : Config)
    (hstore : w.storage.getItemThrows = none)
    (hexcl : shouldExclude config = false)
    (hfresh : config.retryCount.getD 0 = 0)
    (hnet : ∀ k, retryable (env.net k) = true)
    (hprobe : ∀ k, isNetworkConnected (env.probe k) = true)
    (hrandom : ∀ k, 0 ≤ env.random k ∧ env.random k < 1) :
    (∀ (k : Nat) (r1 r2 : ℚ), k = 1 ∨ k = 2 → 0 ≤ r1 → r1 < 1 → 0 ≤ r2 → r2 < 1 →
      getRetryDelay (k - 1) r1 = roundDouble (1000 * 2 ^ (k - 1) + roundDouble (r1 * 1000)) ∧
      getRetryDelay k r2 = roundDouble (1000 * 2 ^ k + roundDouble (r2 * 1000)) ∧
      0 ≤ roundDouble (r1 * 1000) ∧ roundDouble (r1 * 1000) ≤ 1000 ∧
      (r1 ≤ 1 - 1 / 2 ^ 53 → roundDouble (r1 * 1000) < 1000) ∧
      1000 * 2 ^ (k - 1) ≤ getRetryDelay (k - 1) r1 ∧
      getRetryDelay (k - 1) r1 ≤ 1000 * 2 ^ (k - 1) + 1000 ∧
      1000 * 2 ^ k ≤ getRetryDelay k r2 ∧
      getRetryDelay k r2 ≤ 1000 * 2 ^ k + 1000 ∧
      getRetryDelay (k - 1) r1 ≤ getRetryDelay k r2 ∧
      (r1 * 1000 ≤ 999 → getRetryDelay (k - 1) r1 < getRetryDelay k r2)) ∧
    ∃ w' outcome d1 d2 d3,
      (∀ fuel, 4 ≤ fuel → api env fuel w config = some (w', outcome)) ∧
      w'.delays = w.delays ++ [d1, d2, d3] ∧
      d1 = getRetryDelay 0 (env.random w.sent.length) ∧
      d2 = getRetryDelay 1 (env.random (w.sent.length + 1)) ∧
      d3 = getRetryDelay 2 (env.random (w.sent.length + 2)) ∧
      d1 ≤ d2 ∧ d2 ≤ d3 := by
  constructor
  · intro k r1 r2 hk h10 h11 h20 h21
    obtain ⟨n, rfl⟩ : ∃ n, k = n + 1 := by
      rcases hk with rfl | rfl
      · exact ⟨0, rfl⟩
      · exact ⟨1, rfl⟩
    have hn : n + 1 ≤ 2 := by omega
    simp only [Nat.add_sub_cancel]
    obtain ⟨hj0, hj1, _, hj3⟩ := jitter_bounds r1 h10 h11
    obtain ⟨ha, hb, _⟩ := getRetryDelay_bounds n (by omega) r1 h10 h11
    obtain ⟨hc, hd, _⟩ := getRetryDelay_bounds (n + 1) hn r2 h20 h21
    obtain ⟨hle, hlt⟩ := getRetryDelay_le_succ n hn r1 r2 h10 h11 h20 h21
    refine ⟨getRetryDelay_eq n (by omega) r1, getRetryDelay_eq (n + 1) hn r2, hj0, hj1, ?_,
      ha, hb, hc, hd, hle, hlt⟩
    intro h
    exact lt_of_le_of_lt (hj3 h) (by norm_num)
  · obtain ⟨sent, code, response, message, _, _, _, hrun⟩ :=
      api_exhausts_retries env w config hstore hexcl hfresh hnet hprobe
    exact ⟨_, _, _, _, _, hrun, rfl, rfl, rfl, rfl,
      (getRetryDelay_le_succ 0 (by norm_num) _ _ (hrandom _).1 (hrandom _).2 (hrandom _).1
        (hrandom _).2).1,
      (getRetryDelay_le_succ 1 (by norm_num) _ _ (hrandom _).1 (hrandom _).2 (hrandom _).1
        (hrandom _).2).1⟩

/-- C3 (witness): the cart request, every attempt timing out, every random draw one half: the
three delays are 1500, 2500 and 4500 ms. -/
theorem retry_delays_increase_witness :
    (idleWorld (storageWith none)).storage.getItemThrows = none ∧
    shouldExclude cartConfig = false ∧
    cartConfig.retryCount.getD 0 = 0 ∧
    (∀ k, retryable (timeoutEnv.net k) = true) ∧
    (∀ k, isNetworkConnected (timeoutEnv.probe k) = true) ∧
    (∀ k, 0 ≤ timeoutEnv.random k ∧ timeoutEnv.random k < 1) ∧
    getRetryDelay 0 (1 / 2) = 1500 ∧ getRetryDelay 1 (1 / 2) = 2500 ∧
    getRetryDelay 2 (1 / 2) = 4500 ∧
    (∀ (k : Nat) (r1 r2 : ℚ), k = 1 ∨ k = 2 → 0 ≤ r1 → r1 < 1 → 0 ≤ r2 → r2 < 1 →
      getRetryDelay (k - 1) r1 = roundDouble (1000 * 2 ^ (k - 1) + roundDouble (r1 * 1000)) ∧
      getRetryDelay k r2 = roundDouble (1000 * 2 ^ k + roundDouble (r2 * 1000)) ∧
      0 ≤ roundDouble (r1 * 1000) ∧ roundDouble (r1 * 1000) ≤ 1000 ∧
      (r1 ≤ 1 - 1 / 2 ^ 53 → roundDouble (r1 * 1000) < 1000) ∧
      1000 * 2 ^ (k - 1) ≤ getRetryDelay (k - 1) r1 ∧
      getRetryDelay (k - 1) r1 ≤ 1000 * 2 ^ (k - 1) + 1000 ∧
      1000 * 2 ^ k ≤ getRetryDelay k r2 ∧
      getRetryDelay k r2 ≤ 1000 * 2 ^ k + 1000 ∧
      getRetryDelay (k - 1) r1 ≤ getRetryDelay k r2 ∧
      (r1 * 1000 ≤ 999 → getRetryDelay (k - 1) r1 < getRetryDelay k r2)) ∧
    ∃ w' outcome d1 d2 d3,
      (∀ fuel, 4 ≤ fuel →
        api timeoutEnv fuel (idleWorld (storageWith none)) cartConfig = some (w', outcome)) ∧
      w'.delays = (idleWorld (storageWith none)).delays ++ [d1, d2, d3] ∧
      d1 = getRetryDelay 0 (timeoutEnv.random (idleWorld (storageWith none)).sent.length) ∧
      d2 = getRetryDelay 1 (timeoutEnv.random ((idleWorld (storageWith none)).sent.length + 1)) ∧
      d3 = getRetryDelay 2 (timeoutEnv.random ((idleWorld (storageWith none)).sent.length + 2)) ∧
      d1 ≤ d2 ∧ d2 ≤ d3 :=
  ⟨rfl, by decide, rfl, fun _ => rfl, fun _ => rfl, fun _ => by norm_num [timeoutEnv],
    getRetryDelay_half.1, getRetryDelay_half.2.1, getRetryDelay_half.2.2,
    retry_delays_increase timeoutEnv (idleWorld (storageWith none)) cartConfig rfl
      (by decide) rfl (fun _ => rfl) (fun _ => rfl) (fun _ => by norm_num [timeoutEnv])⟩

/-- Failures arriving while `isRefreshing` is set only extend the queue, with the configs of the
401 failures on non-excluded endpoints. -/
theorem foldl_arrive (arrivals : List AxiosError) (w : World) (h : w.isRefreshing = true) :
    arrivals.foldl arrive w =
      { w with failedQueue := w.failedQueue ++ enqueued arrivals } := by
  induction arrivals generalizing w with
  | nil => simp [enqueued]
  | cons e es ih =>
    rw [List.foldl_cons]
    cases hc : e.config with
    | none =>
      have : arrive w e = w := by simp [arrive, hc]
      rw [this, ih w h]
      simp [enqueued, hc]
    | some c =>
      by_cases hq : is401 e = true ∧ shouldExclude c = false
      · have : arrive w e = { w with failedQueue := w.failedQueue ++ [c] } := by
          simp [arrive, hc, hq.1, hq.2, h]
        rw [this, ih { w with failedQueue := w.failedQueue ++ [c] } h]
        simp [enqueued, List.filterMap_cons, hc, hq.1, hq.2]
      · have : arrive w e = w := by
          simp only [arrive, hc]
          rw [if_neg]
          intro hcon
          simp only [Bool.and_eq_true, Bool.not_eq_true', ] at hcon
          exact hq ⟨hcon.1.1, hcon.1.2⟩
        rw [this, ih w h]
        have hq2 : ¬ (is401 e = true ∧ shouldExclude c = false) := hq
        simp [enqueued, List.filterMap_cons, hc, hq2]

/-- The 401 branch run by the call that starts an invalidation, in each of its four ways through
the storage operations. -/
theorem onRejected_invalidate (reissue : World → Config → Option (World × Outcome))
    (probe : NetOutcome) (random : ℚ) (arrivals1 arrivals2 : List AxiosError) (w : World)
    (error : AxiosError) (config : Config)
    (hconfig : error.config = some config) (h401 : is401 error = true)
    (hexcl : shouldExclude config = false) (hidle : w.isRefreshing = false) :
    onRejected reissue probe random arrivals1 arrivals2 w error =
      match w.storage.getItem "token" with
      | .error m =>
        some ({ w with
                isRefreshing := false
                failedQueue := []
                queueSettled := w.queueSettled ++
                  (w.failedQueue ++ enqueued arrivals1).map
                    (fun c => (c, QueueOutcome.rejected (.error m))) },
          .rejected (.error m))
      | .ok token =>
        match truthy token with
        | none =>
          some ({ w with
                  isRefreshing := false
                  failedQueue := []
                  queueSettled := w.queueSettled ++
                    (w.failedQueue ++ enqueued arrivals1).map
                      (fun c => (c, QueueOutcome.rejected
                        (.error "Token refresh failed. Please login again."))) },
            .rejected (.axios error))
        | some _ =>
          match w.storage.removeItem "token" with
          | .error m =>
            some ({ w with
                    isRefreshing := false
                    failedQueue := []
                    removeCalls := w.removeCalls + 1
                    queueSettled := w.queueSettled ++
                      (w.failedQueue ++ enqueued arrivals1 ++ enqueued arrivals2).map
                        (fun c => (c, QueueOutcome.rejected (.error m))) },
              .rejected (.error m))
          | .ok storage =>
            some ({ w with
                    isRefreshing := false
                    failedQueue := []
                    storage := storage
                    removeCalls := w.removeCalls + 1
                    queueSettled := w.queueSettled ++
                      (w.failedQueue ++ enqueued arrivals1 ++ enqueued arrivals2).map
                        (fun c => (c, QueueOutcome.rejected
                          (.error "Token refresh failed. Please login again."))) },
              .rejected (.axios error)) := by
  simp only [onRejected, hconfig, h401, hexcl, hidle, Bool.not_false, Bool.and_self, if_true,
    Bool.false_eq_true, if_false]
  rw [foldl_arrive arrivals1 _ rfl]
  cases hg : w.storage.getItem "token" with
  | error m => simp [hg, processQueue]
  | ok token =>
    cases ht : truthy token with
    | none => simp [hg, ht, processQueue]
    | some t =>
      cases hr : w.storage.removeItem "token" with
      | error m =>
        simp only [hg, ht, hr]
        rw [foldl_arrive arrivals2 _ rfl]
        simp [processQueue]
      | ok storage =>
        simp only [hg, ht, hr]
        rw [foldl_arrive arrivals2 _ rfl]
        simp [processQueue]

/-- C5 (counterexample): a 401 on the cart request, handled with no invalidation in progress over
a storage whose reads fail: the handler finishes on its storage-error path with the refresh
flag cleared and the queue empty, and the credential `abc` is still stored. -/
theorem invalidation_storage_error_counterexample :
    ∃ w', onRejected (fun _ _ => none) (.ok { status := 200, dataError := none }) 0 [] []
        (idleWorld unreadableStorage) (unauthorized cartConfig) =
        some (w', .rejected (.error "Storage unavailable")) ∧
      w'.isRefreshing = false ∧ w'.failedQueue = [] ∧
      w'.storage.credential = some "abc" ∧ w'.storage.credential ≠ none :=
  ⟨_, rfl, rfl, rfl, by decide, by decide⟩

/-- C5 (amended): a 401 on a non-excluded endpoint handled while no invalidation is in progress,
with any failures arriving while the handler is suspended, ends with the call rejected and not
re-issued, `isRefreshing` false and `failedQueue` empty on every path, at most one `removeItem`
call, and every queued call rejected. On the success path (the storage operations do not fail)
no credential is stored afterwards; on the storage-error path the storage is left as it was. -/
theorem invalidation_clears_state (reissue : World → Config → Option (World × Outcome))
    (probe : NetOutcome) (random : ℚ) (arrivals1 arrivals2 : List AxiosError) (w : World)
    (error : AxiosError) (config : Config)
    (hconfig : error.config = some config) (h401 : is401 error = true)
    (hexcl : shouldExclude config = false) (hidle : w.isRefreshing = false) :
    ∃ w' f, onRejected reissue probe random arrivals1 arrivals2 w error =
        some (w', .rejected f) ∧
      w'.isRefreshing = false ∧ w'.failedQueue = [] ∧
      w'.removeCalls ≤ w.removeCalls + 1 ∧
      w'.sent = w.sent ∧
      (∀ x ∈ w'.queueSettled, x ∈ w.queueSettled ∨ ∃ g, x.2 = QueueOutcome.rejected g) ∧
      (w.storage.getItemThrows = none →
        (w.storage.credential = none ∨ w.storage.removeItemThrows = none) →
        w'.storage.credential = none) ∧
      ((w.storage.getItemThrows ≠ none ∨
          (w.storage.credential ≠ none ∧ w.storage.removeItemThrows ≠ none)) →
        w'.storage = w.storage) := by
  have hrun := onRejected_invalidate reissue probe random arrivals1 arrivals2 w error config
    hconfig h401 hexcl hidle
  have hsettled : ∀ (old : List (Config × QueueOutcome)) (queue : List Config) (g : Failure),
      ∀ x ∈ old ++ queue.map (fun c => (c, QueueOutcome.rejected g)),
        x ∈ old ∨ ∃ g, x.2 = QueueOutcome.rejected g := by
    intro old queue g x hx
    rcases List.mem_append.mp hx with h | h
    · exact Or.inl h
    · obtain ⟨c, _, rfl⟩ := List.mem_map.mp h
      exact Or.inr ⟨g, rfl⟩
  cases hthrow : w.storage.getItemThrows with
  | some m =>
    have hg : w.storage.getItem "token" = .error m := by simp [Storage.getItem, hthrow]
    simp only [hg] at hrun
    exact ⟨_, _, hrun, rfl, rfl, Nat.le_succ _, rfl, hsettled _ _ _,
      fun h => by simp at h, fun _ => rfl⟩
  | none =>
    have hg : w.storage.getItem "token" = .ok (w.storage.data "token") := by
      simp [Storage.getItem, hthrow]
    simp only [hg] at hrun
    cases ht : truthy (w.storage.data "token") with
    | none =>
      simp only [ht] at hrun
      refine ⟨_, _, hrun, rfl, rfl, Nat.le_succ _, rfl, hsettled _ _ _, fun _ _ => ht, ?_⟩
      intro h
      rcases h with h | h
      · exact absurd rfl h
      · exact absurd ht h.1
    | some t =>
      simp only [ht] at hrun
      cases hrm : w.storage.removeItemThrows with
      | some m =>
        have hr : w.storage.removeItem "token" = .error m := by
          simp [Storage.removeItem, hrm]
        simp only [hr] at hrun
        refine ⟨_, _, hrun, rfl, rfl, le_refl _, rfl, hsettled _ _ _, ?_, fun _ => rfl⟩
        intro _ h
        rcases h with h | h
        · rw [Storage.credential, ht] at h
          cases h
        · cases h
      | none =>
        have hr : w.storage.removeItem "token" =
            .ok { w.storage with data := fun k => if k = "token" then none else w.storage.data k } := by
          simp [Storage.removeItem, hrm]
        simp only [hr] at hrun
        refine ⟨_, _, hrun, rfl, rfl, le_refl _, rfl, hsettled _ _ _, ?_, ?_⟩
        · intro _ _
          simp [Storage.credential, truthy]
        · intro h
          rcases h with h | h
          · exact absurd rfl h
          · exact absurd rfl h.2

/-- C5 (witness): a 401 on the cart request over a working storage holding a token, while a 401
on the orders request arrives during the storage read. -/
theorem invalidation_clears_state_witness :
    (unauthorized cartConfig).config = some cartConfig ∧
    is401 (unauthorized cartConfig) = true ∧
    shouldExclude cartConfig = false ∧
    (idleWorld (storageWith (some "abc"))).isRefreshing = false ∧
    ∃ w' f, onRejected (fun _ _ => none) (.ok { status := 200, dataError := none }) 0
        [unauthorized ordersConfig] [] (idleWorld (storageWith (some "abc")))
        (unauthorized cartConfig) = some (w', .rejected f) ∧
      w'.isRefreshing = false ∧ w'.failedQueue = [] ∧
      w'.removeCalls ≤ (idleWorld (storageWith (some "abc"))).removeCalls + 1 ∧
      w'.sent = (idleWorld (storageWith (some "abc"))).sent ∧
      (∀ x ∈ w'.queueSettled, x ∈ (idleWorld (storageWith (some "abc"))).queueSettled ∨
        ∃ g, x.2 = QueueOutcome.rejected g) ∧
      ((idleWorld (storageWith (some "abc"))).storage.getItemThrows = none →
        ((idleWorld (storageWith (some "abc"))).storage.credential = none ∨
          (idleWorld (storageWith (some "abc"))).storage.removeItemThrows = none) →
        w'.storage.credential = none) ∧
      (((idleWorld (storageWith (some "abc"))).storage.getItemThrows ≠ none ∨
          ((idleWorld (storageWith (some "abc"))).storage.credential ≠ none ∧
            (idleWorld (storageWith (some "abc"))).storage.removeItemThrows ≠ none)) →
        w'.storage = (idleWorld (storageWith (some "abc"))).storage) :=
  ⟨rfl, by decide, by decide, rfl,
    invalidation_clears_state (fun _ _ => none) (.ok { status := 200, dataError := none }) 0
      [unauthorized ordersConfig] [] (idleWorld (storageWith (some "abc")))
      (unauthorized cartConfig) cartConfig rfl (by decide) (by decide) rfl⟩

/-- C6 (counterexample): the cart request starts an invalidation over a working storage holding a
token while a 401 on the orders request is queued. Both are rejected, but the first with its own
401 error and the queued one with the `Token refresh failed` error: two different values. -/
theorem invalidation_same_error_counterexample :
    ∃ w' f g, onRejected (fun _ _ => none) (.ok { status := 200, dataError := none }) 0
        [unauthorized ordersConfig] [] (idleWorld (storageWith (some "abc")))
        (unauthorized cartConfig) = some (w', .rejected f) ∧
      w'.queueSettled = [(ordersConfig, .rejected g)] ∧
      f = .axios (unauthorized cartConfig) ∧
      g = .error "Token refresh failed. Please login again." ∧
      f ≠ g :=
  ⟨_, _, _, rfl, rfl, rfl, rfl, by decide⟩

/-- C6 (amended): in one invalidation episode the call that started it is rejected and every call
in `failedQueue` (those already there and every 401 on a non-excluded endpoint that arrived
while the handler was suspended in a storage operation it reached) is rejected, none is
re-issued, and all the queued calls are rejected with one and the same value. On the success
path that value is the `Token refresh failed. Please login again.` error while the starting
call is rejected with its own 401 error; on the storage-error path both are the storage error. -/
theorem invalidation_rejects_all (reissue : World → Config → Option (World × Outcome))
    (probe : NetOutcome) (random : ℚ) (arrivals1 arrivals2 : List AxiosError) (w : World)
    (error : AxiosError) (config : Config)
    (hconfig : error.config = some config) (h401 : is401 error = true)
    (hexcl : shouldExclude config = false) (hidle : w.isRefreshing = false) :
    ∃ w' f q queue, onRejected reissue probe random arrivals1 arrivals2 w error =
        some (w', .rejected f) ∧
      w'.sent = w.sent ∧
      w'.queueSettled = w.queueSettled ++ queue.map (fun c => (c, QueueOutcome.rejected q)) ∧
      (queue = w.failedQueue ++ enqueued arrivals1 ∨
        queue = w.failedQueue ++ enqueued arrivals1 ++ enqueued arrivals2) ∧
      (w.storage.getItemThrows = none → w.storage.credential ≠ none →
        queue = w.failedQueue ++ enqueued arrivals1 ++ enqueued arrivals2) ∧
      ((f = .axios error ∧ q = .error "Token refresh failed. Please login again." ∧
          w.storage.getItemThrows = none ∧
          (w.storage.credential = none ∨ w.storage.removeItemThrows = none)) ∨
        (∃ m, f = .error m ∧ q = .error m ∧
          (w.storage.getItemThrows = some m ∨
            (w.storage.credential ≠ none ∧ w.storage.removeItemThrows = some m)))) := by
  have hrun := onRejected_invalidate reissue probe random arrivals1 arrivals2 w error config
    hconfig h401 hexcl hidle
  cases hthrow : w.storage.getItemThrows with
  | some m =>
    have hg : w.storage.getItem "token" = .error m := by simp [Storage.getItem, hthrow]
    simp only [hg] at hrun
    exact ⟨_, _, _, _, hrun, rfl, rfl, Or.inl rfl, fun h => by simp at h,
      Or.inr ⟨m, rfl, rfl, Or.inl rfl⟩⟩
  | none =>
    have hg : w.storage.getItem "token" = .ok (w.storage.data "token") := by
      simp [Storage.getItem, hthrow]
    simp only [hg] at hrun
    cases ht : truthy (w.storage.data "token") with
    | none =>
      simp only [ht] at hrun
      exact ⟨_, _, _, _, hrun, rfl, rfl, Or.inl rfl, fun _ h => absurd ht h,
        Or.inl ⟨rfl, rfl, rfl, Or.inl ht⟩⟩
    | some t =>
      simp only [ht] at hrun
      have hcred : w.storage.credential ≠ none := by
        rw [Storage.credential, ht]
        exact Option.some_ne_none t
      cases hrm : w.storage.removeItemThrows with
      | some m =>
        have hr : w.storage.removeItem "token" = .error m := by
          simp [Storage.removeItem, hrm]
        simp only [hr] at hrun
        exact ⟨_, _, _, _, hrun, rfl, rfl, Or.inr rfl, fun _ _ => rfl,
          Or.inr ⟨m, rfl, rfl, Or.inr ⟨hcred, rfl⟩⟩⟩
      | none =>
        have hr : w.storage.removeItem "token" =
            .ok { w.storage with data := fun k => if k = "token" then none else w.storage.data k } := by
          simp [Storage.removeItem, hrm]
        simp only [hr] at hrun
        exact ⟨_, _, _, _, hrun, rfl, rfl, Or.inr rfl, fun _ _ => rfl,
          Or.inl ⟨rfl, rfl, rfl, Or.inr rfl⟩⟩

/-- C6 (witness): the cart request starts the invalidation over a working storage holding a
token; 401s on the orders request arrive during the storage read and during the removal. -/
theorem invalidation_rejects_all_witness :
    (unauthorized cartConfig).config = some cartConfig ∧
    is401 (unauthorized cartConfig) = true ∧
    shouldExclude cartConfig = false ∧
    (idleWorld (storageWith (some "abc"))).isRefreshing = false ∧
    ∃ w' f q queue, onRejected (fun _ _ => none) (.ok { status := 200, dataError := none }) 0
        [unauthorized ordersConfig] [unauthorized ordersConfig]
        (idleWorld (storageWith (some "abc"))) (unauthorized cartConfig) =
        some (w', .rejected f) ∧
      w'.sent = (idleWorld (storageWith (some "abc"))).sent ∧
      w'.queueSettled = (idleWorld (storageWith (some "abc"))).queueSettled ++
        queue.map (fun c => (c, QueueOutcome.rejected q)) ∧
      (queue = (idleWorld (storageWith (some "abc"))).failedQueue ++
          enqueued [unauthorized ordersConfig] ∨
        queue = (idleWorld (storageWith (some "abc"))).failedQueue ++
          enqueued [unauthorized ordersConfig] ++ enqueued [unauthorized ordersConfig]) ∧
      ((idleWorld (storageWith (some "abc"))).storage.getItemThrows = none →
        (idleWorld (storageWith (some "abc"))).storage.credential ≠ none →
        queue = (idleWorld (storageWith (some "abc"))).failedQueue ++
          enqueued [unauthorized ordersConfig] ++ enqueued [unauthorized ordersConfig]) ∧
      ((f = .axios (unauthorized cartConfig) ∧
          q = .error "Token refresh failed. Please login again." ∧
          (idleWorld (storageWith (some "abc"))).storage.getItemThrows = none ∧
          ((idleWorld (storageWith (some "abc"))).storage.credential = none ∨
            (idleWorld (storageWith (some "abc"))).storage.removeItemThrows = none)) ∨
        (∃ m, f = .error m ∧ q = .error m ∧
          ((idleWorld (storageWith (some "abc"))).storage.getItemThrows = some m ∨
            ((idleWorld (storageWith (some "abc"))).storage.credential ≠ none ∧
              (idleWorld (storageWith (some "abc"))).storage.removeItemThrows = some m)))) :=
  ⟨rfl, by decide, by decide, rfl,
    invalidation_rejects_all (fun _ _ => none) (.ok { status := 200, dataError := none }) 0
      [unauthorized ordersConfig] [unauthorized ordersConfig]
      (idleWorld (storageWith (some "abc"))) (unauthorized cartConfig) cartConfig rfl
      (by decide) (by decide) rfl⟩

end Api

/-! ## Properties of the slice reducers -/

namespace Api

/-- A non-empty string is truthy. -/
theorem truthy_some_of_ne (v : String) (h : v ≠ "") : truthy (some v) = some v := by
  simp [truthy, Option.filter, h]

/-- The empty string is falsy. -/
theorem truthy_empty : truthy (some "") = none := by
  simp [truthy, Option.filter]

/-- What is truthy is the value itself, and it is not the empty string. -/
theorem truthy_eq_some (o : Option String) (t : String) (h : truthy o = some t) :
    o = some t ∧ t ≠ "" := by
  cases o with
  | none => simp [truthy] at h
  | some v =>
    by_cases hv : v = ""
    · subst hv
      rw [truthy_empty] at h
      cases h
    · rw [truthy_some_of_ne v hv] at h
      cases h
      exact ⟨rfl, hv⟩

end Api

namespace Cart

/-- C11: the cart reducer applied to the auth `logout` action returns `items = []`,
`loading = false`, `error = null`, whatever the prior state, so the result is the same for any
two prior states. -/
theorem logout_clears_cart (state : CartState) :
    cartReducer state .logout = { items := [], loading := false, error := none } ∧
    ∀ other : CartState, cartReducer state .logout = cartReducer other .logout :=
  ⟨rfl, fun _ => rfl⟩

end Cart

namespace Store

/-- C12 (counterexample): `addToCartAsync.pending` has no reducer case, so on the initial cart
state it leaves `loading = false`. -/
theorem pending_without_case_counterexample :
    ¬ ((Cart.cartReducer Cart.initialState .addToCartAsync_pending).loading = true ∧
      (Cart.cartReducer Cart.initialState .addToCartAsync_pending).error = none) := by
  decide

/-- C12 (amended): for every prior slice state the pending actions of `loginUser`, `signupUser`
and `fetchProducts` yield `loading = true` and `error = null`, and `fetchCart.pending` yields
`loading = true`; `restoreAuth` and the five cart mutations have no pending case, so their
pending action leaves the slice state as it is. -/
theorem pending_actions (a : Auth.AuthState) (c : Cart.CartState) (p : Products.ProductsState) :
    ((Auth.authReducer a .loginUser_pending).loading = true ∧
      (Auth.authReducer a .loginUser_pending).error = none) ∧
    ((Auth.authReducer a .signupUser_pending).loading = true ∧
      (Auth.authReducer a .signupUser_pending).error = none) ∧
    ((Products.productsReducer p .fetchProducts_pending).loading = true ∧
      (Products.productsReducer p .fetchProducts_pending).error = none) ∧
    (Cart.cartReducer c .fetchCart_pending).loading = true ∧
    Auth.authReducer a .restoreAuth_pending = a ∧
    Cart.cartReducer c .addToCartAsync_pending = c ∧
    Cart.cartReducer c .removeFromCartAsync_pending = c ∧
    Cart.cartReducer c .updateQuantityAsync_pending = c ∧
    Cart.cartReducer c .increaseQuantityAsync_pending = c ∧
    Cart.cartReducer c .decreaseQuantityAsync_pending = c :=
  ⟨⟨rfl, rfl⟩, ⟨rfl, rfl⟩, ⟨rfl, rfl⟩, rfl, rfl, rfl, rfl, rfl, rfl, rfl⟩

/-- C13 (counterexample): from a state with a non-null error and `loading = true`,
`loginUser.fulfilled` leaves the error in place and `addToCartAsync.fulfilled` leaves
`loading = true`. -/
theorem fulfilled_counterexample :
    (Auth.authReducer Auth.failedWhileLoading (.loginUser_fulfilled Auth.aliceData)).error ≠
      none ∧
    (Cart.cartReducer Cart.failedWhileLoading
      (.addToCartAsync_fulfilled { id := 1, productId := 7, size := 42, quantity := 1 })).loading
        ≠ false := by
  decide

/-- C13 (amended): for every prior slice state the fulfilled actions of `restoreAuth`,
`loginUser`, `signupUser`, `fetchCart` and `fetchProducts` store the payload as the slice data
(`user = payload` with `isAuthenticated = true`, respectively `items = payload`) and yield
`loading = false`, and `error` is null afterwards whenever it was null before; in particular a
successful `fetchCart` from a state with `error = null` leaves `items = payload`,
`loading = false`, `error = null`. The fulfilled actions of `addToCartAsync` and of the three
quantity operations set `error = null` and keep `loading`; `addToCartAsync.fulfilled` prepends
its payload, and `removeFromCartAsync.fulfilled` drops the lines with the given id and keeps
`loading`. -/
theorem fulfilled_actions (a : Auth.AuthState) (c : Cart.CartState) (p : Products.ProductsState)
    (data : Auth.AuthData) (lines : List Cart.CartItem) (products : List Products.Product)
    (line : Cart.CartItem) (answer : Option Cart.CartItem) (id : Nat) :
    ((Auth.authReducer a (.restoreAuth_fulfilled data)).user = some data ∧
      (Auth.authReducer a (.restoreAuth_fulfilled data)).isAuthenticated = true ∧
      (Auth.authReducer a (.restoreAuth_fulfilled data)).loading = false ∧
      (a.error = none → (Auth.authReducer a (.restoreAuth_fulfilled data)).error = none)) ∧
    ((Auth.authReducer a (.loginUser_fulfilled data)).user = some data ∧
      (Auth.authReducer a (.loginUser_fulfilled data)).isAuthenticated = true ∧
      (Auth.authReducer a (.loginUser_fulfilled data)).loading = false ∧
      (a.error = none → (Auth.authReducer a (.loginUser_fulfilled data)).error = none)) ∧
    ((Auth.authReducer a (.signupUser_fulfilled data)).user = some data ∧
      (Auth.authReducer a (.signupUser_fulfilled data)).isAuthenticated = true ∧
      (Auth.authReducer a (.signupUser_fulfilled data)).loading = false ∧
      (a.error = none → (Auth.authReducer a (.signupUser_fulfilled data)).error = none)) ∧
    ((Cart.cartReducer c (.fetchCart_fulfilled lines)).items = lines ∧
      (Cart.cartReducer c (.fetchCart_fulfilled lines)).loading = false ∧
      (c.error = none → (Cart.cartReducer c (.fetchCart_fulfilled lines)).error = none)) ∧
    ((Products.productsReducer p (.fetchProducts_fulfilled products)).items = products ∧
      (Products.productsReducer p (.fetchProducts_fulfilled products)).loading = false ∧
      (p.error = none →
        (Products.productsReducer p (.fetchProducts_fulfilled products)).error = none)) ∧
    ((Cart.cartReducer c (.addToCartAsync_fulfilled line)).items = line :: c.items ∧
      (Cart.cartReducer c (.addToCartAsync_fulfilled line)).error = none ∧
      (Cart.cartReducer c (.addToCartAsync_fulfilled line)).loading = c.loading) ∧
    ((Cart.cartReducer c (.updateQuantityAsync_fulfilled answer id)).error = none ∧
      (Cart.cartReducer c (.updateQuantityAsync_fulfilled answer id)).loading = c.loading) ∧
    ((Cart.cartReducer c (.increaseQuantityAsync_fulfilled answer id)).error = none ∧
      (Cart.cartReducer c (.increaseQuantityAsync_fulfilled answer id)).loading = c.loading) ∧
    ((Cart.cartReducer c (.decreaseQuantityAsync_fulfilled answer id)).error = none ∧
      (Cart.cartReducer c (.decreaseQuantityAsync_fulfilled answer id)).loading = c.loading) ∧
    ((Cart.cartReducer c (.removeFromCartAsync_fulfilled id)).items =
        c.items.filter (fun item => item.id != id) ∧
      (Cart.cartReducer c (.removeFromCartAsync_fulfilled id)).loading = c.loading) :=
  ⟨⟨rfl, rfl, rfl, fun h => h⟩, ⟨rfl, rfl, rfl, fun h => h⟩, ⟨rfl, rfl, rfl, fun h => h⟩,
    ⟨rfl, rfl, fun h => h⟩, ⟨rfl, rfl, fun h => h⟩, ⟨rfl, rfl, rfl⟩, ⟨rfl, rfl⟩, ⟨rfl, rfl⟩,
    ⟨rfl, rfl⟩, ⟨rfl, rfl⟩⟩

/-- C14 (counterexample): `restoreAuth.rejected` with the value `Invalid token` leaves the error
field of the initial auth state null, and `addToCartAsync.rejected` leaves `loading = true`. -/
theorem rejected_counterexample :
    (Auth.authReducer Auth.initialState
      (.restoreAuth_rejected (some (.text "Invalid token")))).error ≠
        some (.text "Invalid token") ∧
    (Auth.authReducer Auth.initialState
      (.restoreAuth_rejected (some (.text "Invalid token")))).error = Auth.initialState.error ∧
    (Cart.cartReducer Cart.failedWhileLoading
      (.addToCartAsync_rejected (rejectedWithValue "Out of stock"))).loading ≠ false := by
  decide

/-- C14 (amended): for every prior state, the rejected actions of `loginUser` and `signupUser`
set `error` to `action.payload` and `loading = false`; those of `fetchCart` and `fetchProducts`
set `error` to `action.payload || action.error.message` and `loading = false`; those of the five
cart mutations set `error` to that value and keep `loading` and `items`; `restoreAuth.rejected`
sets `isAuthenticated = false`, `user = null` and `loading = false` and keeps `error`. The value
`action.payload || action.error.message` is the payload when it is a non-empty string and
`action.error.message` otherwise. -/
theorem rejected_actions (a : Auth.AuthState) (c : Cart.CartState) (p : Products.ProductsState)
    (body : Option Auth.Body) (r : Rejected) :
    ((Auth.authReducer a (.loginUser_rejected body)).error = body ∧
      (Auth.authReducer a (.loginUser_rejected body)).loading = false) ∧
    ((Auth.authReducer a (.signupUser_rejected body)).error = body ∧
      (Auth.authReducer a (.signupUser_rejected body)).loading = false) ∧
    ((Cart.cartReducer c (.fetchCart_rejected r)).error = r.value ∧
      (Cart.cartReducer c (.fetchCart_rejected r)).loading = false) ∧
    ((Products.productsReducer p (.fetchProducts_rejected r)).error = r.value ∧
      (Products.productsReducer p (.fetchProducts_rejected r)).loading = false) ∧
    (Cart.cartReducer c (.addToCartAsync_rejected r) = { c with error := r.value } ∧
      Cart.cartReducer c (.removeFromCartAsync_rejected r) = { c with error := r.value } ∧
      Cart.cartReducer c (.updateQuantityAsync_rejected r) = { c with error := r.value } ∧
      Cart.cartReducer c (.increaseQuantityAsync_rejected r) = { c with error := r.value } ∧
      Cart.cartReducer c (.decreaseQuantityAsync_rejected r) = { c with error := r.value }) ∧
    ((Auth.authReducer a (.restoreAuth_rejected body)).isAuthenticated = false ∧
      (Auth.authReducer a (.restoreAuth_rejected body)).user = none ∧
      (Auth.authReducer a (.restoreAuth_rejected body)).loading = false ∧
      (Auth.authReducer a (.restoreAuth_rejected body)).error = a.error) ∧
    (∀ v : String, r.payload = some v → v ≠ "" → r.value = some v) ∧
    (r.payload = none ∨ r.payload = some "" → r.value = r.errorMessage) := by
  refine ⟨⟨rfl, rfl⟩, ⟨rfl, rfl⟩, ⟨rfl, rfl⟩, ⟨rfl, rfl⟩, ⟨rfl, rfl, rfl, rfl, rfl⟩,
    ⟨rfl, rfl, rfl, rfl⟩, ?_, ?_⟩
  · intro v hv hne
    simp only [Rejected.value, hv, Api.truthy_some_of_ne v hne]
  · intro h
    rcases h with h | h
    · simp only [Rejected.value, h]
      rfl
    · simp only [Rejected.value, h, Api.truthy_empty]

end Store

/-! ## Properties of the thunks -/

namespace Store

/-- C15 (counterexample): a product listing fails with a response whose `data.error` is
`Database down`; `fetchProducts` rejects with the axios message `Request failed with status code
500`, not with the server's message, and that is what the slice stores. A login that fails with
the body `{ error: 'Invalid credentials' }` is rejected with the body object, not the string. -/
theorem server_message_counterexample :
    Products.databaseDownError.response.bind (fun r => r.dataError) = some "Database down" ∧
    Products.fetchProducts (.error Products.databaseDown) ≠ .rejected "Database down" ∧
    Products.fetchProducts (.error Products.databaseDown) =
      .rejected "Request failed with status code 500" ∧
    (Products.productsReducer Products.initialState
      (.fetchProducts_rejected
        (rejectedWithValue "Request failed with status code 500"))).error ≠
      some "Database down" ∧
    (Auth.loginUser (Api.storageWith none) (.error Auth.badCredentials)).action =
      .loginUser_rejected (some (.object (some "Invalid credentials"))) ∧
    (Auth.loginUser (Api.storageWith none) (.error Auth.badCredentials)).action ≠
      .loginUser_rejected (some (.text "Invalid credentials")) := by
  refine ⟨by decide, by decide, by decide, by decide, by decide, by decide⟩

/-- The server message wins in `extractError`. -/
theorem extractError_server_message (e : Api.AxiosError) (r : Api.Response) (m : String)
    (hr : e.response = some r) (hm : r.dataError = some m) (hne : m ≠ "") :
    Cart.extractError (.axios e) = m := by
  simp only [Cart.extractError, hr, Option.some_bind, hm, Api.truthy_some_of_ne m hne]

/-- C15 (amended): when a failed call carries a non-empty server message `response.data.error`,
every cart thunk (through `extractError`) rejects with exactly that string, and the cart slice
stores it as `error`; without a server message `extractError` gives `error.message`, and
`'Unknown error'` when that is empty. `loginUser` and `signupUser` reject with the response body
itself when there is one (a non-empty text, or the whole object) and with `'Login failed'`,
respectively `'Signup failed'`, otherwise. `fetchProducts` rejects with `err.message`, and with
`'Fetch failed'` when that is empty, whatever the response carries. -/
theorem rejection_values (e : Api.AxiosError) (r : Api.Response) (m : String)
    (hr : e.response = some r) (hm : r.dataError = some m) (hne : m ≠ "") :
    Cart.extractError (.axios e) = m ∧
    (∀ auth, Auth.userId auth ≠ none →
      (Cart.fetchCart (.error (.axios e)) auth).action = .rejected m) ∧
    (∀ server auth productId size quantity, Auth.userId auth ≠ none →
      server productId size quantity = .error (.axios e) →
      (Cart.addToCartAsync server auth productId size quantity).action = .rejected m) ∧
    (∀ server id, server id = .error (.axios e) →
      (Cart.removeFromCartAsync server id).action = .rejected m) ∧
    (∀ (server : Cart.UpdateQuantityServer) id quantity,
      server id quantity = .error (.axios e) →
      (Cart.updateQuantityAsync server id quantity).action = .rejected m) ∧
    (∀ (server : Cart.UpdateQuantityServer) state id item,
      Cart.find (fun x => x.id == id) state.items = some item →
      server id (item.quantity + 1) = .error (.axios e) →
      (Cart.increaseQuantityAsync server state id).action = .rejected m) ∧
    (∀ (server : Cart.UpdateQuantityServer) state id item,
      Cart.find (fun x => x.id == id) state.items = some item →
      server id (max 1 (item.quantity - 1)) = .error (.axios e) →
      (Cart.decreaseQuantityAsync server state id).action = .rejected m) ∧
    (∀ c, (Cart.cartReducer c (.fetchCart_rejected (rejectedWithValue m))).error = some m ∧
      (Cart.setError c (rejectedWithValue m)).error = some m) ∧
    (∀ e2 : Api.AxiosError, Api.truthy (e2.response.bind (fun x => x.dataError)) = none →
      Cart.extractError (.axios e2) = if e2.message ≠ "" then e2.message else "Unknown error") ∧
    (∀ message : String,
      Cart.extractError (.error message) = if message ≠ "" then message else "Unknown error") ∧
    (∀ storage f, (Auth.loginUser storage (.error f)).action =
      .loginUser_rejected (some (Auth.rejectValue f.data "Login failed"))) ∧
    (∀ storage f, (Auth.signupUser storage (.error f)).action =
      .signupUser_rejected (some (Auth.rejectValue f.data "Signup failed"))) ∧
    (∀ (fallback : String) (error : Option String),
      Auth.rejectValue (some (.object error)) fallback = .object error) ∧
    (∀ fallback text : String, text ≠ "" →
      Auth.rejectValue (some (.text text)) fallback = .text text) ∧
    (∀ fallback : String, Auth.rejectValue none fallback = .text fallback ∧
      Auth.rejectValue (some (.text "")) fallback = .text fallback) ∧
    Products.fetchProducts (.error (.axios e)) =
      .rejected (if e.message ≠ "" then e.message else "Fetch failed") := by
  have hx := extractError_server_message e r m hr hm hne
  have hv : (rejectedWithValue m).value = some m := by
    simp only [Rejected.value, rejectedWithValue, Api.truthy_some_of_ne m hne]
  refine ⟨hx, ?_, ?_, ?_, ?_, ?_, ?_, ?_, ?_, ?_, ?_, ?_, ?_, ?_, ?_, ?_⟩
  · intro auth hauth
    cases hu : Auth.userId auth with
    | none => exact absurd hu hauth
    | some n => simp only [Cart.fetchCart, hu, hx]
  · intro server auth productId size quantity hauth hs
    cases hu : Auth.userId auth with
    | none => exact absurd hu hauth
    | some n => simp only [Cart.addToCartAsync, hu, hs, hx]
  · intro server id hs
    simp only [Cart.removeFromCartAsync, hs, hx]
  · intro server id quantity hs
    simp only [Cart.updateQuantityAsync, Cart.callUpdateQuantity, hs, hx]
  · intro server state id item hfind hs
    simp only [Cart.increaseQuantityAsync, hfind, Cart.callUpdateQuantity, hs, hx]
  · intro server state id item hfind hs
    simp only [Cart.decreaseQuantityAsync, hfind, Cart.callUpdateQuantity, hs, hx]
  · intro c
    exact ⟨hv, hv⟩
  · intro e2 h2
    simp only [Cart.extractError, h2]
  · intro message
    rfl
  · intro storage f
    rfl
  · intro storage f
    rfl
  · intro fallback error
    rfl
  · intro fallback text htext
    simp [Auth.rejectValue, Auth.truthyBody, htext]
  · intro fallback
    exact ⟨rfl, by simp [Auth.rejectValue, Auth.truthyBody]⟩
  · rfl

/-- C15 (witness): the product listing error whose response carries `Database down`. -/
theorem rejection_values_witness :
    Products.databaseDownError.response = some { status := 500, dataError := some "Database down" } ∧
    "Database down" ≠ "" ∧
    Cart.extractError (.axios Products.databaseDownError) = "Database down" :=
  ⟨rfl, by decide,
    (rejection_values Products.databaseDownError { status := 500, dataError := some "Database down" }
      "Database down" rfl rfl (by decide)).1⟩

end Store

namespace Cart

/-- C16: when the auth state holds no user id (no user, no nested user, or an absent or zero
id), `fetchCart` makes no request and ends fulfilled with the empty list, and dispatching it
leaves the cart with `items = []` and `loading = false`. -/
theorem fetchCart_unauthenticated (getCart : Except Api.Failure (List CartItem))
    (auth : Auth.AuthState) (state : CartState)
    (h : auth.user = none ∨ (∃ d, auth.user = some d ∧ d.user = none) ∨
      (∃ d u, auth.user = some d ∧ d.user = some u ∧ (u.id = none ∨ u.id = some 0))) :
    (fetchCart getCart auth).requests = [] ∧
    (fetchCart getCart auth).action = .fulfilled [] ∧
    (dispatchFetchCart getCart auth state).items = [] ∧
    (dispatchFetchCart getCart auth state).loading = false := by
  have hu : Auth.userId auth = none := by
    rcases h with h | ⟨d, h1, h2⟩ | ⟨d, u, h1, h2, h3 | h3⟩
    · simp [Auth.userId, h]
    · simp [Auth.userId, h1, h2]
    · simp [Auth.userId, h1, h2, h3]
    · simp [Auth.userId, h1, h2, h3]
  have hrun : fetchCart getCart auth = { requests := [], action := .fulfilled [] } := by
    simp only [fetchCart, hu]
  refine ⟨by rw [hrun], by rw [hrun], ?_, ?_⟩
  · simp only [dispatchFetchCart, hrun, cartReducer]
  · simp only [dispatchFetchCart, hrun, cartReducer]

/-- C16 (witness): the initial auth state, a server that would return a line, and a cart that
holds an error while loading. -/
theorem fetchCart_unauthenticated_witness :
    Auth.initialState.user = none ∧
    (fetchCart (.ok singleLineCart.items) Auth.initialState).requests = [] ∧
    (fetchCart (.ok singleLineCart.items) Auth.initialState).action = .fulfilled [] ∧
    (dispatchFetchCart (.ok singleLineCart.items) Auth.initialState failedWhileLoading).items
      = [] ∧
    (dispatchFetchCart (.ok singleLineCart.items) Auth.initialState failedWhileLoading).loading
      = false :=
  ⟨rfl, fetchCart_unauthenticated (.ok singleLineCart.items) Auth.initialState failedWhileLoading
    (Or.inl rfl)⟩

end Cart

/-! ## Properties of the request interceptor and of the token store -/

namespace Api

/-- C17 (counterexample): the token `abc` is stored, but the storage read fails; the request
interceptor then rejects the cart request with the storage error instead of returning a
config. -/
theorem request_interceptor_fails_counterexample :
    unreadableStorage.data "token" = some "abc" ∧ "abc" ≠ "" ∧
    requestInterceptor unreadableStorage cartConfig = .error (.error "Storage unavailable") ∧
    ¬ ∃ sent, requestInterceptor unreadableStorage cartConfig = .ok sent := by
  refine ⟨rfl, by decide, rfl, ?_⟩
  rintro ⟨sent, h⟩
  have hfail : requestInterceptor unreadableStorage cartConfig =
      .error (.error "Storage unavailable") := rfl
  rw [hfail] at h
  cases h

/-- C17 (amended): with a non-empty token `t` stored, the request interceptor, when the read of
the storage succeeds, returns the config with the Authorization header `Bearer t`, the retry
counter kept when it was set to a positive number and 0 otherwise, and the other fields
unchanged; it fails the call only when that read fails, and then rejects with the error of the
storage. -/
theorem request_interceptor_attaches (storage : Storage) (config : Config) (t : String)
    (hstored : storage.data "token" = some t) (hne : t ≠ "") :
    (storage.getItemThrows = none →
      ∃ sent, requestInterceptor storage config = .ok sent ∧
        sent = { config with authorization := some ("Bearer " ++ t),
                             retryCount := sent.retryCount } ∧
        sent.authorization = some ("Bearer " ++ t) ∧
        (∀ n, config.retryCount = some n → 0 < n → sent.retryCount = some n) ∧
        (config.retryCount = none ∨ config.retryCount = some 0 → sent.retryCount = some 0) ∧
        sent.method = config.method ∧ sent.url = config.url) ∧
    (∀ message, storage.getItemThrows = some message →
      requestInterceptor storage config = .error (.error message)) := by
  constructor
  · intro hget
    have hread : storage.getItem "token" = .ok (some t) := by
      simp only [Storage.getItem, hget, hstored]
    refine ⟨{ config with authorization := some ("Bearer " ++ t),
                          retryCount := some (config.retryCount.getD 0) }, ?_, rfl, rfl, ?_, ?_,
      rfl, rfl⟩
    · simp only [requestInterceptor, hread, truthy_some_of_ne t hne]
    · intro n hn _
      simp [hn]
    · intro h
      rcases h with h | h <;> simp [h]
  · intro message hget
    simp only [requestInterceptor, Storage.getItem, hget]

/-- C17 (witness): the cart request with the token `abc` stored: over a working storage it
leaves with `Bearer abc` and the retry counter 0, over a storage whose read fails it is rejected
with the error of the storage. -/
theorem request_interceptor_attaches_witness :
    (storageWith (some "abc")).data "token" = some "abc" ∧ "abc" ≠ "" ∧
    (storageWith (some "abc")).getItemThrows = none ∧
    (∃ sent, requestInterceptor (storageWith (some "abc")) cartConfig = .ok sent ∧
        sent = { cartConfig with authorization := some ("Bearer " ++ "abc"),
                                 retryCount := sent.retryCount } ∧
        sent.authorization = some ("Bearer " ++ "abc") ∧
        (∀ n, cartConfig.retryCount = some n → 0 < n → sent.retryCount = some n) ∧
        (cartConfig.retryCount = none ∨ cartConfig.retryCount = some 0 →
          sent.retryCount = some 0) ∧
        sent.method = cartConfig.method ∧ sent.url = cartConfig.url) ∧
    unreadableStorage.data "token" = some "abc" ∧
    unreadableStorage.getItemThrows = some "Storage unavailable" ∧
    requestInterceptor unreadableStorage cartConfig = .error (.error "Storage unavailable") :=
  ⟨rfl, by decide, rfl,
    (request_interceptor_attaches (storageWith (some "abc")) cartConfig "abc" rfl
      (by decide)).1 rfl,
    rfl, rfl,
    (request_interceptor_attaches unreadableStorage cartConfig "abc" rfl (by decide)).2
      "Storage unavailable" rfl⟩

/-- C18: what the request interceptor returns when no credential is stored. It leaves the
Authorization header of the incoming config as it is, so a config that comes without the header
leaves without it, while the re-issued cart request, which still carries `Bearer abc` from its
first attempt, leaves with `Bearer abc` although the storage holds no token. -/
theorem request_interceptor_keeps_stale_header :
    (∀ (storage : Storage) (config : Config), storage.getItemThrows = none →
      storage.credential = none →
      ∃ sent, requestInterceptor storage config = .ok sent ∧
        sent.authorization = config.authorization) ∧
    (storageWith none).credential = none ∧
    requestInterceptor (storageWith none) reissuedCartConfig = .ok reissuedCartConfig ∧
    reissuedCartConfig.authorization = some "Bearer abc" := by
  refine ⟨?_, rfl, rfl, rfl⟩
  intro storage config hget hcred
  refine ⟨{ config with retryCount := some (config.retryCount.getD 0) }, ?_, rfl⟩
  simp only [Storage.credential] at hcred
  simp only [requestInterceptor, Storage.getItem, hget, hcred]

/-- C19: over a storage whose operations succeed, `getAuthToken` after `setAuthToken t` returns
`t`, `getAuthToken` after `clearAuthToken` returns absence, both writes leave every key other
than `token` unchanged, and `getAuthToken` returns the value under `token` and depends on
nothing else in the map. -/
theorem token_store_contract (s : Storage) (t : String)
    (hset : s.setItemThrows = none) (hget : s.getItemThrows = none)
    (hremove : s.removeItemThrows = none) :
    (∃ stored, setAuthToken s t = .ok stored ∧ getAuthToken stored = .ok (some t) ∧
      ∀ k, k ≠ "token" → stored.data k = s.data k) ∧
    (∃ cleared, clearAuthToken s = .ok cleared ∧ getAuthToken cleared = .ok none ∧
      ∀ k, k ≠ "token" → cleared.data k = s.data k) ∧
    getAuthToken s = .ok (s.data "token") ∧
    (∀ other : Storage, other.getItemThrows = none → other.data "token" = s.data "token" →
      getAuthToken other = getAuthToken s) := by
  refine ⟨⟨{ s with data := fun k => if k = "token" then some t else s.data k }, ?_, ?_, ?_⟩,
    ⟨{ s with data := fun k => if k = "token" then none else s.data k }, ?_, ?_, ?_⟩, ?_, ?_⟩
  · simp only [setAuthToken, Storage.setItem, hset]
  · simp [getAuthToken, Storage.getItem, hget]
  · intro k hk
    simp [hk]
  · simp only [clearAuthToken, Storage.removeItem, hremove]
  · simp [getAuthToken, Storage.getItem, hget]
  · intro k hk
    simp [hk]
  · simp only [getAuthToken, Storage.getItem, hget]
  · intro other hother hsame
    simp only [getAuthToken, Storage.getItem, hget, hother, hsame]

/-- C19 (witness): a working storage that holds an older token, and the new token `abc`. -/
theorem token_store_contract_witness :
    (storageWith (some "old")).setItemThrows = none ∧
    (storageWith (some "old")).getItemThrows = none ∧
    (storageWith (some "old")).removeItemThrows = none ∧
    (∃ stored, setAuthToken (storageWith (some "old")) "abc" = .ok stored ∧
      getAuthToken stored = .ok (some "abc") ∧
      ∀ k, k ≠ "token" → stored.data k = (storageWith (some "old")).data k) ∧
    (∃ cleared, clearAuthToken (storageWith (some "old")) = .ok cleared ∧
      getAuthToken cleared = .ok none ∧
      ∀ k, k ≠ "token" → cleared.data k = (storageWith (some "old")).data k) ∧
    getAuthToken (storageWith (some "old")) = .ok ((storageWith (some "old")).data "token") ∧
    (∀ other : Storage, other.getItemThrows = none →
      other.data "token" = (storageWith (some "old")).data "token" →
      getAuthToken other = getAuthToken (storageWith (some "old"))) :=
  ⟨rfl, rfl, rfl, token_store_contract (storageWith (some "old")) "abc" rfl rfl rfl⟩

end Api

namespace Auth

/-- C20: what `restoreAuth` does to a stored token when the profile request fails. Over a working
storage holding a token, any failure of the profile request ends with the token removed and the
thunk rejected with `Invalid token`; so the token `abc` is gone after a profile request that
timed out (a network-class error, not a 401) and after one answered with a 503. -/
theorem restoreAuth_clears_on_any_failure :
    (∀ (storage : Api.Storage) (t : String) (f : AuthFailure),
      storage.getItemThrows = none → storage.removeItemThrows = none →
      storage.data "token" = some t → t ≠ "" →
      (restoreAuth storage (.error f)).storage.data "token" = none ∧
      (restoreAuth storage (.error f)).action =
        .restoreAuth_rejected (some (.text "Invalid token")) ∧
      (restoreAuth storage (.error f)).requests = 1) ∧
    (Api.isNetworkError profileTimeoutError = true ∧ Api.is401 profileTimeoutError = false ∧
      (restoreAuth (Api.storageWith (some "abc")) (.error profileTimeout)).storage.data "token"
        = none) ∧
    (Api.isServerError profileUnavailableError = true ∧
      Api.is401 profileUnavailableError = false ∧
      (restoreAuth (Api.storageWith (some "abc")) (.error profileUnavailable)).storage.data
        "token" = none) := by
  refine ⟨?_, ⟨by decide, by decide, by decide⟩, ⟨by decide, by decide, by decide⟩⟩
  intro storage t f hget hremove htoken hne
  have hread : Api.getAuthToken storage = .ok (some t) := by
    simp only [Api.getAuthToken, Api.Storage.getItem, hget, htoken]
  have hrun : restoreAuth storage (.error f) =
      { storage := { storage with data := fun k => if k = "token" then none else storage.data k },
        requests := 1, action := .restoreAuth_rejected (some (.text "Invalid token")) } := by
    simp only [restoreAuth, hread, Api.truthy_some_of_ne t hne, restoreAuthCatch,
      Api.clearAuthToken, Api.Storage.removeItem, hremove]
  rw [hrun]
  exact ⟨by simp, rfl, rfl⟩

end Auth

/-! ## Further properties of the cart and auth thunks -/

namespace Cart

/-- When no element satisfies the predicate, `find` returns nothing. -/
theorem find_eq_none_of_forall {α : Type} (p : α → Bool) (l : List α)
    (h : ∀ x ∈ l, p x = false) : find p l = none := by
  cases hf : find p l with
  | none => rfl
  | some y =>
    have hy := find_mem p l y hf
    rw [h y hy.1] at hy
    exact absurd hy.2 (by decide)

/-- C30: for a cart item id that no item of the cart has, `increaseQuantityAsync` and
`decreaseQuantityAsync` make no request and reject with `Cart item not found`, and the rejected
action changes only the `error` field of the cart; `addToCartAsync` without a user id in the
auth state makes no request and rejects with `You must be logged in to add items to the cart`. -/
theorem thunks_reject_without_request (server : UpdateQuantityServer) (state : CartState)
    (cartItemId : Nat) (h : ∀ x ∈ state.items, x.id ≠ cartItemId) :
    increaseQuantityAsync server state cartItemId =
      { requests := [], action := .rejected "Cart item not found" } ∧
    decreaseQuantityAsync server state cartItemId =
      { requests := [], action := .rejected "Cart item not found" } ∧
    cartReducer state
        (.increaseQuantityAsync_rejected (Store.rejectedWithValue "Cart item not found")) =
      { state with error := some "Cart item not found" } ∧
    cartReducer state
        (.decreaseQuantityAsync_rejected (Store.rejectedWithValue "Cart item not found")) =
      { state with error := some "Cart item not found" } ∧
    (∀ (addToCart : Nat → Nat → Int → Except Api.Failure CartItem) (auth : Auth.AuthState)
        (productId size : Nat) (quantity : Int), Auth.userId auth = none →
      (addToCartAsync addToCart auth productId size quantity).requests = [] ∧
      (addToCartAsync addToCart auth productId size quantity).action =
        .rejected "You must be logged in to add items to the cart") := by
  have hfind : find (fun item => item.id == cartItemId) state.items = none := by
    apply find_eq_none_of_forall
    intro x hx
    simpa using h x hx
  refine ⟨?_, ?_, rfl, rfl, ?_⟩
  · simp only [increaseQuantityAsync, hfind]
  · simp only [decreaseQuantityAsync, hfind]
  · intro addToCart auth productId size quantity hauth
    simp only [addToCartAsync, hauth, and_self]

/-- C30 (witness): the single-line cart and the id 9, which none of its lines has. -/
theorem thunks_reject_without_request_witness :
    (∀ x ∈ singleLineCart.items, x.id ≠ 9) ∧
    increaseQuantityAsync (quantityServer singleLineCart.items) singleLineCart 9 =
      { requests := [], action := .rejected "Cart item not found" } :=
  ⟨by decide,
    (thunks_reject_without_request (quantityServer singleLineCart.items) singleLineCart 9
      (by decide)).1⟩

end Cart

namespace Auth

/-- One action keeps `isAuthenticated` in step with the presence of `user`. -/
theorem authReducer_invariant (state : AuthState) (action : Action)
    (h : state.isAuthenticated = true ↔ state.user ≠ none) :
    (authReducer state action).isAuthenticated = true ↔ (authReducer state action).user ≠ none := by
  cases action <;> simp [authReducer] <;> exact h

/-- A sequence of actions keeps `isAuthenticated` in step with the presence of `user`. -/
theorem foldl_invariant (actions : List Action) (state : AuthState)
    (h : state.isAuthenticated = true ↔ state.user ≠ none) :
    (actions.foldl authReducer state).isAuthenticated = true ↔
      (actions.foldl authReducer state).user ≠ none := by
  induction actions generalizing state with
  | nil => exact h
  | cons a as ih => exact ih (authReducer state a) (authReducer_invariant state a h)

/-- C28: in every state reached from the initial state by a sequence of actions of the auth
slice, `isAuthenticated` is true exactly when `user` is non-null; a rejected login or signup
leaves `user` and `isAuthenticated` as they were. -/
theorem authenticated_iff_user (actions : List Action) :
    ((reach actions).isAuthenticated = true ↔ (reach actions).user ≠ none) ∧
    (∀ (state : AuthState) (body : Option Body),
      (authReducer state (.loginUser_rejected body)).user = state.user ∧
      (authReducer state (.loginUser_rejected body)).isAuthenticated = state.isAuthenticated ∧
      (authReducer state (.signupUser_rejected body)).user = state.user ∧
      (authReducer state (.signupUser_rejected body)).isAuthenticated =
        state.isAuthenticated) := by
  refine ⟨?_, fun _ _ => ⟨rfl, rfl, rfl, rfl⟩⟩
  exact foldl_invariant actions initialState (by simp [initialState])

/-- C22: for a login or signup whose response data carries a non-empty token `t`: whenever the
thunk ends fulfilled, the storage holds `t` under `token` and the auth slice has
`isAuthenticated = true`, `user` the response data and `loading = false` (and it does end
fulfilled when the storage write succeeds); when the request fails, the storage is left as it
was and the thunk ends rejected. -/
theorem login_persists_token (storage : Api.Storage) (data : AuthData) (t : String)
    (state : AuthState) (htoken : data.token = some t) (hne : t ≠ "") :
    ((∃ payload, (loginUser storage (.ok data)).action = .loginUser_fulfilled payload) →
      (dispatchLogin storage (.ok data) state).1.data "token" = some t ∧
      (dispatchLogin storage (.ok data) state).2.isAuthenticated = true ∧
      (dispatchLogin storage (.ok data) state).2.user = some data ∧
      (dispatchLogin storage (.ok data) state).2.loading = false) ∧
    (storage.setItemThrows = none →
      (loginUser storage (.ok data)).action = .loginUser_fulfilled data) ∧
    ((∃ payload, (signupUser storage (.ok data)).action = .signupUser_fulfilled payload) →
      (dispatchSignup storage (.ok data) state).1.data "token" = some t ∧
      (dispatchSignup storage (.ok data) state).2.isAuthenticated = true ∧
      (dispatchSignup storage (.ok data) state).2.user = some data ∧
      (dispatchSignup storage (.ok data) state).2.loading = false) ∧
    (storage.setItemThrows = none →
      (signupUser storage (.ok data)).action = .signupUser_fulfilled data) ∧
    (∀ e : AuthFailure,
      (dispatchLogin storage (.error e) state).1 = storage ∧
      (∃ body, (loginUser storage (.error e)).action = .loginUser_rejected body) ∧
      (dispatchSignup storage (.error e) state).1 = storage ∧
      (∃ body, (signupUser storage (.error e)).action = .signupUser_rejected body)) := by
  have htruthy : Api.truthy data.token = some t := by
    rw [htoken]; exact Api.truthy_some_of_ne t hne
  refine ⟨?_, ?_, ?_, ?_, ?_⟩
  · rintro ⟨payload, hful⟩
    cases hthrow : storage.setItemThrows with
    | some m =>
      simp [loginUser, htruthy, Api.setAuthToken, Api.Storage.setItem, hthrow] at hful
    | none =>
      simp [dispatchLogin, loginUser, htruthy, Api.setAuthToken, Api.Storage.setItem, hthrow,
        authReducer]
  · intro hthrow
    simp [loginUser, htruthy, Api.setAuthToken, Api.Storage.setItem, hthrow]
  · rintro ⟨payload, hful⟩
    cases hthrow : storage.setItemThrows with
    | some m =>
      simp [signupUser, htruthy, Api.setAuthToken, Api.Storage.setItem, hthrow] at hful
    | none =>
      simp [dispatchSignup, signupUser, htruthy, Api.setAuthToken, Api.Storage.setItem, hthrow,
        authReducer]
  · intro hthrow
    simp [signupUser, htruthy, Api.setAuthToken, Api.Storage.setItem, hthrow]
  · intro e
    exact ⟨rfl, ⟨_, rfl⟩, rfl, ⟨_, rfl⟩⟩

/-- C22 (witness): the login of user 5, whose response carries the token `abc`, over an empty
working storage, from the initial auth state. -/
theorem login_persists_token_witness :
    aliceData.token = some "abc" ∧ "abc" ≠ "" ∧
    (dispatchLogin (Api.storageWith none) (.ok aliceData) initialState).1.data "token" =
      some "abc" ∧
    (dispatchLogin (Api.storageWith none) (.ok aliceData) initialState).2.isAuthenticated =
      true ∧
    (dispatchLogin (Api.storageWith none) (.ok aliceData) initialState).2.user =
      some aliceData ∧
    (dispatchLogin (Api.storageWith none) (.ok aliceData) initialState).2.loading = false :=
  ⟨rfl, by decide,
    (login_persists_token (Api.storageWith none) aliceData "abc" initialState rfl
      (by decide)).1 ⟨aliceData, rfl⟩⟩

end Auth

/-! ## Retries that end in success -/

namespace Api

/-- A request that passes the interceptor unchanged, fails retryably `n` times with the probe
succeeding and then succeeds, is resolved with that response after `n` retries; the last request
sent carries the counter raised by `n`. -/
theorem api_retries_then_succeeds (env : Env) (sent : Config) (r : Response) (n : Nat) :
    ∀ (c : Nat) (w : World), c + n ≤ 3 →
      (∀ m, requestInterceptor w.storage { sent with retryCount := some m } =
        .ok { sent with retryCount := some m }) →
      shouldExclude sent = false →
      (∀ k, k < n → retryable (env.net (w.sent.length + k)) = true) →
      (∀ k, k < n → isNetworkConnected (env.probe (w.sent.length + k)) = true) →
      env.net (w.sent.length + n) = .ok r →
      ∃ w' : World,
        (∀ fuel, n + 1 ≤ fuel →
          api env fuel w { sent with retryCount := some c } = some (w', .resolved r)) ∧
        w'.sent.getLast? = some { sent with retryCount := some (c + n) } ∧
        w'.sent.length = w.sent.length + n + 1 ∧
        w'.probes = w.probes + n ∧ w'.delays.length = w.delays.length + n ∧
        w'.storage = w.storage ∧ w'.isRefreshing = w.isRefreshing ∧
        w'.failedQueue = w.failedQueue := by
  induction n with
  | zero =>
    intro c w _ hidem _ _ _ hok
    refine ⟨{ w with sent := w.sent ++ [{ sent with retryCount := some c }] }, ?_, ?_, ?_, rfl,
      rfl, rfl, rfl, rfl⟩
    · intro fuel hfuel
      obtain ⟨f, rfl⟩ : ∃ f, fuel = f + 1 := ⟨fuel - 1, by omega⟩
      simp only [Nat.add_zero] at hok
      simp only [api, hidem c, hok]
    · simp
    · simp
  | succ n ih =>
    intro c w hc hidem hexcl hfail hprobe hok
    have hstep : ∀ f, api env (f + 1) w { sent with retryCount := some c } =
        api env f
          { w with
            sent := w.sent ++ [{ sent with retryCount := some c }]
            delays := w.delays ++ [getRetryDelay c (env.random w.sent.length)]
            probes := w.probes + 1 }
          { sent with retryCount := some (c + 1) } := by
      intro f
      exact api_retry_step env f w { sent with retryCount := some c }
        { sent with retryCount := some c } c (hidem c) rfl (by omega) hexcl
        (by simpa using hfail 0 (by omega)) (by simpa using hprobe 0 (by omega))
    have hshift : ∀ k, (w.sent ++ [{ sent with retryCount := some c }]).length + k =
        w.sent.length + (k + 1) := by
      intro k
      simp only [List.length_append, List.length_singleton]
      omega
    obtain ⟨w', hrun, hlast, hlen, hprobes, hdelays, hstorage, hflag, hqueue⟩ :=
      ih (c + 1)
        { w with
          sent := w.sent ++ [{ sent with retryCount := some c }]
          delays := w.delays ++ [getRetryDelay c (env.random w.sent.length)]
          probes := w.probes + 1 }
        (by omega) hidem hexcl
        (by
          intro k hk
          show retryable (env.net ((w.sent ++ [{ sent with retryCount := some c }]).length + k))
            = true
          rw [hshift k]
          exact hfail (k + 1) (by omega))
        (by
          intro k hk
          show isNetworkConnected
            (env.probe ((w.sent ++ [{ sent with retryCount := some c }]).length + k)) = true
          rw [hshift k]
          exact hprobe (k + 1) (by omega))
        (by
          show env.net ((w.sent ++ [{ sent with retryCount := some c }]).length + n) = .ok r
          rw [hshift n]
          exact hok)
    refine ⟨w', ?_, ?_, ?_, ?_, ?_, hstorage, hflag, hqueue⟩
    · intro fuel hfuel
      obtain ⟨f, rfl⟩ : ∃ f, fuel = f + 1 := ⟨fuel - 1, by omega⟩
      rw [hstep f]
      exact hrun f (by omega)
    · rw [hlast]
      congr 3
      omega
    · rw [hlen]
      simp only [List.length_append, List.length_singleton]
      omega
    · rw [hprobes]
      show w.probes + 1 + n = w.probes + (n + 1)
      omega
    · rw [hdelays]
      simp only [List.length_append, List.length_singleton]
      omega

/-- C21: a fresh request to a non-excluded endpoint whose first `n` attempts (`n` at most 3) time
out with `ECONNABORTED`, the connectivity probe succeeding each time, and whose next attempt
succeeds, is resolved with that very response for every bound of more than `n` attempts; `n + 1`
requests are sent and the last one, the one that succeeded, carries `retryCount = n`. -/
theorem retry_then_success (env : Env) (w : World) (config : Config) (r : Response) (n : Nat)
    (hn : n ≤ 3)
    (hstore : w.storage.getItemThrows = none)
    (hexcl : shouldExclude config = false)
    (hfresh : config.retryCount.getD 0 = 0)
    (hfail : ∀ k, k < n →
      ∃ message, env.net (w.sent.length + k) = .fail (some "ECONNABORTED") none message)
    (hprobe : ∀ k, k < n → isNetworkConnected (env.probe (w.sent.length + k)) = true)
    (hok : env.net (w.sent.length + n) = .ok r) :
    ∃ (w' : World) (last : Config),
      (∀ fuel, n + 1 ≤ fuel → api env fuel w config = some (w', .resolved r)) ∧
      w'.sent.getLast? = some last ∧ last.retryCount = some n ∧ last.url = config.url ∧
      w'.sent.length = w.sent.length + n + 1 ∧ w'.probes = w.probes + n ∧
      w'.delays.length = w.delays.length + n := by
  obtain ⟨sent, hreq, hcount, hex, hidem⟩ := requestInterceptor_ok w.storage config hstore
  rw [hfresh] at hcount
  rw [hexcl] at hex
  have hurl := (requestInterceptor_shouldExclude w.storage config sent hreq).2.1
  have hretry : ∀ k, k < n → retryable (env.net (w.sent.length + k)) = true := by
    intro k hk
    obtain ⟨message, hm⟩ := hfail k hk
    rw [hm]
    rfl
  obtain ⟨w', hrun, hlast, hlen, hprobes, hdelays, _, _, _⟩ :=
    api_retries_then_succeeds env sent r n 0 w (by omega) hidem hex hretry hprobe hok
  refine ⟨w', { sent with retryCount := some n }, ?_, ?_, rfl, hurl, hlen, hprobes, hdelays⟩
  · intro fuel hfuel
    obtain ⟨f, rfl⟩ : ∃ f, fuel = f + 1 := ⟨fuel - 1, by omega⟩
    have hsame : api env (f + 1) w config =
        api env (f + 1) w { sent with retryCount := some 0 } := by
      simp only [api, hreq, hidem 0]
      have : ({ sent with retryCount := some 0 } : Config) = sent := by
        cases sent
        simp only [Config.mk.injEq, true_and]
        exact hcount.symm
      rw [this]
    rw [hsame]
    exact hrun (f + 1) hfuel
  · rw [hlast]
    simp

/-- C21 (witness): the add-to-cart request that times out twice and succeeds on the third
attempt. -/
theorem retry_then_success_witness :
    2 ≤ 3 ∧
    (idleWorld (storageWith (some "abc"))).storage.getItemThrows = none ∧
    shouldExclude addToCartConfig = false ∧
    addToCartConfig.retryCount.getD 0 = 0 ∧
    (∀ k, k < 2 → ∃ message,
      twoTimeoutsEnv.net ((idleWorld (storageWith (some "abc"))).sent.length + k) =
        .fail (some "ECONNABORTED") none message) ∧
    (∀ k, k < 2 → isNetworkConnected
      (twoTimeoutsEnv.probe ((idleWorld (storageWith (some "abc"))).sent.length + k)) = true) ∧
    twoTimeoutsEnv.net ((idleWorld (storageWith (some "abc"))).sent.length + 2) =
      .ok createdResponse ∧
    ∃ (w' : World) (last : Config),
      (∀ fuel, 2 + 1 ≤ fuel →
        api twoTimeoutsEnv fuel (idleWorld (storageWith (some "abc"))) addToCartConfig =
          some (w', .resolved createdResponse)) ∧
      w'.sent.getLast? = some last ∧ last.retryCount = some 2 ∧
      last.url = addToCartConfig.url ∧
      w'.sent.length = (idleWorld (storageWith (some "abc"))).sent.length + 2 + 1 ∧
      w'.probes = (idleWorld (storageWith (some "abc"))).probes + 2 ∧
      w'.delays.length = (idleWorld (storageWith (some "abc"))).delays.length + 2 :=
  have hfail : ∀ k, k < 2 → ∃ message,
      twoTimeoutsEnv.net ((idleWorld (storageWith (some "abc"))).sent.length + k) =
        .fail (some "ECONNABORTED") none message := by
    intro k hk
    refine ⟨"timeout of 10000ms exceeded", ?_⟩
    simp [twoTimeoutsEnv, idleWorld, hk]
  ⟨by decide, rfl, by decide, rfl, hfail, fun _ _ => rfl, rfl,
    retry_then_success twoTimeoutsEnv (idleWorld (storageWith (some "abc"))) addToCartConfig
      createdResponse 2 (by decide) rfl (by decide) rfl hfail (fun _ _ => rfl) rfl⟩

end Api

/-! ## Properties of the screens -/

namespace Screens

/-- The orders of a checkout run are sent exactly when both validations pass and the cart is not
empty, and then there is one order. -/
theorem handleCheckout_orders (fullYear monthIndex : Nat)
    (create : OrderRequest → Except Api.Failure OrderData) (formData : FormData)
    (cardData : CardData) (cartItems : List Cart.CartItem) :
    ((handleCheckout fullYear monthIndex create formData cardData cartItems).orders ≠ [] ↔
      validateForm formData = true ∧ validateCardForm fullYear monthIndex cardData = true ∧
        cartItems ≠ []) ∧
    ((handleCheckout fullYear monthIndex create formData cardData cartItems).orders.length ≤ 1) ∧
    ((handleCheckout fullYear monthIndex create formData cardData cartItems).clearedCart = true →
      (handleCheckout fullYear monthIndex create formData cardData cartItems).orders ≠ []) := by
  by_cases hform : validateForm formData = true
  · by_cases hcard : validateCardForm fullYear monthIndex cardData = true
    · by_cases hcart : cartItems = []
      · subst hcart
        simp [handleCheckout, hform, hcard]
      · have hlen : cartItems.length ≠ 0 := by
          intro h
          exact hcart (List.length_eq_zero.mp h)
        cases hc : create
          { shippingAddress :=
              formData.address ++ ", " ++ formData.city ++ ", " ++ formData.state ++ " " ++
                formData.zipCode
            phoneNumber := formData.phone } with
        | ok data => simp [handleCheckout, hform, hcard, hcart, hlen, verifyPayment, hc]
        | error e => simp [handleCheckout, hform, hcard, hcart, hlen, verifyPayment, hc]
    · simp [handleCheckout, hform, hcard]
  · simp [handleCheckout, hform]

/-- C23: `handleLogin` dispatches `loginUser`, with the two fields, exactly when username and
password are both non-empty; `handleSignup` dispatches `signupUser`, with the five fields,
exactly when all five are non-empty and the password has a `length` of at least 6; and
`handleCheckout` sends an order to `orderAPI.create`, and clears the cart, only if
`validateForm` and `validateCardForm` both pass and the cart is not empty. Otherwise nothing is
dispatched or sent. -/
theorem validation_gates (fullYear monthIndex : Nat)
    (create : OrderRequest → Except Api.Failure OrderData) (formData : FormData)
    (cardData : CardData) (cartItems : List Cart.CartItem)
    (username password email firstName lastName : String) :
    (handleLogin username password = .dispatchLoginUser username password ↔
      username ≠ "" ∧ password ≠ "") ∧
    (¬ (username ≠ "" ∧ password ≠ "") →
      handleLogin username password =
        .alert "Error" "Please enter both username and password") ∧
    (handleSignup username password email firstName lastName =
        .dispatchSignupUser username password email firstName lastName ↔
      (username ≠ "" ∧ password ≠ "" ∧ email ≠ "" ∧ firstName ≠ "" ∧ lastName ≠ "") ∧
        6 ≤ Text.jsLength password.toList) ∧
    (¬ ((username ≠ "" ∧ password ≠ "" ∧ email ≠ "" ∧ firstName ≠ "" ∧ lastName ≠ "") ∧
        6 ≤ Text.jsLength password.toList) →
      ∃ message, handleSignup username password email firstName lastName =
        .alert "Error" message) ∧
    ((handleCheckout fullYear monthIndex create formData cardData cartItems).orders ≠ [] ↔
      validateForm formData = true ∧ validateCardForm fullYear monthIndex cardData = true ∧
        cartItems ≠ []) ∧
    ((handleCheckout fullYear monthIndex create formData cardData cartItems).clearedCart = true →
      validateForm formData = true ∧ validateCardForm fullYear monthIndex cardData = true ∧
        cartItems ≠ []) := by
  have hcheckout := handleCheckout_orders fullYear monthIndex create formData cardData cartItems
  refine ⟨?_, ?_, ?_, ?_, hcheckout.1, fun h => hcheckout.1.mp (hcheckout.2.2 h)⟩
  · unfold handleLogin
    by_cases h : username = "" ∨ password = ""
    · rw [if_pos h]
      constructor
      · intro hcon
        cases hcon
      · intro ⟨h1, h2⟩
        rcases h with h | h
        · exact absurd h h1
        · exact absurd h h2
    · rw [if_neg h]
      simp only [true_iff]
      exact ⟨fun hu => h (Or.inl hu), fun hp => h (Or.inr hp)⟩
  · intro h
    unfold handleLogin
    rw [if_pos]
    by_contra hcon
    exact h ⟨fun hu => hcon (Or.inl hu), fun hp => hcon (Or.inr hp)⟩
  · unfold handleSignup
    by_cases h : username = "" ∨ password = "" ∨ email = "" ∨ firstName = "" ∨ lastName = ""
    · rw [if_pos h]
      constructor
      · intro hcon
        cases hcon
      · intro ⟨⟨h1, h2, h3, h4, h5⟩, _⟩
        rcases h with h | h | h | h | h
        · exact absurd h h1
        · exact absurd h h2
        · exact absurd h h3
        · exact absurd h h4
        · exact absurd h h5
    · rw [if_neg h]
      have hall : username ≠ "" ∧ password ≠ "" ∧ email ≠ "" ∧ firstName ≠ "" ∧ lastName ≠ "" :=
        ⟨fun x => h (Or.inl x), fun x => h (Or.inr (Or.inl x)),
          fun x => h (Or.inr (Or.inr (Or.inl x))),
          fun x => h (Or.inr (Or.inr (Or.inr (Or.inl x)))),
          fun x => h (Or.inr (Or.inr (Or.inr (Or.inr x))))⟩
      by_cases hlen : Text.jsLength password.toList < 6
      · rw [if_pos hlen]
        constructor
        · intro hcon
          cases hcon
        · intro ⟨_, h6⟩
          omega
      · rw [if_neg hlen]
        simp only [true_iff]
        exact ⟨hall, by omega⟩
  · intro h
    unfold handleSignup
    by_cases hempty :
        username = "" ∨ password = "" ∨ email = "" ∨ firstName = "" ∨ lastName = ""
    · rw [if_pos hempty]
      exact ⟨_, rfl⟩
    · rw [if_neg hempty]
      have hall : username ≠ "" ∧ password ≠ "" ∧ email ≠ "" ∧ firstName ≠ "" ∧ lastName ≠ "" :=
        ⟨fun x => hempty (Or.inl x), fun x => hempty (Or.inr (Or.inl x)),
          fun x => hempty (Or.inr (Or.inr (Or.inl x))),
          fun x => hempty (Or.inr (Or.inr (Or.inr (Or.inl x)))),
          fun x => hempty (Or.inr (Or.inr (Or.inr (Or.inr x))))⟩
      have hlen : Text.jsLength password.toList < 6 := by
        by_contra hcon
        exact h ⟨hall, by omega⟩
      rw [if_pos hlen]
      exact ⟨_, rfl⟩

end Screens

/-! ## Properties of the admin environment check -/

namespace Environment

/-- C26: `isLocalHost` tests the host with `startsWith`, so `10.example.com`,
`192.168.example.org` and `127.0.0.1.example.net`, which are DNS names and not addresses of the
private ranges, are classified as local, whatever `Number` returns. -/
theorem isLocalHost_accepts_public_names :
    (∀ number, isLocalHost number (some "10.example.com") = true) ∧
    (∀ number, isLocalHost number (some "192.168.example.org") = true) ∧
    (∀ number, isLocalHost number (some "127.0.0.1.example.net") = true) ∧
    (∀ number, number "16" = some 16 →
      isLocalHost number (some "172.16.example.com") = true) := by
  refine ⟨fun _ => rfl, fun _ => rfl, fun _ => rfl, ?_⟩
  intro number h16
  have hparts : String.mk ((Text.splitOn '.' "172.16.example.com".toList).getD 1 []) = "16" := by
    decide
  have hlen : ¬ (Text.splitOn '.' "172.16.example.com".toList).length < 2 := by decide
  have hstart : Api.startsWith "172.16.example.com".toList "172.".toList = true := by decide
  have hnot : isLocalHost number (some "172.16.example.com") =
      isPrivate172Range number "172.16.example.com" := by rfl
  rw [hnot]
  simp only [isPrivate172Range, hstart, hlen, hparts, h16]
  norm_num

end Environment

/-! ## Properties of the card expiry check -/

namespace Screens

/-- The code of the character written for a digit. -/
theorem toNat_digit (a : Nat) (h : a < 10) : (Char.ofNat (48 + a)).toNat = 48 + a := by
  interval_cases a <;> rfl

/-- A character is determined by its code. -/
theorem char_eq_of_toNat (c d : Char) (h : c.toNat = d.toNat) : c = d := by
  rw [← Char.ofNat_toNat c, ← Char.ofNat_toNat d, h]

/-- A character whose code is that of a digit is the character written for that digit. -/
theorem eq_digit_of_toNat (c : Char) (lo : 48 ≤ c.toNat) (hi : c.toNat ≤ 57) :
    c = Char.ofNat (48 + (c.toNat - 48)) ∧ c.toNat - 48 < 10 := by
  refine ⟨?_, by omega⟩
  have : 48 + (c.toNat - 48) = c.toNat := by omega
  rw [this, Char.ofNat_toNat]

/-- The strings the expiry pattern accepts: two digits that write a month from 01 to 12, a
slash, and two digits. -/
theorem matchesExpiryPattern_iff (cs : List Char) :
    matchesExpiryPattern cs = true ↔
      ∃ a b c d, a < 10 ∧ b < 10 ∧ c < 10 ∧ d < 10 ∧
        ((a = 0 ∧ 1 ≤ b) ∨ (a = 1 ∧ b ≤ 2)) ∧
        cs = [Char.ofNat (48 + a), Char.ofNat (48 + b), '/', Char.ofNat (48 + c),
          Char.ofNat (48 + d)] := by
  constructor
  · intro h
    rcases cs with _ | ⟨m1, _ | ⟨m2, _ | ⟨sl, _ | ⟨y1, _ | ⟨y2, _ | ⟨z, rest⟩⟩⟩⟩⟩⟩ <;>
      simp only [matchesExpiryPattern, Bool.false_eq_true] at h
    simp only [Bool.and_eq_true, Bool.or_eq_true, beq_iff_eq, decide_eq_true_eq,
      Text.isDigit] at h
    obtain ⟨⟨⟨hmonth, hsl⟩, hy1⟩, hy2⟩ := h
    obtain ⟨e3, l3⟩ := eq_digit_of_toNat y1 hy1.1 hy1.2
    obtain ⟨e4, l4⟩ := eq_digit_of_toNat y2 hy2.1 hy2.2
    rcases hmonth with ⟨⟨h1, h2⟩, h3⟩ | ⟨⟨h1, h2⟩, h3⟩
    · obtain ⟨e2, l2⟩ := eq_digit_of_toNat m2 (by omega) h3
      refine ⟨0, m2.toNat - 48, y1.toNat - 48, y2.toNat - 48, by decide, l2, l3, l4,
        Or.inl ⟨rfl, by omega⟩, ?_⟩
      rw [← e2, ← e3, ← e4, hsl, h1]
    · obtain ⟨e2, l2⟩ := eq_digit_of_toNat m2 h2 (by omega)
      refine ⟨1, m2.toNat - 48, y1.toNat - 48, y2.toNat - 48, by decide, l2, l3, l4,
        Or.inr ⟨rfl, by omega⟩, ?_⟩
      rw [← e2, ← e3, ← e4, hsl, h1]
  · rintro ⟨a, b, c, d, ha, hb, hc, hd, hmonth, rfl⟩
    simp only [matchesExpiryPattern, Bool.and_eq_true, Bool.or_eq_true, beq_iff_eq,
      decide_eq_true_eq, Text.isDigit, toNat_digit b hb, toNat_digit c hc, toNat_digit d hd]
    refine ⟨⟨⟨?_, trivial⟩, by omega, by omega⟩, by omega, by omega⟩
    rcases hmonth with ⟨rfl, h1⟩ | ⟨rfl, h2⟩
    · exact Or.inl ⟨⟨rfl, by omega⟩, by omega⟩
    · exact Or.inr ⟨⟨rfl, by omega⟩, by omega⟩

/-- The character written for a digit is not the slash. -/
theorem digit_ne_slash (a : Nat) (h : a < 10) : Char.ofNat (48 + a) ≠ '/' := by
  intro hcon
  have := toNat_digit a h
  rw [hcon] at this
  have h47 : ('/' : Char).toNat = 47 := rfl
  omega

/-- The expiry check on a string of the accepted form, in terms of the numbers written. -/
theorem validateExpiryDate_digits (fullYear monthIndex a b c d : Nat)
    (ha : a < 10) (hb : b < 10) (hc : c < 10) (hd : d < 10)
    (hmonth : (a = 0 ∧ 1 ≤ b) ∨ (a = 1 ∧ b ≤ 2)) :
    validateExpiryDate fullYear monthIndex
        (String.mk [Char.ofNat (48 + a), Char.ofNat (48 + b), '/', Char.ofNat (48 + c),
          Char.ofNat (48 + d)]) =
      (decide (10 * c + d > fullYear % 100) ||
        (10 * c + d == fullYear % 100 && decide (10 * a + b ≥ monthIndex + 1))) := by
  have hpat : matchesExpiryPattern [Char.ofNat (48 + a), Char.ofNat (48 + b), '/',
      Char.ofNat (48 + c), Char.ofNat (48 + d)] = true :=
    (matchesExpiryPattern_iff _).mpr ⟨a, b, c, d, ha, hb, hc, hd, hmonth, rfl⟩
  have hsplit : Text.splitOn '/' [Char.ofNat (48 + a), Char.ofNat (48 + b), '/',
      Char.ofNat (48 + c), Char.ofNat (48 + d)] =
      [[Char.ofNat (48 + a), Char.ofNat (48 + b)], [Char.ofNat (48 + c), Char.ofNat (48 + d)]] := by
    simp [Text.splitOn, digit_ne_slash a ha, digit_ne_slash b hb, digit_ne_slash c hc,
      digit_ne_slash d hd]
  have hparse : ∀ x y, x < 10 → y < 10 →
      Text.parseDigits [Char.ofNat (48 + x), Char.ofNat (48 + y)] = 10 * x + y := by
    intro x y hx hy
    simp [Text.parseDigits, toNat_digit x hx, toNat_digit y hy]
  have hlist : (String.mk [Char.ofNat (48 + a), Char.ofNat (48 + b), '/', Char.ofNat (48 + c),
      Char.ofNat (48 + d)]).toList =
      [Char.ofNat (48 + a), Char.ofNat (48 + b), '/', Char.ofNat (48 + c),
        Char.ofNat (48 + d)] := rfl
  simp only [validateExpiryDate, hlist, hpat, hsplit, Bool.not_true, Bool.false_eq_true,
    if_false, List.getD_cons_zero, List.getD_cons_succ, hparse a b ha hb, hparse c d hc hd]

/-- C27: with the current date in the years 2000 to 2099, `validateExpiryDate` accepts a string
exactly when it is `MM/YY` for a month `MM` from 01 to 12 and a two-digit year `YY`, and
`(2000 + YY, MM)` is not before the current `(year, month)`. -/
theorem validateExpiryDate_iff (fullYear monthIndex : Nat) (expiry : String)
    (hyear : 2000 ≤ fullYear ∧ fullYear ≤ 2099) (hmonthIndex : monthIndex < 12) :
    validateExpiryDate fullYear monthIndex expiry = true ↔
      ∃ month year, 1 ≤ month ∧ month ≤ 12 ∧ year < 100 ∧ expiry = expiryText month year ∧
        (fullYear < 2000 + year ∨ (fullYear = 2000 + year ∧ monthIndex + 1 ≤ month)) := by
  constructor
  · intro h
    have hpat : matchesExpiryPattern expiry.toList = true := by
      by_contra hcon
      simp only [validateExpiryDate, hcon, Bool.not_false, if_true, Bool.false_eq_true] at h
    obtain ⟨a, b, c, d, ha, hb, hc, hd, hmonth, hcs⟩ := (matchesExpiryPattern_iff _).mp hpat
    have hexp : expiry = String.mk [Char.ofNat (48 + a), Char.ofNat (48 + b), '/',
        Char.ofNat (48 + c), Char.ofNat (48 + d)] :=
      calc expiry = String.mk expiry.toList := rfl
        _ = _ := by rw [hcs]
    rw [hexp, validateExpiryDate_digits fullYear monthIndex a b c d ha hb hc hd hmonth] at h
    simp only [Bool.or_eq_true, Bool.and_eq_true, decide_eq_true_eq, beq_iff_eq] at h
    refine ⟨10 * a + b, 10 * c + d, by omega, by omega, by omega, ?_, by omega⟩
    rw [hexp, expiryText]
    have e1 : (10 * a + b) / 10 = a := by omega
    have e2 : (10 * a + b) % 10 = b := by omega
    have e3 : (10 * c + d) / 10 = c := by omega
    have e4 : (10 * c + d) % 10 = d := by omega
    rw [e1, e2, e3, e4]
  · rintro ⟨month, year, h1, h12, hy, rfl, hcmp⟩
    have hmonth : (month / 10 = 0 ∧ 1 ≤ month % 10) ∨ (month / 10 = 1 ∧ month % 10 ≤ 2) := by
      omega
    rw [expiryText, validateExpiryDate_digits fullYear monthIndex (month / 10) (month % 10)
      (year / 10) (year % 10) (by omega) (by omega) (by omega) (by omega) hmonth]
    simp only [Bool.or_eq_true, Bool.and_eq_true, decide_eq_true_eq, beq_iff_eq]
    omega

/-- C27 (witness): in December 2025 the card `12/25` is accepted. -/
theorem validateExpiryDate_iff_witness :
    (2000 ≤ 2025 ∧ 2025 ≤ 2099) ∧ 11 < 12 ∧
    (validateExpiryDate 2025 11 "12/25" = true ↔
      ∃ month year, 1 ≤ month ∧ month ≤ 12 ∧ year < 100 ∧ "12/25" = expiryText month year ∧
        (2025 < 2000 + year ∨ (2025 = 2000 + year ∧ 11 + 1 ≤ month))) :=
  ⟨by decide, by decide, validateExpiryDate_iff 2025 11 "12/25" (by decide) (by decide)⟩

end Screens

/-! ## Properties of the local cart -/

namespace LocalCart

/-- A `findIndex` followed by a change at the index found changes the first match. -/
theorem findIndex_modifyAt {α : Type} (p : α → Bool) (f : α → α) (l : List α) :
    (match Cart.findIndex p l with
      | some i => modifyAt f i l
      | none => l) = bumpFirst p f l := by
  induction l with
  | nil => rfl
  | cons a as ih =>
    by_cases hpa : p a = true
    · simp [Cart.findIndex, hpa, modifyAt, bumpFirst]
    · simp only [Cart.findIndex, hpa, Bool.false_eq_true, if_false, bumpFirst]
      cases hi : Cart.findIndex p as with
      | none =>
        rw [hi] at ih
        simp only [Option.map_none']
        rw [← ih]
      | some i =>
        rw [hi] at ih
        simp only [Option.map_some', modifyAt]
        rw [← ih]

/-- `findIndex` finds nothing exactly when no element satisfies the predicate. -/
theorem findIndex_eq_none_iff {α : Type} (p : α → Bool) (l : List α) :
    Cart.findIndex p l = none ↔ ∀ x ∈ l, p x = false := by
  constructor
  · exact Cart.findIndex_none p l
  · intro h
    induction l with
    | nil => rfl
    | cons a as ih =>
      have ha : p a = false := h a (List.mem_cons_self a as)
      simp only [Cart.findIndex, ha, Bool.false_eq_true, if_false]
      rw [ih (fun x hx => h x (List.mem_cons_of_mem a hx))]
      rfl

/-- When no element satisfies the predicate, nothing is changed. -/
theorem bumpFirst_of_forall {α : Type} (p : α → Bool) (f : α → α) (l : List α)
    (h : ∀ x ∈ l, p x = false) : bumpFirst p f l = l := by
  induction l with
  | nil => rfl
  | cons a as ih =>
    simp only [bumpFirst, h a (List.mem_cons_self a as), Bool.false_eq_true, if_false]
    rw [ih (fun x hx => h x (List.mem_cons_of_mem a hx))]

/-- When at most one element satisfies the predicate, changing every match is changing the
first one. -/
theorem map_eq_bumpFirst {α : Type} (p : α → Bool) (f : α → α) (l : List α)
    (h : l.Pairwise (fun x y => ¬ (p x = true ∧ p y = true))) :
    l.map (fun x => if p x = true then f x else x) = bumpFirst p f l := by
  induction l with
  | nil => rfl
  | cons a as ih =>
    rw [List.pairwise_cons] at h
    by_cases hpa : p a = true
    · have hrest : ∀ x ∈ as, p x = false := by
        intro x hx
        have := h.1 x hx
        cases hpx : p x with
        | false => rfl
        | true => exact absurd ⟨hpa, hpx⟩ this
      have hmap : as.map (fun x => if p x = true then f x else x) = as := by
        rw [ih h.2, bumpFirst_of_forall p f as hrest]
      simp only [List.map_cons, hpa, if_true, bumpFirst, hmap]
    · simp only [List.map_cons, hpa, if_false, bumpFirst, ih h.2, Bool.false_eq_true]

/-- The test of `addToCart` for an existing line is the equality of the keys. -/
theorem matches_iff_key (i : Item) (p : AddPayload) :
    (i.productId == p.product.id && i.size == p.sizeOrDefault) = true ↔ i.key = p.key := by
  simp [Item.key, AddPayload.key, Prod.ext_iff]

/-- The `addToCart` reducer, by cases on the presence of the key. -/
theorem addToCart_eq (items : List Item) (p : AddPayload) :
    addToCart items p =
      if ∃ i ∈ items, i.key = p.key then
        bumpFirst (fun i => i.productId == p.product.id && i.size == p.sizeOrDefault)
          (fun i => { i with quantity := i.quantity + p.added }) items
      else { product := some p.product, size := p.sizeOrDefault, quantity := p.added } :: items := by
  by_cases h : ∃ i ∈ items, i.key = p.key
  · rw [if_pos h]
    have hb := findIndex_modifyAt
      (fun i : Item => i.productId == p.product.id && i.size == p.sizeOrDefault)
      (fun i => { i with quantity := i.quantity + p.added }) items
    cases hi : Cart.findIndex
        (fun i : Item => i.productId == p.product.id && i.size == p.sizeOrDefault) items with
    | none =>
      obtain ⟨i, hmem, hkey⟩ := h
      have := (findIndex_eq_none_iff _ _).mp hi i hmem
      rw [(matches_iff_key i p).mpr hkey] at this
      cases this
    | some idx =>
      rw [hi] at hb
      simp only [addToCart, hi]
      exact hb
  · rw [if_neg h]
    have hnone : Cart.findIndex
        (fun i : Item => i.productId == p.product.id && i.size == p.sizeOrDefault) items
          = none := by
      rw [findIndex_eq_none_iff]
      intro x hx
      cases hm : (x.productId == p.product.id && x.size == p.sizeOrDefault) with
      | false => rfl
      | true => exact absurd ⟨x, hx, (matches_iff_key x p).mp hm⟩ h
    simp only [addToCart, hnone]

/-- A change that keeps the keys, applied to the first match, keeps the list of keys. -/
theorem bumpFirst_keys (p : Item → Bool) (f : Item → Item) (hf : ∀ x, (f x).key = x.key)
    (l : List Item) : (bumpFirst p f l).map Item.key = l.map Item.key := by
  induction l with
  | nil => rfl
  | cons a as ih =>
    by_cases hpa : p a = true
    · simp [bumpFirst, hpa, hf a]
    · simp [bumpFirst, hpa, ih]

/-- The sum of quantities for a key, one line at a time. -/
theorem quantityFor_cons (k : Option Nat × Nat) (a : Item) (as : List Item) :
    quantityFor k (a :: as) = (if a.key = k then a.quantity else 0) + quantityFor k as := by
  by_cases h : a.key = k
  · simp [quantityFor, List.filter_cons, h]
  · simp [quantityFor, List.filter_cons, h]

/-- The sum of added quantities for a key, one payload at a time. -/
theorem addedFor_cons (k : Option Nat × Nat) (p : AddPayload) (ps : List AddPayload) :
    addedFor k (p :: ps) = (if p.key = k then p.added else 0) + addedFor k ps := by
  by_cases h : p.key = k
  · simp [addedFor, List.filter_cons, h]
  · simp [addedFor, List.filter_cons, h]

/-- Raising the first line with the payload's key raises the sum for that key by the added
quantity and leaves the sums for the other keys. -/
theorem quantityFor_bumpFirst (k : Option Nat × Nat) (p : AddPayload) (items : List Item)
    (h : ∃ i ∈ items, i.key = p.key) :
    quantityFor k
        (bumpFirst (fun i => i.productId == p.product.id && i.size == p.sizeOrDefault)
          (fun i => { i with quantity := i.quantity + p.added }) items) =
      quantityFor k items + (if p.key = k then p.added else 0) := by
  induction items with
  | nil =>
    obtain ⟨i, hi, _⟩ := h
    simp at hi
  | cons a as ih =>
    by_cases hka : a.key = p.key
    · have hm := (matches_iff_key a p).mpr hka
      have hkey : ({ a with quantity := a.quantity + p.added } : Item).key = a.key := rfl
      simp only [bumpFirst, hm, if_true, quantityFor_cons, hkey]
      by_cases hk : a.key = k
      · have hpk : p.key = k := by rw [← hka]; exact hk
        simp only [hk, if_true, hpk]
        omega
      · have hpk : ¬ p.key = k := by rw [← hka]; exact hk
        simp only [hk, if_false, hpk]
        omega
    · have hm : (a.productId == p.product.id && a.size == p.sizeOrDefault) = false := by
        cases hb : (a.productId == p.product.id && a.size == p.sizeOrDefault) with
        | false => rfl
        | true => exact absurd ((matches_iff_key a p).mp hb) hka
      have hrest : ∃ i ∈ as, i.key = p.key := by
        obtain ⟨i, hi, hkey⟩ := h
        rcases List.mem_cons.mp hi with rfl | hi
        · exact absurd hkey hka
        · exact ⟨i, hi, hkey⟩
      simp only [bumpFirst, hm, Bool.false_eq_true, if_false, quantityFor_cons, ih hrest]
      omega

/-- One `addToCart` raises the sum for the payload's key by the added quantity. -/
theorem quantityFor_addToCart (k : Option Nat × Nat) (items : List Item) (p : AddPayload) :
    quantityFor k (addToCart items p) =
      quantityFor k items + (if p.key = k then p.added else 0) := by
  rw [addToCart_eq]
  by_cases h : ∃ i ∈ items, i.key = p.key
  · rw [if_pos h]
    exact quantityFor_bumpFirst k p items h
  · rw [if_neg h, quantityFor_cons]
    have hkey : (Item.mk (some p.product) p.sizeOrDefault p.added).key = p.key := rfl
    rw [hkey]
    by_cases hk : p.key = k
    · simp only [hk, if_true]
      omega
    · simp only [hk, if_false]
      omega

/-- One `addToCart` keeps the keys of the lines distinct. -/
theorem nodup_addToCart (items : List Item) (p : AddPayload)
    (h : (items.map Item.key).Nodup) : ((addToCart items p).map Item.key).Nodup := by
  rw [addToCart_eq]
  by_cases hex : ∃ i ∈ items, i.key = p.key
  · rw [if_pos hex,
      bumpFirst_keys (fun i => i.productId == p.product.id && i.size == p.sizeOrDefault)
        (fun i => { i with quantity := i.quantity + p.added }) (fun _ => rfl)]
    exact h
  · rw [if_neg hex]
    simp only [List.map_cons, List.nodup_cons]
    refine ⟨?_, h⟩
    intro hmem
    obtain ⟨i, hi, hkey⟩ := List.mem_map.mp hmem
    exact hex ⟨i, hi, hkey⟩

/-- A change at an index that holds `x` is the assignment of the changed `x` at that index. -/
theorem modifyAt_eq_set {α : Type} (f : α → α) (l : List α) (i : Nat) (x : α)
    (h : l[i]? = some x) : modifyAt f i l = l.set i (f x) := by
  induction l generalizing i with
  | nil => simp at h
  | cons a as ih =>
    cases i with
    | zero =>
      simp at h
      subst h
      rfl
    | succ i =>
      simp at h
      simp [modifyAt, ih i h]

/-- A sequence of `addToCart` actions keeps the keys distinct and adds up the quantities. -/
theorem addAll_merges (payloads : List AddPayload) (items : List Item)
    (h : (items.map Item.key).Nodup) :
    ((addAll items payloads).map Item.key).Nodup ∧
    ∀ k, quantityFor k (addAll items payloads) = quantityFor k items + addedFor k payloads := by
  induction payloads generalizing items with
  | nil =>
    refine ⟨h, fun k => ?_⟩
    simp [addAll, addedFor]
  | cons p ps ih =>
    obtain ⟨hnodup, hsum⟩ := ih (addToCart items p) (nodup_addToCart items p h)
    refine ⟨hnodup, fun k => ?_⟩
    have hstep : addAll items (p :: ps) = addAll (addToCart items p) ps := rfl
    rw [hstep, hsum k, quantityFor_addToCart, addedFor_cons]
    omega

/-- The sum of the quantities of the lines with a key, with the key spelled out. -/
theorem quantityFor_eq (id : Option Nat) (size : Nat) (items : List Item) :
    quantityFor (id, size) items =
      ((items.filter fun i => i.product.bind (fun x => x.id) = id ∧ i.size = size).map
        fun i => i.quantity).sum := by
  unfold quantityFor
  congr 2
  apply List.filter_congr
  intro i _
  simp [Item.key, Item.productId, Prod.ext_iff]

/-- The sum of the quantities added under a key, with key and quantity spelled out on the
fields of the payloads and their defaults. -/
theorem addedFor_eq (id : Option Nat) (size : Nat) (payloads : List AddPayload) :
    addedFor (id, size) payloads =
      ((payloads.filter fun p => p.product.id = id ∧ p.size.getD 42 = size).map
        fun p => p.quantity.getD 1).sum := by
  unfold addedFor
  have hfilter : (payloads.filter fun p => decide (p.key = (id, size))) =
      payloads.filter fun p => decide (p.product.id = id ∧ p.size.getD 42 = size) := by
    apply List.filter_congr
    intro p _
    simp [AddPayload.key, AddPayload.sizeOrDefault, Prod.ext_iff]
  rw [hfilter]
  rfl

/-- C24: in the local cart reducer, from a cart in which no two lines share
`(product.id, size)`, after any sequence of `addToCart` actions no two lines share the key and,
for every key, the quantities of its lines sum to the initial sum plus the quantities of the
payloads for that key (a payload without `quantity` counts 1, one without `size` has size 42).
An add of `quantity` for a product and size already in the cart raises the quantity of that
line by `quantity` and changes nothing else, so the length is unchanged; an add for a new key
puts the line `{ product, size, quantity }` in front. -/
theorem local_addToCart_merges (items : List Item) (payloads : List AddPayload)
    (hunique : (items.map fun i => (i.product.bind (fun x => x.id), i.size)).Nodup) :
    ((addAll items payloads).map fun i => (i.product.bind (fun x => x.id), i.size)).Nodup ∧
    (∀ (id : Option Nat) (size : Nat),
      (((addAll items payloads).filter fun i =>
          i.product.bind (fun x => x.id) = id ∧ i.size = size).map fun i => i.quantity).sum =
        ((items.filter fun i =>
          i.product.bind (fun x => x.id) = id ∧ i.size = size).map fun i => i.quantity).sum +
        ((payloads.filter fun p => p.product.id = id ∧ p.size.getD 42 = size).map
          fun p => p.quantity.getD 1).sum) ∧
    (∀ (product : Product) (quantity : Int) (size : Nat),
      (∃ i ∈ items, i.product.bind (fun x => x.id) = product.id ∧ i.size = size) →
      ∃ index line, items[index]? = some line ∧
        line.product.bind (fun x => x.id) = product.id ∧ line.size = size ∧
        addToCart items { product := product, quantity := some quantity, size := some size } =
          items.set index { line with quantity := line.quantity + quantity } ∧
        (addToCart items
          { product := product, quantity := some quantity, size := some size }).length =
          items.length) ∧
    (∀ (product : Product) (quantity : Int) (size : Nat),
      (¬ ∃ i ∈ items, i.product.bind (fun x => x.id) = product.id ∧ i.size = size) →
      addToCart items { product := product, quantity := some quantity, size := some size } =
        { product := some product, size := size, quantity := quantity } :: items) ∧
    (∀ (product : Product) (quantity : Option Int) (size : Option Nat),
      addToCart items { product := product, quantity := quantity, size := size } =
        addToCart items
          { product := product, quantity := some (quantity.getD 1),
            size := some (size.getD 42) }) := by
  have hkeys : ∀ l : List Item,
      (l.map fun i => (i.product.bind (fun x => x.id), i.size)) = l.map Item.key := by
    intro l
    rfl
  rw [hkeys] at hunique
  obtain ⟨hnodup, hsum⟩ := addAll_merges payloads items hunique
  have hexists : ∀ (product : Product) (quantity : Int) (size : Nat),
      (∃ i ∈ items, i.product.bind (fun x => x.id) = product.id ∧ i.size = size) ↔
      ∃ i ∈ items, i.key =
        AddPayload.key { product := product, quantity := some quantity, size := some size } := by
    intro product quantity size
    constructor
    · rintro ⟨i, hi, h1, h2⟩
      exact ⟨i, hi, Prod.ext h1 h2⟩
    · rintro ⟨i, hi, hk⟩
      exact ⟨i, hi, congrArg Prod.fst hk, congrArg Prod.snd hk⟩
  refine ⟨by rw [hkeys]; exact hnodup, ?_, ?_, ?_, ?_⟩
  · intro id size
    rw [← quantityFor_eq, ← quantityFor_eq, ← addedFor_eq]
    exact hsum (id, size)
  · intro product quantity size hex
    have hex2 := (hexists product quantity size).mp hex
    cases hi : Cart.findIndex
        (fun i : Item => i.productId == product.id && i.size == size) items with
    | none =>
      obtain ⟨i, hmem, hkey⟩ := hex2
      have := (findIndex_eq_none_iff _ _).mp hi i hmem
      have hm := (matches_iff_key i
        { product := product, quantity := some quantity, size := some size }).mpr hkey
      have hm2 : (i.productId == product.id && i.size == size) = true := hm
      rw [hm2] at this
      cases this
    | some index =>
      obtain ⟨⟨line, hline, hmatch⟩, _⟩ := Cart.findIndex_some _ _ _ hi
      have hset : addToCart items
          { product := product, quantity := some quantity, size := some size } =
          items.set index { line with quantity := line.quantity + quantity } := by
        have hi2 : Cart.findIndex (fun i : Item =>
            i.productId ==
              (AddPayload.mk product (some quantity) (some size)).product.id &&
            i.size == (AddPayload.mk product (some quantity) (some size)).sizeOrDefault)
            items = some index := hi
        simp only [addToCart, hi2]
        exact modifyAt_eq_set _ items index line hline
      simp only [Bool.and_eq_true, beq_iff_eq] at hmatch
      refine ⟨index, line, hline, hmatch.1, hmatch.2, hset, ?_⟩
      rw [hset, List.length_set]
  · intro product quantity size hnew
    have hnew2 : ¬ ∃ i ∈ items, i.key =
        AddPayload.key { product := product, quantity := some quantity, size := some size } :=
      fun h => hnew ((hexists product quantity size).mpr h)
    rw [addToCart_eq, if_neg hnew2]
    rfl
  · intro product quantity size
    rfl

/-- C24 (witness): the sample cart (product 1 in size 42 with quantity 1, product 2 in size 40
with quantity 3) and the two sample additions (2 more of product 1 in size 42, then product 3
without quantity and size): the line of product 1 ends with 1 + 2, product 3 is filed under size
42 with quantity 1, and adding 2 of product 1 is the assignment of quantity 3 to its line. -/
theorem local_addToCart_merges_witness :
    (sampleItems.map fun i => (i.product.bind (fun x => x.id), i.size)).Nodup ∧
    ((addAll sampleItems samplePayloads).map fun i =>
      (i.product.bind (fun x => x.id), i.size)).Nodup ∧
    (((addAll sampleItems samplePayloads).filter fun i =>
        i.product.bind (fun x => x.id) = some 1 ∧ i.size = 42).map fun i => i.quantity).sum =
      1 + 2 ∧
    (((addAll sampleItems samplePayloads).filter fun i =>
        i.product.bind (fun x => x.id) = some 3 ∧ i.size = 42).map fun i => i.quantity).sum =
      0 + 1 ∧
    addToCart sampleItems
        { product := { id := some 3, name := "Court" }, quantity := some 5, size := some 41 } =
      { product := some { id := some 3, name := "Court" }, size := 41, quantity := 5 } ::
        sampleItems :=
  ⟨by decide,
    (local_addToCart_merges sampleItems samplePayloads (by decide)).1,
    ((local_addToCart_merges sampleItems samplePayloads (by decide)).2.1 (some 1) 42).trans
      (by decide),
    ((local_addToCart_merges sampleItems samplePayloads (by decide)).2.1 (some 3) 42).trans
      (by decide),
    (local_addToCart_merges sampleItems samplePayloads (by decide)).2.2.2.1
      { id := some 3, name := "Court" } 5 41 (by decide)⟩

/-- The elements after a change of the first match are old elements or changed old elements. -/
theorem mem_bumpFirst {α : Type} (p : α → Bool) (f : α → α) (l : List α) (y : α)
    (h : y ∈ bumpFirst p f l) : y ∈ l ∨ ∃ x ∈ l, y = f x := by
  induction l with
  | nil => simp [bumpFirst] at h
  | cons a as ih =>
    by_cases hpa : p a = true
    · simp only [bumpFirst, hpa, if_true, List.mem_cons] at h
      rcases h with rfl | h
      · exact Or.inr ⟨a, List.mem_cons_self a as, rfl⟩
      · exact Or.inl (List.mem_cons_of_mem a h)
    · simp only [bumpFirst, hpa, Bool.false_eq_true, if_false, List.mem_cons] at h
      rcases h with rfl | h
      · exact Or.inl (List.mem_cons_self _ as)
      · rcases ih h with h1 | ⟨x, hx, hy⟩
        · exact Or.inl (List.mem_cons_of_mem a h1)
        · exact Or.inr ⟨x, List.mem_cons_of_mem a hx, hy⟩

/-- C25: in the local cart reducer, when every line has a quantity of at least 1, the same holds
after `increaseQuantity`, after `decreaseQuantity`, and after `addToCart` with a quantity of at
least 1; and `decreaseQuantity` goes through the lines in order, drops a line with the given
product id when its quantity is 1, lowers it by 1 otherwise, and keeps every other line as it
is. -/
theorem local_quantities_stay_positive (items : List Item)
    (h : ∀ i ∈ items, 1 ≤ i.quantity) :
    (∀ productId, ∀ i ∈ increaseQuantity items productId, 1 ≤ i.quantity) ∧
    (∀ productId, ∀ i ∈ decreaseQuantity items productId, 1 ≤ i.quantity) ∧
    (∀ p : AddPayload, 1 ≤ p.added → ∀ i ∈ addToCart items p, 1 ≤ i.quantity) ∧
    (∀ productId, decreaseQuantity items productId =
      items.filterMap fun i =>
        if i.productId = productId then
          (if i.quantity = 1 then none else some { i with quantity := i.quantity - 1 })
        else some i) := by
  refine ⟨?_, ?_, ?_, ?_⟩
  · intro productId i hi
    have hb := findIndex_modifyAt (fun i : Item => i.productId == productId)
      (fun i => { i with quantity := i.quantity + 1 }) items
    have hinc : increaseQuantity items productId =
        bumpFirst (fun i : Item => i.productId == productId)
          (fun i => { i with quantity := i.quantity + 1 }) items := by
      rw [← hb]
      rfl
    rw [hinc] at hi
    rcases mem_bumpFirst _ _ _ _ hi with h1 | ⟨x, hx, rfl⟩
    · exact h i h1
    · have := h x hx
      show 1 ≤ x.quantity + 1
      omega
  · intro productId i hi
    simp only [decreaseQuantity, List.mem_filter, decide_eq_true_eq] at hi
    omega
  · intro p hp i hi
    rw [addToCart_eq] at hi
    by_cases hex : ∃ i ∈ items, i.key = p.key
    · rw [if_pos hex] at hi
      rcases mem_bumpFirst _ _ _ _ hi with h1 | ⟨x, hx, rfl⟩
      · exact h i h1
      · have := h x hx
        show 1 ≤ x.quantity + p.added
        omega
    · rw [if_neg hex] at hi
      rcases List.mem_cons.mp hi with rfl | h1
      · exact hp
      · exact h i h1
  · intro productId
    induction items with
    | nil => rfl
    | cons a as ih =>
      have ha := h a (List.mem_cons_self a as)
      have hrest := ih (fun i hi => h i (List.mem_cons_of_mem a hi))
      simp only [decreaseQuantity] at hrest ⊢
      by_cases hid : a.productId = productId
      · by_cases hone : a.quantity = 1
        · simp [List.filter_cons, List.filterMap_cons, hid, hone, hrest]
        · have hpos : a.quantity - 1 > 0 := by omega
          simp [List.filter_cons, List.filterMap_cons, hid, hone, hpos, hrest]
      · have hpos : a.quantity > 0 := by omega
        simp [List.filter_cons, List.filterMap_cons, hid, hpos, hrest]

/-- C25 (witness): the sample cart, whose two lines have quantities 1 and 3. -/
theorem local_quantities_stay_positive_witness :
    (∀ i ∈ sampleItems, 1 ≤ i.quantity) ∧
    (∀ productId, ∀ i ∈ decreaseQuantity sampleItems productId, 1 ≤ i.quantity) :=
  ⟨by decide, (local_quantities_stay_positive sampleItems (by decide)).2.1⟩

/-- In a cart whose lines have distinct product ids, at most one line passes a test that fixes
the product id. -/
theorem pairwise_of_nodup_ids (items : List Item) (p : Item → Bool) (id : Option Nat)
    (hp : ∀ x, p x = true → x.productId = id)
    (h : (items.map Item.productId).Nodup) :
    items.Pairwise (fun x y => ¬ (p x = true ∧ p y = true)) := by
  have hpair : items.Pairwise (fun x y => x.productId ≠ y.productId) := by
    have := h
    rw [List.Nodup, List.pairwise_map] at this
    exact this
  refine hpair.imp ?_
  intro x y hne hxy
  exact hne ((hp x hxy.1).trans (hp y hxy.2).symm)

/-- C29: on a cart in which no two lines share a product id, the functions of `CartContext` and
the reducers of the Redux slice give the same list of lines: `addToCart` for every product,
quantity and size, `increaseQuantity` and `decreaseQuantity` for every product id. -/
theorem local_carts_agree (items : List Item) (h : (items.map Item.productId).Nodup) :
    (∀ (product : Product) (quantity : Option Int) (size : Option Nat),
      contextAddToCart items product quantity size =
        addToCart items { product := product, quantity := quantity, size := size }) ∧
    (∀ productId, contextIncreaseQuantity items productId = increaseQuantity items productId) ∧
    (∀ productId, contextDecreaseQuantity items productId = decreaseQuantity items productId) := by
  refine ⟨?_, ?_, fun _ => rfl⟩
  · intro product quantity size
    have hpair := pairwise_of_nodup_ids items
      (fun i => i.productId == product.id && i.size == size.getD 42) product.id
      (by
        intro x hx
        simp only [Bool.and_eq_true, beq_iff_eq] at hx
        exact hx.1) h
    have hmap := map_eq_bumpFirst
      (fun i : Item => i.productId == product.id && i.size == size.getD 42)
      (fun i => { i with quantity := i.quantity + quantity.getD 1 }) items hpair
    have hcond : (items.map fun i : Item =>
        if i.productId = product.id ∧ i.size = size.getD 42 then
          ({ i with quantity := i.quantity + quantity.getD 1 } : Item)
        else i) =
        items.map (fun x : Item =>
          if (x.productId == product.id && x.size == size.getD 42) = true then
            ({ x with quantity := x.quantity + quantity.getD 1 } : Item)
          else x) := by
      apply List.map_congr_left
      intro x _
      simp only [Bool.and_eq_true, beq_iff_eq]
    rw [addToCart_eq]
    by_cases hex : ∃ i ∈ items,
        i.key = AddPayload.key { product := product, quantity := quantity, size := size }
    · rw [if_pos hex]
      obtain ⟨i, hi, hkey⟩ := hex
      obtain ⟨y, hy, _⟩ := Cart.find_isSome_of_mem
        (fun i : Item => i.productId == product.id && i.size == size.getD 42) items i hi
        ((matches_iff_key i { product := product, quantity := quantity, size := size }).mpr hkey)
      simp only [contextAddToCart, hy]
      rw [hcond, hmap]
      rfl
    · rw [if_neg hex]
      have hnone : Cart.find
          (fun i : Item => i.productId == product.id && i.size == size.getD 42) items = none := by
        apply Cart.find_eq_none_of_forall
        intro x hx
        cases hm : (x.productId == product.id && x.size == size.getD 42) with
        | false => rfl
        | true =>
          exact absurd ⟨x, hx,
            (matches_iff_key x { product := product, quantity := quantity, size := size }).mp hm⟩
            hex
      simp only [contextAddToCart, hnone]
      rfl
  · intro productId
    have hpair := pairwise_of_nodup_ids items (fun i => i.productId == productId) productId
      (by
        intro x hx
        simpa using hx) h
    have hmap := map_eq_bumpFirst (fun i : Item => i.productId == productId)
      (fun i => { i with quantity := i.quantity + 1 }) items hpair
    have hb := findIndex_modifyAt (fun i : Item => i.productId == productId)
      (fun i => { i with quantity := i.quantity + 1 }) items
    have hinc : increaseQuantity items productId =
        bumpFirst (fun i : Item => i.productId == productId)
          (fun i => { i with quantity := i.quantity + 1 }) items := by
      rw [← hb]
      rfl
    rw [hinc, ← hmap]
    simp only [contextIncreaseQuantity]
    apply List.map_congr_left
    intro x _
    simp only [beq_iff_eq]

/-- C29 (witness): the sample cart, whose two lines have the product ids 1 and 2. -/
theorem local_carts_agree_witness :
    (sampleItems.map Item.productId).Nodup ∧
    (∀ productId,
      contextIncreaseQuantity sampleItems productId = increaseQuantity sampleItems productId) :=
  ⟨by decide, (local_carts_agree sampleItems (by decide)).2.1⟩

end LocalCart
